import Mathlib

/-!
# TinyText: a shallow embedding of the text batching core

The definitions below follow `TinyText.Core/TinyText.cpp`.

Modelling conventions:
* `int` and `unsigned int` values are `Int`/`Nat` with explicit 32-bit wrap-around
  (`wrapInt`, `wrapUInt`); signed overflow wraps in two's complement.
* `Print` is embedded twice.  In `Print` the positions are the exact rational values of
  the `float` expressions, as in real arithmetic; it serves where counters, offsets,
  texture coordinates, colours or the corner a slot holds are concerned.  In
  `PrintFloat32` the positions are computed in IEEE 754 binary32 as scalar
  single-precision code does: every conversion from an integer, every division and every
  addition is rounded to nearest, ties to even.  The two return the same flag, context
  and stores (`PrintFloat32_outcome`).
* `char` is signed, so bytes from 128 on are negative character values.
* Interface pointers are `Nat` handles, `0` being the null pointer.  The write cursor
  into the mapped vertex buffer is an optional offset counted in `DWORD`s from the
  mapped base; a successful `Map` yields the base, a failed one leaves it null.
* Reads of `CharacterData` past its 768 entries return bytes supplied by a parameter
  (`beyond`), over which the theorems quantify.
* The text passed to `Print` is the memory behind the `text` pointer, a function from
  character index to byte.
-/

namespace TinyText

/-! ## Constants -/

/-- Number of bytes per character: x, y and a byte packing y-offset (high 4 bits) and height (low 4 bits). -/
def CharacterByteCount : Nat := 3

/-- Total number of characters. -/
def CharacterCount : Nat := 256

/-- Width of each character (an `unsigned int` constant in the source). -/
def CharacterWidth : Nat := 8

/-- The width (in pixels) of the font texture. -/
def TextTextureWidth : Nat := 128

/-- The height (in pixels) of the font texture. -/
def TextTextureHeight : Nat := 128

/-- The character data, 256 entries of 3 bytes. -/
def CharacterData : List Nat := [
  108, 24, 41, 108, 24, 41, 108, 24, 41, 108, 24, 41, 108, 24, 41, 108, 24, 41, 108, 24, 41, 108, 24, 41,
  108, 24, 41, 108, 24, 41, 108, 24, 41, 108, 24, 41, 108, 24, 41, 108, 24, 41, 108, 24, 41, 108, 24, 41,
  108, 24, 41, 108, 24, 41, 108, 24, 41, 108, 24, 41, 108, 24, 41, 108, 24, 41, 108, 24, 41, 108, 24, 41,
  108, 24, 41, 108, 24, 41, 108, 24, 41, 108, 24, 41, 108, 24, 41, 108, 24, 41, 108, 24, 41, 108, 24, 41,
  72, 124, 208, 108, 24, 41, 36, 120, 35, 0, 37, 41, 9, 36, 41, 18, 36, 41, 27, 36, 41, 81, 118, 35,
  81, 0, 43, 90, 0, 43, 18, 120, 69, 108, 94, 71, 117, 115, 162, 45, 124, 113, 36, 124, 161, 9, 105, 55,
  99, 34, 41, 108, 34, 41, 117, 34, 41, 0, 47, 41, 9, 46, 41, 18, 46, 41, 27, 46, 41, 36, 46, 41,
  99, 24, 41, 45, 46, 41, 81, 104, 86, 27, 105, 87, 99, 94, 71, 72, 120, 83, 36, 105, 71, 72, 46, 41,
  81, 45, 41, 90, 45, 41, 99, 44, 41, 108, 44, 41, 117, 44, 41, 0, 57, 41, 9, 56, 41, 18, 56, 41,
  27, 56, 41, 36, 56, 41, 45, 56, 41, 54, 56, 41, 63, 56, 41, 72, 56, 41, 81, 55, 41, 90, 55, 41,
  0, 77, 41, 99, 54, 41, 108, 54, 41, 117, 54, 41, 0, 67, 41, 9, 66, 41, 18, 66, 41, 27, 66, 41,
  36, 66, 41, 45, 66, 41, 54, 66, 41, 72, 12, 43, 54, 105, 55, 99, 12, 43, 54, 120, 19, 54, 124, 193,
  99, 115, 34, 54, 113, 86, 63, 66, 41, 45, 113, 86, 72, 66, 41, 81, 111, 86, 81, 65, 41, 45, 96, 88,
  90, 65, 41, 99, 64, 41, 27, 0, 43, 108, 64, 41, 117, 64, 41, 36, 113, 86, 27, 113, 86, 18, 113, 86,
  90, 95, 88, 81, 95, 88, 9, 113, 86, 0, 114, 86, 63, 96, 56, 63, 113, 86, 117, 102, 86, 108, 102, 86,
  99, 102, 86, 27, 96, 88, 90, 104, 86, 36, 24, 43, 0, 0, 28, 63, 24, 43, 63, 120, 51, 27, 126, 208,
  108, 24, 41, 0, 127, 208, 108, 24, 41, 108, 24, 41, 108, 24, 41, 108, 24, 41, 108, 24, 41, 108, 24, 41,
  108, 24, 41, 108, 24, 41, 108, 24, 41, 108, 24, 41, 108, 24, 41, 117, 118, 208, 108, 24, 41, 99, 118, 208,
  108, 118, 208, 108, 24, 41, 108, 24, 41, 108, 24, 41, 108, 24, 41, 108, 24, 41, 108, 24, 41, 108, 24, 41,
  108, 24, 41, 108, 24, 41, 108, 24, 41, 108, 24, 41, 108, 24, 41, 81, 122, 208, 108, 24, 41, 108, 24, 41,
  90, 121, 208, 9, 76, 41, 0, 106, 71, 18, 96, 56, 117, 94, 39, 9, 96, 56, 45, 0, 43, 18, 76, 41,
  27, 124, 33, 72, 96, 40, 63, 105, 39, 99, 109, 101, 90, 118, 82, 9, 126, 113, 36, 96, 40, 18, 126, 17,
  27, 120, 35, 27, 76, 41, 108, 109, 37, 117, 109, 37, 108, 115, 34, 0, 97, 88, 36, 76, 41, 63, 124, 113,
  45, 120, 163, 0, 121, 37, 45, 105, 39, 9, 120, 101, 45, 76, 41, 54, 76, 41, 63, 76, 41, 72, 76, 41,
  36, 0, 11, 18, 0, 11, 9, 0, 11, 63, 12, 11, 54, 12, 11, 45, 12, 11, 81, 75, 41, 81, 24, 58,
  36, 12, 11, 27, 12, 11, 18, 12, 11, 9, 12, 11, 0, 13, 11, 117, 0, 11, 99, 0, 11, 72, 0, 11,
  90, 75, 41, 63, 0, 11, 54, 0, 11, 72, 24, 11, 54, 24, 11, 45, 24, 11, 27, 24, 11, 72, 105, 71,
  99, 74, 41, 18, 24, 11, 117, 12, 11, 108, 12, 11, 81, 12, 11, 108, 0, 11, 108, 74, 41, 117, 74, 41,
  0, 87, 41, 9, 86, 41, 18, 86, 41, 27, 86, 41, 36, 86, 41, 90, 24, 26, 72, 113, 86, 54, 96, 88,
  45, 86, 41, 54, 86, 41, 63, 86, 41, 72, 86, 41, 81, 85, 41, 90, 85, 41, 99, 84, 41, 108, 84, 41,
  117, 84, 41, 117, 24, 41, 36, 36, 41, 45, 36, 41, 54, 36, 41, 63, 36, 41, 72, 36, 41, 18, 105, 71,
  90, 111, 86, 81, 35, 41, 90, 35, 41, 54, 46, 41, 63, 46, 41, 9, 24, 43, 0, 25, 43, 90, 12, 43]

/-- Total number of vertices for each character. -/
def NumVerticesPerCharacter : Nat := 6

/-- Number of `DWORD` elements of the vertex stream for a single character
(the last enumerator of `VertexStreamElements`). -/
def NumVertexElementsPerCharacter : Nat := 24

/-! ## Machine arithmetic -/

/-- Value of an `int` expression: two's complement wrap-around to 32 bits. -/
def wrapInt (i : Int) : Int := (i + 2 ^ 31) % 2 ^ 32 - 2 ^ 31

/-- Value of an `unsigned int` expression: reduction modulo `2 ^ 32`. -/
def wrapUInt (i : Int) : Nat := (i % 2 ^ 32).toNat

/-- The cells of the vertex stream: a `DWORD` either carries the bit pattern of a
`float` (kept as the number it encodes) or plain bits. -/
inductive DWORD where
  | float (value : ℚ)
  | bits (value : Nat)
deriving DecidableEq

/-- Reinterprets a position coordinate as a `DWORD` (`*( ( DWORD * ) &pos )`). -/
def EncodePositionCoord (pos : ℚ) : DWORD := DWORD.float pos

/-- The 32-bit word `EncodeUVCoords` computes from `int u, int v`:
`result = u & 0x0000FFFF; result |= ( v << 16 ) & 0xFFFF0000`. -/
def EncodeUVWord (u v : Int) : Nat :=
  (wrapUInt u &&& 0x0000FFFF) ||| (wrapUInt (wrapUInt v <<< 16 : Nat) &&& 0xFFFF0000)

/-- Encodes the u and v coordinate into a `DWORD` of the vertex stream. -/
def EncodeUVCoords (u v : Int) : DWORD := DWORD.bits (EncodeUVWord u v)

/-! ## The text context -/

/-- The viewport fields `Print` reads (`FLOAT Width`, `FLOAT Height`). -/
structure D3D11_VIEWPORT where
  Width : ℚ
  Height : ℚ

/-- State of `TinyTextContext_c`.  Interface pointers are handles, `0` being null.
The write address is `none` when null and `some offset` when it points `offset`
`DWORD`s past the start of the mapped vertex buffer. -/
structure TinyTextContext_c where
  m_Device : Nat
  m_DeviceContext : Nat
  m_TextureView : Nat
  m_VertexShader : Nat
  m_PixelShader : Nat
  m_InputLayout : Nat
  m_VertexBuffer : Nat
  m_SamplerState : Nat
  m_DepthStencilState : Nat
  m_NumVertices : Nat
  m_Capacity : Nat
  m_VertexBufferWriteAddress : Option Nat

/-- Contents of the CPU-visible memory of the vertex buffer, indexed by `DWORD`
offset from the mapped base. -/
abbrev VertexMemory := Nat → DWORD

/-- `TinyTextContext_c::MapVertexBuffer`.  `mapSucceeds` is the outcome of
`ID3D11DeviceContext::Map`: on success `pData` is the (non-null) base of the buffer,
on failure it keeps the null value `ZeroMemory` gave it. -/
def MapVertexBuffer (ctx : TinyTextContext_c) (mapSucceeds : Bool) : Bool × TinyTextContext_c :=
  if ctx.m_DeviceContext = 0 then (false, ctx)
  else if ctx.m_VertexBuffer = 0 then (false, ctx)
  else
    match ctx.m_VertexBufferWriteAddress with
    | none =>
      let ctx := { ctx with m_NumVertices := 0 }
      let ctx := { ctx with m_VertexBufferWriteAddress := if mapSucceeds then some 0 else none }
      if !mapSucceeds then (false, ctx) else (true, ctx)
    | some _ => (true, ctx)

/-- Value of `char currentChar` for a byte of the text (`char` is signed on the
Direct3D 11 targets). -/
def charValue (byte : Fin 256) : Int :=
  if byte.val < 128 then (byte.val : Int) else (byte.val : Int) - 256

/-- Index `( currentChar * CharacterByteCount ) + k` as the `unsigned int` the source computes. -/
def characterDataIndex (currentChar : Int) (k : Nat) : Nat :=
  wrapUInt ((wrapUInt (currentChar * CharacterByteCount) : Int) + k)

/-- Read `CharacterData[ index ]`.  An index past the table reads whatever byte
lies there in memory; `beyond` supplies it. -/
def readCharacterData (beyond : Nat → Fin 256) (index : Nat) : Nat :=
  if h : index < CharacterData.length then CharacterData.get ⟨index, h⟩ else (beyond index).val

/-- `int u = CharacterData[ ( currentChar * CharacterByteCount ) + 0 ]`. -/
def glyphU (beyond : Nat → Fin 256) (currentChar : Int) : Int :=
  readCharacterData beyond (characterDataIndex currentChar 0)

/-- `int v = CharacterData[ ( currentChar * CharacterByteCount ) + 1 ]`. -/
def glyphV (beyond : Nat → Fin 256) (currentChar : Int) : Int :=
  readCharacterData beyond (characterDataIndex currentChar 1)

/-- `int height = CharacterData[ ( currentChar * CharacterByteCount ) + 2 ] & 0x0F`. -/
def glyphHeight (beyond : Nat → Fin 256) (currentChar : Int) : Int :=
  (readCharacterData beyond (characterDataIndex currentChar 2) &&& 0x0F : Nat)

/-- `int yoffset = ( CharacterData[ ( currentChar * CharacterByteCount ) + 2 ] ) >> 4`. -/
def glyphYOffset (beyond : Nat → Fin 256) (currentChar : Int) : Int :=
  (readCharacterData beyond (characterDataIndex currentChar 2) >>> 4 : Nat)

/-- `bottomLeftX = ( ( 2 * x ) / float( viewport.Width ) ) - 1.0f`, the quotient and the
difference taken exactly; `bottomLeftXFloat32` rounds them. -/
def bottomLeftX (viewport : D3D11_VIEWPORT) (x : Int) : ℚ :=
  (wrapInt (2 * x) : ℚ) / viewport.Width - 1

/-- `topRightX = ( ( 2 * ( x + CharacterWidth ) ) / float( viewport.Width ) ) - 1.0f`;
`CharacterWidth` is unsigned, so the sum and the product are `unsigned int`.  The
quotient and the difference are taken exactly; `topRightXFloat32` rounds them. -/
def topRightX (viewport : D3D11_VIEWPORT) (x : Int) : ℚ :=
  (wrapUInt (2 * (wrapUInt (x + CharacterWidth) : Int)) : ℚ) / viewport.Width - 1

/-- `charY = y + yoffset`. -/
def charY (beyond : Nat → Fin 256) (currentChar : Int) (y : Int) : Int :=
  wrapInt (y + glyphYOffset beyond currentChar)

/-- `bottomLeftY = ( ( -2 * ( charY + height ) ) / float( viewport.Height ) ) + 1.0f`, the
quotient and the sum taken exactly; `bottomLeftYFloat32` rounds them. -/
def bottomLeftY (beyond : Nat → Fin 256) (viewport : D3D11_VIEWPORT) (currentChar : Int)
    (y : Int) : ℚ :=
  (wrapInt (-2 * wrapInt (charY beyond currentChar y + glyphHeight beyond currentChar)) : ℚ)
    / viewport.Height + 1

/-- `topRightY = ( ( -2 * ( charY ) ) / float( viewport.Height ) ) + 1.0f`, the quotient
and the sum taken exactly; `topRightYFloat32` rounds them. -/
def topRightY (beyond : Nat → Fin 256) (viewport : D3D11_VIEWPORT) (currentChar : Int)
    (y : Int) : ℚ :=
  (wrapInt (-2 * charY beyond currentChar y) : ℚ) / viewport.Height + 1

/-- The 24 `DWORD`s written for one character, in the order of `VertexStreamElements`,
computed as in the body of the loop of `Print`, the positions being exact. -/
def characterElements (beyond : Nat → Fin 256) (viewport : D3D11_VIEWPORT) (currentChar : Int)
    (x y : Int) (colour : Nat) : List DWORD :=
  let u : Int := glyphU beyond currentChar
  let v : Int := glyphV beyond currentChar
  let height : Int := glyphHeight beyond currentChar
  let bottomLeftX : ℚ := bottomLeftX viewport x
  let bottomLeftY : ℚ := bottomLeftY beyond viewport currentChar y
  let bottomLeftU : Int := u
  let bottomLeftV : Int := wrapInt (v + height)
  let topRightX : ℚ := topRightX viewport x
  let topRightY : ℚ := topRightY beyond viewport currentChar y
  let topRightU : Int := wrapInt (wrapUInt (u + CharacterWidth))
  let topRightV : Int := v
  [ EncodePositionCoord bottomLeftX, EncodePositionCoord bottomLeftY,
      EncodeUVCoords bottomLeftU bottomLeftV, DWORD.bits colour,
    EncodePositionCoord bottomLeftX, EncodePositionCoord topRightY,
      EncodeUVCoords bottomLeftU topRightV, DWORD.bits colour,
    EncodePositionCoord topRightX, EncodePositionCoord bottomLeftY,
      EncodeUVCoords topRightU bottomLeftV, DWORD.bits colour,
    EncodePositionCoord topRightX, EncodePositionCoord topRightY,
      EncodeUVCoords topRightU topRightV, DWORD.bits colour,
    EncodePositionCoord topRightX, EncodePositionCoord bottomLeftY,
      EncodeUVCoords topRightU bottomLeftV, DWORD.bits colour,
    EncodePositionCoord bottomLeftX, EncodePositionCoord topRightY,
      EncodeUVCoords bottomLeftU topRightV, DWORD.bits colour ]

/-- `x += CharacterWidth`: the sum is `unsigned int` and is converted back to `int`. -/
def advanceX (x : Int) : Int := wrapInt (wrapUInt (x + CharacterWidth))

/-- Stores `elements` at `address[0]`, `address[1]`, ... of the vertex memory. -/
def writeElements (memory : VertexMemory) (address : Nat) : List DWORD → VertexMemory
  | [] => memory
  | e :: rest => writeElements (Function.update memory address e) (address + 1) rest

/-- What a call of `Print` leaves behind: the returned flag, the context, the vertex
memory, and the offsets (in `DWORD`s from the mapped base) of the stores made, in order. -/
structure PrintOutcome where
  result : Bool
  ctx : TinyTextContext_c
  memory : VertexMemory
  writes : List Nat

/-- The `while` loop of `Print`.  `text` is the memory the `text` pointer addresses,
`i` the number of characters consumed so far; the recursion is on `maxCharacterCount`.
The loop only runs after `MapVertexBuffer` returned `true`, when the write address is
not null; a null write address ends the model's loop with `false`. -/
def PrintLoop (beyond : Nat → Fin 256) (viewport : D3D11_VIEWPORT) (text : Nat → Fin 256)
    (y : Int) (colour : Nat) :
    (maxCharacterCount : Nat) → (i : Nat) → (x : Int) → TinyTextContext_c → VertexMemory →
      List Nat → PrintOutcome
  | maxCharacterCount, i, x, ctx, memory, writes =>
    let currentChar := charValue (text i)
    if currentChar = 0 then ⟨true, ctx, memory, writes⟩
    else
      match maxCharacterCount with
      | 0 => ⟨true, ctx, memory, writes⟩
      | maxCharacterCount + 1 =>
        if ctx.m_NumVertices / NumVerticesPerCharacter = ctx.m_Capacity then
          ⟨false, ctx, memory, writes⟩
        else
          match ctx.m_VertexBufferWriteAddress with
          | none => ⟨false, ctx, memory, writes⟩
          | some address =>
            let memory := writeElements memory address
              (characterElements beyond viewport currentChar x y colour)
            let writes := writes ++ (List.range NumVertexElementsPerCharacter).map (address + ·)
            let ctx := { ctx with
              m_VertexBufferWriteAddress := some (address + NumVertexElementsPerCharacter) }
            let ctx := { ctx with
              m_NumVertices := wrapUInt (ctx.m_NumVertices + NumVerticesPerCharacter) }
            let x := advanceX x
            PrintLoop beyond viewport text y colour maxCharacterCount (i + 1) x ctx memory writes

/-- `TinyTextContext_c::Print` with a character count. -/
def Print (ctx : TinyTextContext_c) (memory : VertexMemory) (mapSucceeds : Bool)
    (beyond : Nat → Fin 256) (viewport : D3D11_VIEWPORT) (maxCharacterCount : Nat)
    (text : Nat → Fin 256) (x y : Int) (colour : Nat) : PrintOutcome :=
  match MapVertexBuffer ctx mapSucceeds with
  | (false, ctx) => ⟨false, ctx, memory, []⟩
  | (true, ctx) => PrintLoop beyond viewport text y colour maxCharacterCount 0 x ctx memory []

/-- The memory a `const char *` addresses when it points at the characters `s`
followed by a null terminator. -/
def cstr (s : List (Fin 256)) : Nat → Fin 256 := fun i => s.getD i 0

/-! ## The device context -/

/-- Calls made on `ID3D11DeviceContext` by `Render` and the state guard. -/
inductive DeviceCall where
  | OMGetRenderTargets
  | Unmap (buffer : Nat)
  | GSGetShader | VSGetShader | PSGetShader | PSGetShaderResources | PSGetSamplers
  | IAGetInputLayout | IAGetVertexBuffers | IAGetPrimitiveTopology
  | OMGetBlendState | OMGetDepthStencilState | RSGetState
  | GSSetShader (shader : Nat)
  | VSSetShader (shader : Nat)
  | PSSetShader (shader : Nat)
  | PSSetShaderResources (view : Nat)
  | PSSetSamplers (sampler : Nat)
  | IASetInputLayout (layout : Nat)
  | IASetVertexBuffers (buffer stride offset : Nat)
  | IASetPrimitiveTopology (topology : Nat)
  | OMSetBlendState (state : Nat) (factor : Option (ℚ × ℚ × ℚ × ℚ)) (mask : Nat)
  | OMSetDepthStencilState (state stencilRef : Nat)
  | RSSetState (state : Nat)
  | Draw (vertexCount startVertexLocation : Nat)
deriving DecidableEq

/-- `D3D11_PRIMITIVE_TOPOLOGY_UNDEFINED`. -/
def D3D11_PRIMITIVE_TOPOLOGY_UNDEFINED : Nat := 0

/-- `D3D11_PRIMITIVE_TOPOLOGY_TRIANGLELIST`. -/
def D3D11_PRIMITIVE_TOPOLOGY_TRIANGLELIST : Nat := 4

/-- The part of the state of an `ID3D11DeviceContext` that this library reads or
writes: slot 0 bindings of the pipeline, the reference counts of the interfaces
(by handle) and the calls received so far. -/
structure DeviceState where
  VertexShader : Nat
  GeometryShader : Nat
  PixelShader : Nat
  PSShaderResource : Nat
  PSSampler : Nat
  InputLayout : Nat
  VertexBuffer : Nat
  VertexStride : Nat
  VertexOffset : Nat
  PrimitiveTopology : Nat
  BlendState : Nat
  BlendFactor : ℚ × ℚ × ℚ × ℚ
  SampleMask : Nat
  DepthStencilState : Nat
  StencilRef : Nat
  RasterizerState : Nat
  RenderTarget : Nat
  refCount : Nat → Nat
  calls : List DeviceCall

/-- Appends a call to the log of the device context. -/
def DeviceState.logCall (dev : DeviceState) (call : DeviceCall) : DeviceState :=
  { dev with calls := dev.calls ++ [call] }

/-- `IUnknown::AddRef` as performed by a `Get` call on the object it returns
(nothing happens for a null pointer). -/
def DeviceState.AddRef (dev : DeviceState) (handle : Nat) : DeviceState :=
  if handle = 0 then dev
  else { dev with refCount := Function.update dev.refCount handle (dev.refCount handle + 1) }

/-- `IUnknown::Release` on a non-null interface. -/
def DeviceState.Release (dev : DeviceState) (handle : Nat) : DeviceState :=
  { dev with refCount := Function.update dev.refCount handle (dev.refCount handle - 1) }

/-- `TinyTextContext_c::UnmapVertexBuffer`. -/
def UnmapVertexBuffer (ctx : TinyTextContext_c) (dev : DeviceState) :
    TinyTextContext_c × DeviceState :=
  match ctx.m_VertexBufferWriteAddress with
  | some _ =>
    let ctx := { ctx with m_VertexBufferWriteAddress := none }
    if ctx.m_VertexBuffer ≠ 0 then (ctx, dev.logCall (DeviceCall.Unmap ctx.m_VertexBuffer))
    else (ctx, dev)
  | none => (ctx, dev)

/-! ## The state guard -/

/-- Fields of `PreviousState_c`: the state captured and restored around `Render`. -/
structure PreviousState_c where
  prevVertexShader : Nat
  prevPixelShader : Nat
  prevTextureView : Nat
  prevSampler : Nat
  prevInputLayout : Nat
  prevVertexBuffer : Nat
  prevGeometryShader : Nat
  prevBlendState : Nat
  prevBlendFactor : ℚ × ℚ × ℚ × ℚ
  prevSampleMask : Nat
  prevDepthStencilState : Nat
  prevStencilRef : Nat
  numViewports : Nat
  prevRasterizerState : Nat
  prevVertexStride : Nat
  prevVertexOffset : Nat
  prevTopology : Nat

/-- `PreviousState_c::PreviousState_c`. -/
def PreviousState_c.new : PreviousState_c where
  prevVertexShader := 0
  prevPixelShader := 0
  prevTextureView := 0
  prevSampler := 0
  prevInputLayout := 0
  prevVertexBuffer := 0
  prevGeometryShader := 0
  prevBlendState := 0
  prevBlendFactor := (0, 0, 0, 0)
  prevSampleMask := 0xffffffff
  prevDepthStencilState := 0
  prevStencilRef := 0
  numViewports := 1
  prevRasterizerState := 0
  prevVertexStride := 0
  prevVertexOffset := 0
  prevTopology := D3D11_PRIMITIVE_TOPOLOGY_UNDEFINED

/-- `PreviousState_c::Capture`: every `Get` call stores the current binding in the
guard and adds a reference to the object returned. -/
def PreviousState_c.Capture (state : PreviousState_c) (dev : DeviceState) :
    PreviousState_c × DeviceState :=
  let state := { state with prevGeometryShader := dev.GeometryShader }
  let dev := (dev.logCall DeviceCall.GSGetShader).AddRef dev.GeometryShader
  let state := { state with prevVertexShader := dev.VertexShader }
  let dev := (dev.logCall DeviceCall.VSGetShader).AddRef dev.VertexShader
  let state := { state with prevPixelShader := dev.PixelShader }
  let dev := (dev.logCall DeviceCall.PSGetShader).AddRef dev.PixelShader
  let state := { state with prevTextureView := dev.PSShaderResource }
  let dev := (dev.logCall DeviceCall.PSGetShaderResources).AddRef dev.PSShaderResource
  let state := { state with prevSampler := dev.PSSampler }
  let dev := (dev.logCall DeviceCall.PSGetSamplers).AddRef dev.PSSampler
  let state := { state with prevInputLayout := dev.InputLayout }
  let dev := (dev.logCall DeviceCall.IAGetInputLayout).AddRef dev.InputLayout
  let state := { state with
    prevVertexBuffer := dev.VertexBuffer
    prevVertexStride := dev.VertexStride
    prevVertexOffset := dev.VertexOffset }
  let dev := (dev.logCall DeviceCall.IAGetVertexBuffers).AddRef dev.VertexBuffer
  let state := { state with prevTopology := dev.PrimitiveTopology }
  let dev := dev.logCall DeviceCall.IAGetPrimitiveTopology
  let state := { state with
    prevBlendState := dev.BlendState
    prevBlendFactor := dev.BlendFactor
    prevSampleMask := dev.SampleMask }
  let dev := (dev.logCall DeviceCall.OMGetBlendState).AddRef dev.BlendState
  let state := { state with
    prevDepthStencilState := dev.DepthStencilState
    prevStencilRef := dev.StencilRef }
  let dev := (dev.logCall DeviceCall.OMGetDepthStencilState).AddRef dev.DepthStencilState
  let state := { state with prevRasterizerState := dev.RasterizerState }
  let dev := (dev.logCall DeviceCall.RSGetState).AddRef dev.RasterizerState
  (state, dev)

/-- One `if ( p ) { p->Release( ); p = 0; }` step of `PreviousState_c::Release`:
the new value of the pointer and of the device. -/
def releasePointer (dev : DeviceState) (handle : Nat) : Nat × DeviceState :=
  if handle ≠ 0 then (0, dev.Release handle) else (handle, dev)

/-- `PreviousState_c::Release`. -/
def PreviousState_c.Release (state : PreviousState_c) (dev : DeviceState) :
    PreviousState_c × DeviceState :=
  let r := releasePointer dev state.prevVertexShader
  let state := { state with prevVertexShader := r.1 }
  let r := releasePointer r.2 state.prevPixelShader
  let state := { state with prevPixelShader := r.1 }
  let r := releasePointer r.2 state.prevTextureView
  let state := { state with prevTextureView := r.1 }
  let r := releasePointer r.2 state.prevSampler
  let state := { state with prevSampler := r.1 }
  let r := releasePointer r.2 state.prevInputLayout
  let state := { state with prevInputLayout := r.1 }
  let r := releasePointer r.2 state.prevVertexBuffer
  let state := { state with prevVertexBuffer := r.1 }
  let r := releasePointer r.2 state.prevGeometryShader
  let state := { state with prevGeometryShader := r.1 }
  let r := releasePointer r.2 state.prevBlendState
  let state := { state with prevBlendState := r.1 }
  let r := releasePointer r.2 state.prevDepthStencilState
  let state := { state with prevDepthStencilState := r.1 }
  let r := releasePointer r.2 state.prevRasterizerState
  let state := { state with prevRasterizerState := r.1 }
  (state, r.2)

/-- `OMSetBlendState`: a null blend factor selects the default factor `{ 1, 1, 1, 1 }`. -/
def DeviceState.OMSetBlendState (dev : DeviceState) (state : Nat)
    (factor : Option (ℚ × ℚ × ℚ × ℚ)) (mask : Nat) : DeviceState :=
  { dev.logCall (DeviceCall.OMSetBlendState state factor mask) with
    BlendState := state
    BlendFactor := factor.getD (1, 1, 1, 1)
    SampleMask := mask }

/-- `GSSetShader`. -/
def DeviceState.GSSetShader (dev : DeviceState) (shader : Nat) : DeviceState :=
  { dev.logCall (DeviceCall.GSSetShader shader) with GeometryShader := shader }

/-- `VSSetShader`. -/
def DeviceState.VSSetShader (dev : DeviceState) (shader : Nat) : DeviceState :=
  { dev.logCall (DeviceCall.VSSetShader shader) with VertexShader := shader }

/-- `PSSetShader`. -/
def DeviceState.PSSetShader (dev : DeviceState) (shader : Nat) : DeviceState :=
  { dev.logCall (DeviceCall.PSSetShader shader) with PixelShader := shader }

/-- `PSSetShaderResources( 0, 1, &view )`. -/
def DeviceState.PSSetShaderResources (dev : DeviceState) (view : Nat) : DeviceState :=
  { dev.logCall (DeviceCall.PSSetShaderResources view) with PSShaderResource := view }

/-- `PSSetSamplers( 0, 1, &sampler )`. -/
def DeviceState.PSSetSamplers (dev : DeviceState) (sampler : Nat) : DeviceState :=
  { dev.logCall (DeviceCall.PSSetSamplers sampler) with PSSampler := sampler }

/-- `IASetInputLayout`. -/
def DeviceState.IASetInputLayout (dev : DeviceState) (layout : Nat) : DeviceState :=
  { dev.logCall (DeviceCall.IASetInputLayout layout) with InputLayout := layout }

/-- `IASetVertexBuffers( 0, 1, &buffer, &stride, &offset )`. -/
def DeviceState.IASetVertexBuffers (dev : DeviceState) (buffer stride offset : Nat) :
    DeviceState :=
  { dev.logCall (DeviceCall.IASetVertexBuffers buffer stride offset) with
    VertexBuffer := buffer
    VertexStride := stride
    VertexOffset := offset }

/-- `IASetPrimitiveTopology`. -/
def DeviceState.IASetPrimitiveTopology (dev : DeviceState) (topology : Nat) : DeviceState :=
  { dev.logCall (DeviceCall.IASetPrimitiveTopology topology) with PrimitiveTopology := topology }

/-- `OMSetDepthStencilState`. -/
def DeviceState.OMSetDepthStencilState (dev : DeviceState) (state stencilRef : Nat) :
    DeviceState :=
  { dev.logCall (DeviceCall.OMSetDepthStencilState state stencilRef) with
    DepthStencilState := state
    StencilRef := stencilRef }

/-- `RSSetState`. -/
def DeviceState.RSSetState (dev : DeviceState) (state : Nat) : DeviceState :=
  { dev.logCall (DeviceCall.RSSetState state) with RasterizerState := state }

/-- `Draw`. -/
def DeviceState.Draw (dev : DeviceState) (vertexCount startVertexLocation : Nat) : DeviceState :=
  dev.logCall (DeviceCall.Draw vertexCount startVertexLocation)

/-- `PreviousState_c::Restore`. -/
def PreviousState_c.Restore (state : PreviousState_c) (dev : DeviceState) :
    PreviousState_c × DeviceState :=
  let dev := dev.GSSetShader state.prevGeometryShader
  let dev := dev.VSSetShader state.prevVertexShader
  let dev := dev.PSSetShader state.prevPixelShader
  let dev := dev.PSSetShaderResources state.prevTextureView
  let dev := dev.PSSetSamplers state.prevSampler
  let dev := dev.IASetInputLayout state.prevInputLayout
  let dev := dev.IASetVertexBuffers state.prevVertexBuffer state.prevVertexStride
    state.prevVertexOffset
  let dev := dev.IASetPrimitiveTopology state.prevTopology
  let dev := dev.OMSetBlendState state.prevBlendState (some state.prevBlendFactor)
    state.prevSampleMask
  let dev := dev.OMSetDepthStencilState state.prevDepthStencilState state.prevStencilRef
  let dev := dev.RSSetState state.prevRasterizerState
  state.Release dev

/-- Size of a `DWORD` in bytes. -/
def sizeofDWORD : Nat := 4

/-- `TinyTextContext_c::Render`: the returned flag, the context and the device
afterwards.  The last step is the destructor of the local `PreviousState_c`. -/
def Render (ctx : TinyTextContext_c) (dev : DeviceState) (maintainState : Bool) :
    Bool × TinyTextContext_c × DeviceState :=
  if ctx.m_Device = 0 then (false, ctx, dev)
  else
    let rtv := dev.RenderTarget
    let dev := (dev.logCall DeviceCall.OMGetRenderTargets).AddRef rtv
    if rtv = 0 then (false, ctx, dev)
    else
      let dev := dev.Release rtv
      let unmapped := UnmapVertexBuffer ctx dev
      let ctx := unmapped.1
      let dev := unmapped.2
      let state := PreviousState_c.new
      let captured := if maintainState then state.Capture dev else (state, dev)
      let state := captured.1
      let dev := captured.2
      let vertexStride : Nat :=
        wrapUInt ((NumVertexElementsPerCharacter / NumVerticesPerCharacter * sizeofDWORD : Nat))
      let vertexOffset : Nat := 0
      let dev := dev.VSSetShader ctx.m_VertexShader
      let dev := dev.GSSetShader 0
      let dev := dev.PSSetShader ctx.m_PixelShader
      let dev := dev.PSSetShaderResources ctx.m_TextureView
      let dev := dev.PSSetSamplers ctx.m_SamplerState
      let dev := dev.IASetInputLayout ctx.m_InputLayout
      let dev := dev.IASetVertexBuffers ctx.m_VertexBuffer vertexStride vertexOffset
      let dev := dev.IASetPrimitiveTopology D3D11_PRIMITIVE_TOPOLOGY_TRIANGLELIST
      let dev := dev.OMSetDepthStencilState ctx.m_DepthStencilState 0
      let dev := dev.OMSetBlendState 0 none 0xffffffff
      let dev := dev.RSSetState 0
      let dev := dev.Draw ctx.m_NumVertices 0
      let restored := if maintainState then state.Restore dev else (state, dev)
      let state := restored.1
      let dev := restored.2
      let released := state.Release dev
      (true, ctx, released.2)

/-! ## Construction -/

/-- Outcome of each resource-creation step of `Initialise`: the handle obtained,
`0` when the step fails. -/
structure CreationOutcomes where
  vertexShaderByteCode : Nat
  vertexShader : Nat
  inputLayout : Nat
  textureView : Nat
  pixelShader : Nat
  vertexBuffer : Nat
  samplerState : Nat
  depthStencilState : Nat

/-- `TinyTextContext_c::Initialise`: the returned flag, the context afterwards and
the handles on which `Release` was called, in order. -/
def Initialise (ctx : TinyTextContext_c) (device deviceContext : Nat)
    (created : CreationOutcomes) : Bool × TinyTextContext_c × List Nat :=
  if device = 0 then (false, ctx, [])
  else
    let vertexShaderByteCode := created.vertexShaderByteCode
    if vertexShaderByteCode = 0 then (false, ctx, [])
    else
      let vertexShader := created.vertexShader
      let inputLayout := created.inputLayout
      let released := [vertexShaderByteCode]
      if vertexShader = 0 then (false, ctx, released)
      else if inputLayout = 0 then (false, ctx, released ++ [vertexShader])
      else
        let textureView := created.textureView
        if textureView = 0 then (false, ctx, released ++ [vertexShader, inputLayout])
        else
          let pixelShader := created.pixelShader
          if pixelShader = 0 then
            (false, ctx, released ++ [vertexShader, inputLayout, textureView])
          else
            let vertexBuffer := created.vertexBuffer
            if vertexBuffer = 0 then
              (false, ctx, released ++ [vertexShader, inputLayout, textureView, pixelShader])
            else
              let samplerState := created.samplerState
              if samplerState = 0 then
                (false, ctx, released ++
                  [vertexShader, inputLayout, textureView, pixelShader, vertexBuffer])
              else
                let depthStencilState := created.depthStencilState
                if depthStencilState = 0 then
                  (false, ctx, released ++
                    [vertexShader, inputLayout, textureView, pixelShader, vertexBuffer,
                      samplerState])
                else
                  (true,
                    { ctx with
                      m_Device := device
                      m_DeviceContext := deviceContext
                      m_VertexShader := vertexShader
                      m_InputLayout := inputLayout
                      m_TextureView := textureView
                      m_PixelShader := pixelShader
                      m_VertexBuffer := vertexBuffer
                      m_SamplerState := samplerState
                      m_DepthStencilState := depthStencilState },
                    released)

/-- `TinyTextContext_c::TinyTextContext_c`: the result flag, the constructed context
and the handles released during initialisation.  `m_Capacity` is an `unsigned int`
initialised from the `size_t` argument. -/
def TinyTextContext_c.new (device deviceContext : Nat) (characterCapacity : Nat)
    (created : CreationOutcomes) : Bool × TinyTextContext_c × List Nat :=
  let ctx : TinyTextContext_c :=
    { m_Device := 0
      m_DeviceContext := 0
      m_TextureView := 0
      m_VertexShader := 0
      m_PixelShader := 0
      m_InputLayout := 0
      m_VertexBuffer := 0
      m_SamplerState := 0
      m_DepthStencilState := 0
      m_NumVertices := 0
      m_Capacity := wrapUInt characterCapacity
      m_VertexBufferWriteAddress := none }
  Initialise ctx device deviceContext created

/-! ## Sequences of calls -/

/-- A call made by the host on a text context, with what the environment supplies
to it: the outcome of `Map` for `Print`, the device state found by `Render`. -/
inductive Call where
  | Print (mapSucceeds : Bool) (viewport : D3D11_VIEWPORT) (maxCharacterCount : Nat)
      (text : Nat → Fin 256) (x y : Int) (colour : Nat)
  | Render (dev : DeviceState) (maintainState : Bool)

/-- The batch: the context together with the memory of its vertex buffer and the
offsets of all stores `Print` made so far. -/
structure Batch where
  ctx : TinyTextContext_c
  memory : VertexMemory
  writes : List Nat

/-- Effect of one call on the batch. -/
def Batch.step (beyond : Nat → Fin 256) (b : Batch) : Call → Batch
  | Call.Print mapSucceeds viewport maxCharacterCount text x y colour =>
    let r := Print b.ctx b.memory mapSucceeds beyond viewport maxCharacterCount text x y colour
    { ctx := r.ctx, memory := r.memory, writes := b.writes ++ r.writes }
  | Call.Render dev maintainState =>
    { b with ctx := (Render b.ctx dev maintainState).2.1 }

/-- Effect of a sequence of calls, first call first. -/
def Batch.run (beyond : Nat → Fin 256) (b : Batch) (calls : List Call) : Batch :=
  calls.foldl (Batch.step beyond) b

/-! ## Vocabulary of the specification -/

/-- Number of characters the loop of `Print` can consume from index `i` on: the
characters before the first null, at most `maxCharacterCount` of them. -/
def effectiveLength (text : Nat → Fin 256) : (maxCharacterCount : Nat) → (i : Nat) → Nat
  | 0, _ => 0
  | maxCharacterCount + 1, i =>
    if text i = 0 then 0 else effectiveLength text maxCharacterCount (i + 1) + 1

/-- The vertex stream of `count` consecutive glyphs: the characters of `text` from
index `i` on, the first one drawn at `x`. -/
def glyphStream (beyond : Nat → Fin 256) (viewport : D3D11_VIEWPORT) (text : Nat → Fin 256)
    (y : Int) (colour : Nat) : (count : Nat) → (i : Nat) → (x : Int) → List DWORD
  | 0, _, _ => []
  | count + 1, i, x =>
    characterElements beyond viewport (charValue (text i)) x y colour ++
      glyphStream beyond viewport text y colour count (i + 1) (advanceX x)

/-- The number a position element of the vertex stream encodes (`0` for other elements). -/
def DWORD.toFloat : DWORD → ℚ
  | DWORD.float value => value
  | DWORD.bits _ => 0

/-- The bits of a texture-coordinate or colour element (`0` for a position element). -/
def DWORD.toBits : DWORD → Nat
  | DWORD.float _ => 0
  | DWORD.bits value => value

/-- Positions `(x, y)` of the six vertices of one character, in buffer order. -/
def vertexPositions (elements : List DWORD) : List (ℚ × ℚ) :=
  (List.range NumVerticesPerCharacter).map fun k =>
    ((elements.getD (4 * k) (DWORD.bits 0)).toFloat,
      (elements.getD (4 * k + 1) (DWORD.bits 0)).toFloat)

/-- Colour fields of the six vertices of one character, in buffer order. -/
def vertexColours (elements : List DWORD) : List DWORD :=
  (List.range NumVerticesPerCharacter).map fun k => elements.getD (4 * k + 3) (DWORD.float 0)

/-- Device to pixel space: `px = (ndcX + 1) * W / 2`. -/
def specPixelX (viewport : D3D11_VIEWPORT) (ndcX : ℚ) : ℚ := (ndcX + 1) * viewport.Width / 2

/-- Device to pixel space: `py = (1 - ndcY) * H / 2`. -/
def specPixelY (viewport : D3D11_VIEWPORT) (ndcY : ℚ) : ℚ := (1 - ndcY) * viewport.Height / 2

/-- The four bytes of a 32-bit word in little-endian memory order. -/
def littleEndianBytes (word : Nat) : List Nat :=
  [word % 256, word / 256 % 256, word / 65536 % 256, word / 16777216 % 256]

/-- The vertex count `Print` starts from: the current count when the buffer is already
mapped, `0` when `Print` has to map it. -/
def startCount (ctx : TinyTextContext_c) : Nat :=
  if ctx.m_VertexBufferWriteAddress.isSome then ctx.m_NumVertices else 0

/-- The glyph slots that remain when `Print` starts: `capacity - k / 6`. -/
def remainingSlots (ctx : TinyTextContext_c) : Nat :=
  ctx.m_Capacity - startCount ctx / NumVerticesPerCharacter

/-- The relation between the members of a context that every call maintains: the
vertex count is six times a glyph count within the capacity, and a non-null write
address lies 24 `DWORD`s per glyph past the mapped base. -/
def TinyTextContext_c.Invariant (ctx : TinyTextContext_c) : Prop :=
  ∃ g : Nat, ctx.m_NumVertices = 6 * g ∧ g ≤ ctx.m_Capacity ∧
    ∀ a, ctx.m_VertexBufferWriteAddress = some a → a = 24 * g

/-- The batches a host can reach: a context constructed with `characterCapacity`
followed by any sequence of `Print` and `Render` calls. -/
def Batch.Reachable (beyond : Nat → Fin 256) (characterCapacity : Nat) (b : Batch) : Prop :=
  ∃ (device deviceContext : Nat) (created : CreationOutcomes) (memory : VertexMemory)
    (calls : List Call),
    b = Batch.run beyond
      ⟨(TinyTextContext_c.new device deviceContext characterCapacity created).2.1, memory, []⟩
      calls

/-! ## Concrete inputs used to exercise the theorems -/

/-- Memory behind the glyph table in the examples: zero bytes. -/
def exampleBeyond : Nat → Fin 256 := fun _ => 0

/-- A 640 by 480 viewport. -/
def exampleViewport : D3D11_VIEWPORT := ⟨640, 480⟩

/-- Vertex memory filled with zero words. -/
def exampleMemory : VertexMemory := fun _ => DWORD.bits 0

/-- Creation outcomes in which every step succeeds. -/
def exampleCreated : CreationOutcomes := ⟨11, 12, 13, 14, 15, 16, 17, 18⟩

/-- A context constructed with capacity 10 on device `1` and device context `2`. -/
def exampleContext : TinyTextContext_c := (TinyTextContext_c.new 1 2 10 exampleCreated).2.1

/-- The text "HELLO". -/
def helloText : Nat → Fin 256 := cstr [72, 69, 76, 76, 79]

/-- The text "WORLD". -/
def worldText : Nat → Fin 256 := cstr [87, 79, 82, 76, 68]

/-- The text "A". -/
def letterAText : Nat → Fin 256 := cstr [65]

/-- The batch after `Print "HELLO"` at `(0, 0)` on the example context. -/
def helloBatch : Batch :=
  Batch.run exampleBeyond ⟨exampleContext, exampleMemory, []⟩
    [Call.Print true exampleViewport 5 helloText 0 0 0xFFFFFFFF]

/-- The batch after `Print "HELLO"` and `Print "WORLD"` on the example context. -/
def helloWorldBatch : Batch :=
  Batch.run exampleBeyond ⟨exampleContext, exampleMemory, []⟩
    [Call.Print true exampleViewport 5 helloText 0 0 0xFFFFFFFF,
     Call.Print true exampleViewport 5 worldText 40 0 0xFFFFFFFF]

/-- The memory holding `n` copies of the character `c` followed by null bytes. -/
def repeatedText (n : Nat) (c : Fin 256) : Nat → Fin 256 := fun j => if j < n then c else 0

/-- A context constructed with capacity 715827883, the least capacity `c` with
`2 ^ 32 ≤ 6 * c`. -/
def hugeContext : TinyTextContext_c := (TinyTextContext_c.new 1 2 715827883 exampleCreated).2.1

/-- The outcome of printing 715827882 characters on the fresh `hugeContext`: one glyph
slot remains and the vertex counter stands six below `2 ^ 32`. -/
def wrapOutcome : PrintOutcome :=
  Print hugeContext exampleMemory true exampleBeyond exampleViewport 715827882
    (repeatedText 715827882 65) 0 0 0xFFFFFFFF

/-! ## Further operations and observations -/

/-- `TinyTextContext_c::Print` without a character count: it forwards to the counted
overload with `0xffffffff`. -/
def PrintText (ctx : TinyTextContext_c) (memory : VertexMemory) (mapSucceeds : Bool)
    (beyond : Nat → Fin 256) (viewport : D3D11_VIEWPORT) (text : Nat → Fin 256) (x y : Int)
    (colour : Nat) : PrintOutcome :=
  Print ctx memory mapSucceeds beyond viewport 0xffffffff text x y colour

/-- The loop of `Print` once more, recording in addition the indices at which it reads
`text` (each evaluation of `*( text++ )`), in order. -/
def PrintLoopTraced (beyond : Nat → Fin 256) (viewport : D3D11_VIEWPORT) (text : Nat → Fin 256)
    (y : Int) (colour : Nat) :
    (maxCharacterCount : Nat) → (i : Nat) → (x : Int) → TinyTextContext_c → VertexMemory →
      List Nat → List Nat → PrintOutcome × List Nat
  | maxCharacterCount, i, x, ctx, memory, writes, reads =>
    let currentChar := charValue (text i)
    let reads := reads ++ [i]
    if currentChar = 0 then (⟨true, ctx, memory, writes⟩, reads)
    else
      match maxCharacterCount with
      | 0 => (⟨true, ctx, memory, writes⟩, reads)
      | maxCharacterCount + 1 =>
        if ctx.m_NumVertices / NumVerticesPerCharacter = ctx.m_Capacity then
          (⟨false, ctx, memory, writes⟩, reads)
        else
          match ctx.m_VertexBufferWriteAddress with
          | none => (⟨false, ctx, memory, writes⟩, reads)
          | some address =>
            let memory := writeElements memory address
              (characterElements beyond viewport currentChar x y colour)
            let writes := writes ++ (List.range NumVertexElementsPerCharacter).map (address + ·)
            let ctx := { ctx with
              m_VertexBufferWriteAddress := some (address + NumVertexElementsPerCharacter) }
            let ctx := { ctx with
              m_NumVertices := wrapUInt (ctx.m_NumVertices + NumVerticesPerCharacter) }
            let x := advanceX x
            PrintLoopTraced beyond viewport text y colour maxCharacterCount (i + 1) x ctx memory
              writes reads

/-- `Print` with a character count, together with the indices of `text` it reads. -/
def PrintTraced (ctx : TinyTextContext_c) (memory : VertexMemory) (mapSucceeds : Bool)
    (beyond : Nat → Fin 256) (viewport : D3D11_VIEWPORT) (maxCharacterCount : Nat)
    (text : Nat → Fin 256) (x y : Int) (colour : Nat) : PrintOutcome × List Nat :=
  match MapVertexBuffer ctx mapSucceeds with
  | (false, ctx) => (⟨false, ctx, memory, []⟩, [])
  | (true, ctx) =>
    PrintLoopTraced beyond viewport text y colour maxCharacterCount 0 x ctx memory [] []

/-- The device fields that `Render` writes: vertex, geometry and pixel shader, pixel
stage shader resource and sampler of slot 0, input layout, vertex buffer of slot 0
with stride and offset, primitive topology, blend state with blend factor and sample
mask, depth-stencil state with stencil reference, rasterizer state. -/
def DeviceState.written (dev : DeviceState) :
    Nat × Nat × Nat × Nat × Nat × Nat × Nat × Nat × Nat × Nat × Nat × (ℚ × ℚ × ℚ × ℚ) × Nat ×
      Nat × Nat × Nat :=
  (dev.VertexShader, dev.GeometryShader, dev.PixelShader, dev.PSShaderResource, dev.PSSampler,
    dev.InputLayout, dev.VertexBuffer, dev.VertexStride, dev.VertexOffset,
    dev.PrimitiveTopology, dev.BlendState, dev.BlendFactor, dev.SampleMask,
    dev.DepthStencilState, dev.StencilRef, dev.RasterizerState)

/-- The ten object pointers held by the state guard. -/
def PreviousState_c.pointers (state : PreviousState_c) : List Nat :=
  [state.prevVertexShader, state.prevPixelShader, state.prevTextureView, state.prevSampler,
    state.prevInputLayout, state.prevVertexBuffer, state.prevGeometryShader,
    state.prevBlendState, state.prevDepthStencilState, state.prevRasterizerState]

/-- The resource handles of a context. -/
def TinyTextContext_c.handles (ctx : TinyTextContext_c) : List Nat :=
  [ctx.m_Device, ctx.m_DeviceContext, ctx.m_TextureView, ctx.m_VertexShader, ctx.m_PixelShader,
    ctx.m_InputLayout, ctx.m_VertexBuffer, ctx.m_SamplerState, ctx.m_DepthStencilState]

/-- A device state of a host application: objects 101 to 110 bound to the pipeline,
render target 120, every object referenced once. -/
def exampleDevice : DeviceState where
  VertexShader := 101
  GeometryShader := 102
  PixelShader := 103
  PSShaderResource := 104
  PSSampler := 105
  InputLayout := 106
  VertexBuffer := 107
  VertexStride := 32
  VertexOffset := 64
  PrimitiveTopology := 5
  BlendState := 108
  BlendFactor := (1 / 2, 1 / 4, 1, 0)
  SampleMask := 255
  DepthStencilState := 109
  StencilRef := 3
  RasterizerState := 110
  RenderTarget := 120
  refCount := fun _ => 1
  calls := []

/-- The example device with no render target bound. -/
def exampleDeviceWithoutTarget : DeviceState := { exampleDevice with RenderTarget := 0 }

/-- A text buffer holding the single character `A` and no null terminator; the bytes
behind the buffer are `0xCD`. -/
def unterminatedText : Nat → Fin 256 := fun j => if j = 0 then 65 else 0xCD

/-- Creation outcomes in which the vertex shader fails and the input layout succeeds. -/
def vertexShaderFails : CreationOutcomes := ⟨11, 0, 13, 14, 15, 16, 17, 18⟩

/-! ## Vertex layout, draw calls and buffer size -/

/-- The formats used by the input layout. -/
inductive DXGI_FORMAT where
  | R32G32_FLOAT
  | R16G16_UINT
  | R8G8B8A8_UNORM
deriving DecidableEq

/-- Size in bytes of an element of the given format: two 32-bit floats, two 16-bit
unsigned integers, four 8-bit channels. -/
def DXGI_FORMAT.byteSize : DXGI_FORMAT → Nat
  | DXGI_FORMAT.R32G32_FLOAT => 2 * 4
  | DXGI_FORMAT.R16G16_UINT => 2 * 2
  | DXGI_FORMAT.R8G8B8A8_UNORM => 4 * 1

/-- The fields of `D3D11_INPUT_ELEMENT_DESC` that place an element in the vertex. -/
structure D3D11_INPUT_ELEMENT_DESC where
  Format : DXGI_FORMAT
  AlignedByteOffset : Nat
deriving DecidableEq

/-- The array `desc` of `CreateInputLayout`: position, texture coordinate, colour. -/
def inputLayoutDesc : List D3D11_INPUT_ELEMENT_DESC :=
  [⟨DXGI_FORMAT.R32G32_FLOAT, 0⟩, ⟨DXGI_FORMAT.R16G16_UINT, 8⟩, ⟨DXGI_FORMAT.R8G8B8A8_UNORM, 12⟩]

/-- Value of a `size_t` expression where `size_t` has `sizeBits` bits. -/
def wrapSize (sizeBits : Nat) (n : Nat) : Nat := n % 2 ^ sizeBits

/-- `desc.ByteWidth` as `CreateVertexBuffer` sets it: `bufferSize`, the `size_t` product
`characterCapacity * ( NumVertexElementsPerCharacter * sizeof( DWORD ) )`, assigned to
the `UINT` field. -/
def CreateVertexBuffer_ByteWidth (sizeBits : Nat) (characterCapacity : Nat) : Nat :=
  let bufferSize := wrapSize sizeBits
    (characterCapacity * wrapSize sizeBits (NumVertexElementsPerCharacter * sizeofDWORD))
  wrapUInt bufferSize

/-- The `Draw` calls of a log. -/
def drawCalls (calls : List DeviceCall) : List DeviceCall :=
  calls.filter fun call =>
    match call with
    | DeviceCall.Draw _ _ => true
    | _ => false

/-- The vertex buffer binding (buffer, stride, offset) in effect at the first `Draw` of
a log, given the binding `bound` in effect at its start. -/
def vertexBufferAtDraw :
    List DeviceCall → Option (Nat × Nat × Nat) → Option (Nat × Nat × Nat)
  | [], _ => none
  | DeviceCall.Draw _ _ :: _, bound => bound
  | DeviceCall.IASetVertexBuffers buffer stride offset :: rest, _ =>
    vertexBufferAtDraw rest (some (buffer, stride, offset))
  | _ :: rest, bound => vertexBufferAtDraw rest bound

/-- Texture coordinates `(U, V)` of the six vertices of one character, in buffer order,
decoded from the packed element as `(word & 0xFFFF, word >> 16)`. -/
def vertexTexCoords (elements : List DWORD) : List (Nat × Nat) :=
  (List.range NumVerticesPerCharacter).map fun k =>
    ((elements.getD (4 * k + 2) (DWORD.bits 0)).toBits &&& 0xFFFF,
      (elements.getD (4 * k + 2) (DWORD.bits 0)).toBits >>> 16)

/-- Signed area of the triangle `p`, `q`, `r`; its sign is the winding. -/
def signedArea (p q r : ℚ × ℚ) : ℚ :=
  ((q.1 - p.1) * (r.2 - p.2) - (r.1 - p.1) * (q.2 - p.2)) / 2

/-- The outcome of `Print "A"` on the context of `wrapOutcome`: the last glyph slot is
used and the 32-bit vertex counter has wrapped. -/
def wrappedOutcome : PrintOutcome :=
  Print wrapOutcome.ctx wrapOutcome.memory true exampleBeyond exampleViewport 1 letterAText 0 0
    0xFFFFFFFF

/-- The outcome of `Print "AA"` on the context of `wrapOutcome`, where one glyph slot
remains. -/
def overfullOutcome : PrintOutcome :=
  Print wrapOutcome.ctx wrapOutcome.memory true exampleBeyond exampleViewport 2
    (repeatedText 2 65) 0 0 0xFFFFFFFF

/-! ## Single-precision positions -/

/-- `2 ^ e` as a rational, for an integer exponent. -/
def pow2 (e : Int) : ℚ :=
  if 0 ≤ e then ((2 ^ e.toNat : Nat) : ℚ) else 1 / ((2 ^ (-e).toNat : Nat) : ℚ)

/-- A value of type `float` (IEEE 754 binary32): a finite number, an infinity with its
sign, or a NaN.  The two zeros are not told apart, nor are the NaNs. -/
inductive Float32 where
  | finite (value : ℚ)
  | infinite (negative : Bool)
  | nan
deriving DecidableEq

/-- Rounds to the nearest integer, a tie going to the even one. -/
def roundNearestEven (q : ℚ) : Int :=
  if q - ⌊q⌋ < 1 / 2 then ⌊q⌋
  else if 1 / 2 < q - ⌊q⌋ then ⌊q⌋ + 1
  else if ⌊q⌋ % 2 = 0 then ⌊q⌋ else ⌊q⌋ + 1

/-- Searches the exponents `n - 126`, `n - 127`, ..., `-125` for the first `e` with
`2 ^ e ≤ |q|`; `-126` when there is none. -/
def exponentFrom (q : ℚ) : Nat → Int
  | 0 => -126
  | n + 1 => if pow2 ((n : Int) - 125) ≤ |q| then (n : Int) - 125 else exponentFrom q n

/-- Exponent of the binade of `q` in binary32: the largest `e ≤ 127` with `2 ^ e ≤ |q|`,
and `-126` for the subnormal range and zero. -/
def binadeExponent (q : ℚ) : Int := exponentFrom q 253

/-- Rounding of a real number to binary32, to nearest with ties to even: the multiple
of `2 ^ (e - 23)` nearest to `q`, where `e` is the exponent of its binade, and an
infinity when that multiple reaches `2 ^ 128`. -/
def Float32.round (q : ℚ) : Float32 :=
  let ulp := pow2 (binadeExponent q - 23)
  let r : ℚ := roundNearestEven (q / ulp) * ulp
  if pow2 128 ≤ |r| then Float32.infinite (decide (r < 0)) else Float32.finite r

/-- Conversion of an `int` or `unsigned int` value to `float`. -/
def Float32.ofInt (i : Int) : Float32 := Float32.round i

/-- Division of `float` values.  A zero divisor counts as `+0`. -/
def Float32.div : Float32 → Float32 → Float32
  | Float32.finite a, Float32.finite b =>
    if b = 0 then (if a = 0 then Float32.nan else Float32.infinite (decide (a < 0)))
    else Float32.round (a / b)
  | Float32.finite _, Float32.infinite _ => Float32.finite 0
  | Float32.infinite s, Float32.finite b => Float32.infinite (s != decide (b < 0))
  | _, _ => Float32.nan

/-- Addition of `float` values. -/
def Float32.add : Float32 → Float32 → Float32
  | Float32.finite a, Float32.finite b => Float32.round (a + b)
  | Float32.finite _, Float32.infinite s => Float32.infinite s
  | Float32.infinite s, Float32.finite _ => Float32.infinite s
  | Float32.infinite s, Float32.infinite t => if s = t then Float32.infinite s else Float32.nan
  | _, _ => Float32.nan

/-- Subtraction of `float` values. -/
def Float32.sub : Float32 → Float32 → Float32
  | Float32.finite a, Float32.finite b => Float32.round (a - b)
  | Float32.finite _, Float32.infinite s => Float32.infinite (!s)
  | Float32.infinite s, Float32.finite _ => Float32.infinite s
  | Float32.infinite s, Float32.infinite t => if s = t then Float32.nan else Float32.infinite s
  | _, _ => Float32.nan

/-- `float( viewport.Width )`, and likewise for the height: the field is a `FLOAT`, so a
value it can hold is returned unchanged. -/
def viewportFloat (dimension : ℚ) : Float32 := Float32.round dimension

/-- `bottomLeftX = ( ( 2 * x ) / float( viewport.Width ) ) - 1.0f` in `float` arithmetic:
the `int` product is converted to `float`, the quotient and the difference are rounded. -/
def bottomLeftXFloat32 (viewport : D3D11_VIEWPORT) (x : Int) : Float32 :=
  ((Float32.ofInt (wrapInt (2 * x))).div (viewportFloat viewport.Width)).sub (Float32.finite 1)

/-- `topRightX = ( ( 2 * ( x + CharacterWidth ) ) / float( viewport.Width ) ) - 1.0f` in
`float` arithmetic; the `unsigned int` product is converted to `float`. -/
def topRightXFloat32 (viewport : D3D11_VIEWPORT) (x : Int) : Float32 :=
  ((Float32.ofInt (wrapUInt (2 * (wrapUInt (x + CharacterWidth) : Int)))).div
    (viewportFloat viewport.Width)).sub (Float32.finite 1)

/-- `bottomLeftY = ( ( -2 * ( charY + height ) ) / float( viewport.Height ) ) + 1.0f` in
`float` arithmetic. -/
def bottomLeftYFloat32 (beyond : Nat → Fin 256) (viewport : D3D11_VIEWPORT) (currentChar : Int)
    (y : Int) : Float32 :=
  ((Float32.ofInt
      (wrapInt (-2 * wrapInt (charY beyond currentChar y + glyphHeight beyond currentChar)))).div
    (viewportFloat viewport.Height)).add (Float32.finite 1)

/-- `topRightY = ( ( -2 * ( charY ) ) / float( viewport.Height ) ) + 1.0f` in `float`
arithmetic. -/
def topRightYFloat32 (beyond : Nat → Fin 256) (viewport : D3D11_VIEWPORT) (currentChar : Int)
    (y : Int) : Float32 :=
  ((Float32.ofInt (wrapInt (-2 * charY beyond currentChar y))).div
    (viewportFloat viewport.Height)).add (Float32.finite 1)

/-- `EncodePositionCoord` on a `float`: the bit pattern, kept as the number it encodes when
finite.  Infinities have the patterns `0x7F800000` and `0xFF800000`; a NaN is given the
pattern `0x7FC00000`, its sign and payload not being modelled. -/
def EncodePositionCoordFloat32 : Float32 → DWORD
  | Float32.finite value => DWORD.float value
  | Float32.infinite false => DWORD.bits 0x7F800000
  | Float32.infinite true => DWORD.bits 0xFF800000
  | Float32.nan => DWORD.bits 0x7FC00000

/-- The 24 `DWORD`s written for one character, in the order of `VertexStreamElements`,
computed as in the body of the loop of `Print` with the positions in `float` arithmetic. -/
def characterElementsFloat32 (beyond : Nat → Fin 256) (viewport : D3D11_VIEWPORT)
    (currentChar : Int) (x y : Int) (colour : Nat) : List DWORD :=
  let u : Int := glyphU beyond currentChar
  let v : Int := glyphV beyond currentChar
  let height : Int := glyphHeight beyond currentChar
  let bottomLeftX : Float32 := bottomLeftXFloat32 viewport x
  let bottomLeftY : Float32 := bottomLeftYFloat32 beyond viewport currentChar y
  let bottomLeftU : Int := u
  let bottomLeftV : Int := wrapInt (v + height)
  let topRightX : Float32 := topRightXFloat32 viewport x
  let topRightY : Float32 := topRightYFloat32 beyond viewport currentChar y
  let topRightU : Int := wrapInt (wrapUInt (u + CharacterWidth))
  let topRightV : Int := v
  [ EncodePositionCoordFloat32 bottomLeftX, EncodePositionCoordFloat32 bottomLeftY,
      EncodeUVCoords bottomLeftU bottomLeftV, DWORD.bits colour,
    EncodePositionCoordFloat32 bottomLeftX, EncodePositionCoordFloat32 topRightY,
      EncodeUVCoords bottomLeftU topRightV, DWORD.bits colour,
    EncodePositionCoordFloat32 topRightX, EncodePositionCoordFloat32 bottomLeftY,
      EncodeUVCoords topRightU bottomLeftV, DWORD.bits colour,
    EncodePositionCoordFloat32 topRightX, EncodePositionCoordFloat32 topRightY,
      EncodeUVCoords topRightU topRightV, DWORD.bits colour,
    EncodePositionCoordFloat32 topRightX, EncodePositionCoordFloat32 bottomLeftY,
      EncodeUVCoords topRightU bottomLeftV, DWORD.bits colour,
    EncodePositionCoordFloat32 bottomLeftX, EncodePositionCoordFloat32 topRightY,
      EncodeUVCoords bottomLeftU topRightV, DWORD.bits colour ]

/-- The `while` loop of `Print` with the positions in `float` arithmetic; everything else
is as in `PrintLoop`. -/
def PrintLoopFloat32 (beyond : Nat → Fin 256) (viewport : D3D11_VIEWPORT)
    (text : Nat → Fin 256) (y : Int) (colour : Nat) :
    (maxCharacterCount : Nat) → (i : Nat) → (x : Int) → TinyTextContext_c → VertexMemory →
      List Nat → PrintOutcome
  | maxCharacterCount, i, x, ctx, memory, writes =>
    let currentChar := charValue (text i)
    if currentChar = 0 then ⟨true, ctx, memory, writes⟩
    else
      match maxCharacterCount with
      | 0 => ⟨true, ctx, memory, writes⟩
      | maxCharacterCount + 1 =>
        if ctx.m_NumVertices / NumVerticesPerCharacter = ctx.m_Capacity then
          ⟨false, ctx, memory, writes⟩
        else
          match ctx.m_VertexBufferWriteAddress with
          | none => ⟨false, ctx, memory, writes⟩
          | some address =>
            let memory := writeElements memory address
              (characterElementsFloat32 beyond viewport currentChar x y colour)
            let writes := writes ++ (List.range NumVertexElementsPerCharacter).map (address + ·)
            let ctx := { ctx with
              m_VertexBufferWriteAddress := some (address + NumVertexElementsPerCharacter) }
            let ctx := { ctx with
              m_NumVertices := wrapUInt (ctx.m_NumVertices + NumVerticesPerCharacter) }
            let x := advanceX x
            PrintLoopFloat32 beyond viewport text y colour maxCharacterCount (i + 1) x ctx
              memory writes

/-- `TinyTextContext_c::Print` with a character count, the positions in `float`
arithmetic. -/
def PrintFloat32 (ctx : TinyTextContext_c) (memory : VertexMemory) (mapSucceeds : Bool)
    (beyond : Nat → Fin 256) (viewport : D3D11_VIEWPORT) (maxCharacterCount : Nat)
    (text : Nat → Fin 256) (x y : Int) (colour : Nat) : PrintOutcome :=
  match MapVertexBuffer ctx mapSucceeds with
  | (false, ctx) => ⟨false, ctx, memory, []⟩
  | (true, ctx) =>
    PrintLoopFloat32 beyond viewport text y colour maxCharacterCount 0 x ctx memory []

/-- The vertex stream of `count` consecutive glyphs with the positions in `float`
arithmetic: the characters of `text` from index `i` on, the first one drawn at `x`. -/
def glyphStreamFloat32 (beyond : Nat → Fin 256) (viewport : D3D11_VIEWPORT)
    (text : Nat → Fin 256) (y : Int) (colour : Nat) :
    (count : Nat) → (i : Nat) → (x : Int) → List DWORD
  | 0, _, _ => []
  | count + 1, i, x =>
    characterElementsFloat32 beyond viewport (charValue (text i)) x y colour ++
      glyphStreamFloat32 beyond viewport text y colour count (i + 1) (advanceX x)

/-- A viewport whose width and height are `float` values between 1 and `2 ^ 20`. -/
def D3D11_VIEWPORT.InRange (viewport : D3D11_VIEWPORT) : Prop :=
  viewportFloat viewport.Width = Float32.finite viewport.Width ∧
  viewportFloat viewport.Height = Float32.finite viewport.Height ∧
  1 ≤ viewport.Width ∧ viewport.Width ≤ 2 ^ 20 ∧
  1 ≤ viewport.Height ∧ viewport.Height ≤ 2 ^ 20

/-- Position cells `(x, y)` of the six vertices of one character, in buffer order. -/
def vertexPositionCells (elements : List DWORD) : List (DWORD × DWORD) :=
  (List.range NumVerticesPerCharacter).map fun k =>
    (elements.getD (4 * k) (DWORD.bits 0), elements.getD (4 * k + 1) (DWORD.bits 0))

/-! ## Auxiliary lemmas -/

theorem charValue_eq_zero_iff (b : Fin 256) : charValue b = 0 ↔ b = 0 := by
  unfold charValue
  constructor
  · intro h
    apply Fin.ext
    have := b.isLt
    split at h <;> simp at * <;> omega
  · intro h
    subst h
    simp

theorem wrapUInt_natCast_of_lt (n : Nat) (h : n < 2 ^ 32) : wrapUInt (n : Int) = n := by
  unfold wrapUInt
  omega

theorem wrapUInt_lt (i : Int) : wrapUInt i < 2 ^ 32 := by
  unfold wrapUInt
  omega

theorem writeElements_append (memory : VertexMemory) (address : Nat) (l₁ l₂ : List DWORD) :
    writeElements memory address (l₁ ++ l₂) =
      writeElements (writeElements memory address l₁) (address + l₁.length) l₂ := by
  induction l₁ generalizing memory address with
  | nil => simp [writeElements]
  | cons e rest ih =>
    simp only [List.cons_append, writeElements, List.length_cons, List.append_eq]
    rw [ih, Nat.add_assoc, Nat.add_comm 1]

theorem writeElements_of_lt (memory : VertexMemory) (address : Nat) (l : List DWORD) (p : Nat)
    (hp : p < address) : writeElements memory address l p = memory p := by
  induction l generalizing memory address with
  | nil => rfl
  | cons e rest ih =>
    rw [writeElements, ih _ _ (by omega), Function.update_noteq (by omega)]

theorem writeElements_of_ge (memory : VertexMemory) (address : Nat) (l : List DWORD) (p : Nat)
    (hp : address + l.length ≤ p) : writeElements memory address l p = memory p := by
  induction l generalizing memory address with
  | nil => rfl
  | cons e rest ih =>
    simp only [List.length_cons] at hp
    rw [writeElements, ih _ _ (by omega), Function.update_noteq (by omega)]

theorem writeElements_of_mem (memory : VertexMemory) (address : Nat) (l : List DWORD) (j : Nat)
    (hj : j < l.length) (d : DWORD) : writeElements memory address l (address + j) = l.getD j d := by
  induction l generalizing memory address j with
  | nil => simp at hj
  | cons e rest ih =>
    rw [writeElements]
    cases j with
    | zero =>
      rw [writeElements_of_lt _ _ _ _ (by omega)]
      simp
    | succ j =>
      simp only [List.length_cons] at hj
      have h := ih (Function.update memory address e) (address + 1) j (by omega)
      rw [show address + (j + 1) = address + 1 + j by omega, h]
      simp

theorem characterElements_length (beyond : Nat → Fin 256) (viewport : D3D11_VIEWPORT)
    (currentChar x y : Int) (colour : Nat) :
    (characterElements beyond viewport currentChar x y colour).length = 24 := rfl

theorem glyphStream_length (beyond : Nat → Fin 256) (viewport : D3D11_VIEWPORT)
    (text : Nat → Fin 256) (y : Int) (colour : Nat) (count i : Nat) (x : Int) :
    (glyphStream beyond viewport text y colour count i x).length = 24 * count := by
  induction count generalizing i x with
  | zero => rfl
  | succ n ih =>
    simp only [glyphStream, List.length_append, characterElements_length, ih]
    omega

/-- The loop of `Print` in closed form, as long as the vertex counter does not wrap:
it stores the stream of the first `min n r` glyphs, `n` being the characters it may
consume and `r` the free glyph slots, and succeeds exactly when `n ≤ r`. -/
theorem PrintLoop_eq (beyond : Nat → Fin 256) (viewport : D3D11_VIEWPORT) (text : Nat → Fin 256)
    (y : Int) (colour : Nat) (maxCharacterCount : Nat) :
    ∀ (i : Nat) (x : Int) (ctx : TinyTextContext_c) (memory : VertexMemory) (writes : List Nat)
      (g a : Nat), ctx.m_NumVertices = 6 * g → g ≤ ctx.m_Capacity →
      6 * (g + min (effectiveLength text maxCharacterCount i) (ctx.m_Capacity - g)) < 2 ^ 32 →
      ctx.m_VertexBufferWriteAddress = some a →
      PrintLoop beyond viewport text y colour maxCharacterCount i x ctx memory writes =
        ⟨decide (effectiveLength text maxCharacterCount i ≤ ctx.m_Capacity - g),
          { ctx with
            m_NumVertices :=
              6 * (g + min (effectiveLength text maxCharacterCount i) (ctx.m_Capacity - g))
            m_VertexBufferWriteAddress :=
              some (a + 24 * min (effectiveLength text maxCharacterCount i) (ctx.m_Capacity - g)) },
          writeElements memory a (glyphStream beyond viewport text y colour
            (min (effectiveLength text maxCharacterCount i) (ctx.m_Capacity - g)) i x),
          writes ++ (List.range
            (24 * min (effectiveLength text maxCharacterCount i) (ctx.m_Capacity - g))).map
              (a + ·)⟩ := by
  induction maxCharacterCount with
  | zero =>
    intro i x ctx memory writes g a hk hg hc ha
    unfold PrintLoop
    cases ctx
    simp_all [effectiveLength, glyphStream, writeElements]
  | succ m ih =>
    intro i x ctx memory writes g a hk hg hc ha
    unfold PrintLoop
    by_cases h0 : text i = 0
    · cases ctx
      simp_all [effectiveLength, glyphStream, writeElements, charValue_eq_zero_iff]
    · have hne : ¬ charValue (text i) = 0 := by rwa [charValue_eq_zero_iff]
      simp only [effectiveLength, h0, if_false] at hc
      simp only [hne, if_false, effectiveLength, h0]
      by_cases hfull : g = ctx.m_Capacity
      · have hdiv : ctx.m_NumVertices / NumVerticesPerCharacter = ctx.m_Capacity := by
          rw [hk, NumVerticesPerCharacter]; omega
        cases ctx
        simp_all [glyphStream, writeElements]
      · have hdiv : ¬ ctx.m_NumVertices / NumVerticesPerCharacter = ctx.m_Capacity := by
          rw [hk, NumVerticesPerCharacter]; omega
        simp only [hdiv, if_false, ha]
        have hmin : min (effectiveLength text m (i + 1) + 1) (ctx.m_Capacity - g) =
            min (effectiveLength text m (i + 1)) (ctx.m_Capacity - (g + 1)) + 1 := by omega
        rw [hmin] at hc
        have hw : wrapUInt ((ctx.m_NumVertices : Int) + (NumVerticesPerCharacter : Int)) =
            6 * (g + 1) := by
          rw [hk, NumVerticesPerCharacter]
          have : ((6 * g : Nat) : Int) + ((6 : Nat) : Int) = ((6 * (g + 1) : Nat) : Int) := by
            push_cast; ring
          rw [this, wrapUInt_natCast_of_lt]
          omega
        rw [ih (i + 1) (advanceX x) _ _ _ (g + 1) (a + NumVertexElementsPerCharacter) hw
          (by simp; omega) (by simp only []; omega) rfl]
        dsimp only
        rw [hmin]
        generalize min (effectiveLength text m (i + 1)) (ctx.m_Capacity - (g + 1)) = k
        simp only [PrintOutcome.mk.injEq, TinyTextContext_c.mk.injEq, true_and, and_true]
        refine ⟨?_, ⟨?_, ?_⟩, ?_, ?_⟩
        · simp only [decide_eq_decide]; omega
        · omega
        · simp only [NumVertexElementsPerCharacter, Option.some.injEq]; omega
        · rw [glyphStream, writeElements_append, characterElements_length]
          rfl
        · rw [List.append_assoc]
          congr 1
          have : 24 * (k + 1) = 24 + 24 * k := by omega
          rw [this, List.range_add, List.map_append, List.map_map]
          congr 1
          apply List.map_congr_left
          intro j _
          simp [NumVertexElementsPerCharacter]; omega

theorem effectiveLength_eq_min (text : Nat → Fin 256) (maxCharacterCount : Nat) :
    ∀ (i L : Nat), text (i + L) = 0 → (∀ j, j < L → text (i + j) ≠ 0) →
      effectiveLength text maxCharacterCount i = min L maxCharacterCount := by
  induction maxCharacterCount with
  | zero => intro i L _ _; simp [effectiveLength]
  | succ m ih =>
    intro i L hL hnz
    rw [effectiveLength]
    cases L with
    | zero => simp at hL; simp [hL]
    | succ L =>
      have h0 : text i ≠ 0 := by simpa using hnz 0 (by omega)
      rw [if_neg h0, ih (i + 1) L (by rw [← hL]; congr 1; omega)
        (fun j hj => by have := hnz (j + 1) (by omega); rwa [show i + 1 + j = i + (j + 1) by omega])]
      omega

theorem MapVertexBuffer_mapped (ctx : TinyTextContext_c) (mapSucceeds : Bool) (a : Nat)
    (ha : ctx.m_VertexBufferWriteAddress = some a) :
    MapVertexBuffer ctx mapSucceeds = (false, ctx) ∨ MapVertexBuffer ctx mapSucceeds = (true, ctx) := by
  unfold MapVertexBuffer
  split
  · exact Or.inl rfl
  · split
    · exact Or.inl rfl
    · rw [ha]; exact Or.inr rfl

theorem MapVertexBuffer_unmapped (ctx : TinyTextContext_c) (mapSucceeds : Bool)
    (ha : ctx.m_VertexBufferWriteAddress = none) :
    MapVertexBuffer ctx mapSucceeds = (false, ctx) ∨
    MapVertexBuffer ctx mapSucceeds = (false, { ctx with m_NumVertices := 0 }) ∨
    MapVertexBuffer ctx mapSucceeds =
      (true, { ctx with m_NumVertices := 0, m_VertexBufferWriteAddress := some 0 }) := by
  unfold MapVertexBuffer
  split
  · exact Or.inl rfl
  · split
    · exact Or.inl rfl
    · rw [ha]
      cases mapSucceeds
      · right; left
        cases ctx
        simp_all
      · right; right; rfl

/-- What `MapVertexBuffer` leaves when it returns `true`: the context `Print` starts from. -/
theorem MapVertexBuffer_true (ctx : TinyTextContext_c) (mapSucceeds : Bool)
    (hinv : ctx.Invariant) (hmap : (MapVertexBuffer ctx mapSucceeds).1 = true) :
    MapVertexBuffer ctx mapSucceeds =
      (true, { ctx with m_NumVertices := startCount ctx,
                        m_VertexBufferWriteAddress := some (4 * startCount ctx) }) ∧
    startCount ctx = 6 * (startCount ctx / 6) ∧ startCount ctx / 6 ≤ ctx.m_Capacity := by
  obtain ⟨g, hk, hg, ha⟩ := hinv
  cases hc : ctx.m_VertexBufferWriteAddress with
  | none =>
    have hs : startCount ctx = 0 := by simp [startCount, hc]
    rcases MapVertexBuffer_unmapped ctx mapSucceeds hc with h | h | h
    · rw [h] at hmap; simp at hmap
    · rw [h] at hmap; simp at hmap
    · rw [h, hs]; simp
  | some a =>
    have hs : startCount ctx = ctx.m_NumVertices := by simp [startCount, hc]
    rcases MapVertexBuffer_mapped ctx mapSucceeds a hc with h | h
    · rw [h] at hmap; simp at hmap
    · rw [h, hs, hk]
      refine ⟨?_, by omega, by omega⟩
      have := ha a hc
      cases ctx
      simp_all
      omega

theorem Print_of_map_false (ctx : TinyTextContext_c) (memory : VertexMemory) (mapSucceeds : Bool)
    (beyond : Nat → Fin 256) (viewport : D3D11_VIEWPORT) (maxCharacterCount : Nat)
    (text : Nat → Fin 256) (x y : Int) (colour : Nat)
    (hmap : (MapVertexBuffer ctx mapSucceeds).1 = false) :
    Print ctx memory mapSucceeds beyond viewport maxCharacterCount text x y colour =
      ⟨false, (MapVertexBuffer ctx mapSucceeds).2, memory, []⟩ := by
  unfold Print
  generalize MapVertexBuffer ctx mapSucceeds = r at hmap
  obtain ⟨r1, r2⟩ := r
  simp at hmap
  subst hmap
  rfl

/-- `Print` in closed form when mapping succeeds and the counter cannot wrap. -/
theorem Print_eq (ctx : TinyTextContext_c) (memory : VertexMemory) (mapSucceeds : Bool)
    (beyond : Nat → Fin 256) (viewport : D3D11_VIEWPORT) (maxCharacterCount : Nat)
    (text : Nat → Fin 256) (x y : Int) (colour : Nat)
    (hinv : ctx.Invariant) (hmap : (MapVertexBuffer ctx mapSucceeds).1 = true)
    (hc : 6 * (startCount ctx / 6 +
      min (effectiveLength text maxCharacterCount 0) (remainingSlots ctx)) < 2 ^ 32) :
    Print ctx memory mapSucceeds beyond viewport maxCharacterCount text x y colour =
      ⟨decide (effectiveLength text maxCharacterCount 0 ≤ remainingSlots ctx),
        { ctx with
          m_NumVertices := startCount ctx +
            6 * min (effectiveLength text maxCharacterCount 0) (remainingSlots ctx)
          m_VertexBufferWriteAddress := some (4 * startCount ctx +
            24 * min (effectiveLength text maxCharacterCount 0) (remainingSlots ctx)) },
        writeElements memory (4 * startCount ctx) (glyphStream beyond viewport text y colour
          (min (effectiveLength text maxCharacterCount 0) (remainingSlots ctx)) 0 x),
        (List.range (24 * min (effectiveLength text maxCharacterCount 0)
          (remainingSlots ctx))).map (4 * startCount ctx + ·)⟩ := by
  obtain ⟨hm, hs, hle⟩ := MapVertexBuffer_true ctx mapSucceeds hinv hmap
  unfold Print
  rw [hm]
  simp only
  unfold remainingSlots at *
  simp only [NumVerticesPerCharacter] at *
  have key := PrintLoop_eq beyond viewport text y colour maxCharacterCount 0 x
    { ctx with m_NumVertices := startCount ctx,
               m_VertexBufferWriteAddress := some (4 * startCount ctx) } memory []
    (startCount ctx / 6) (4 * startCount ctx) hs hle hc rfl
  rw [key]
  simp only [PrintOutcome.mk.injEq, TinyTextContext_c.mk.injEq, true_and, and_true, List.nil_append]
  omega
theorem MapVertexBuffer_false_ctx (ctx : TinyTextContext_c) (mapSucceeds : Bool)
    (hmap : (MapVertexBuffer ctx mapSucceeds).1 = false) :
    (MapVertexBuffer ctx mapSucceeds).2 = ctx ∨
    (ctx.m_VertexBufferWriteAddress = none ∧
      (MapVertexBuffer ctx mapSucceeds).2 = { ctx with m_NumVertices := 0 }) := by
  rcases Option.eq_none_or_eq_some ctx.m_VertexBufferWriteAddress with hc | ⟨a, hc⟩
  · rcases MapVertexBuffer_unmapped ctx mapSucceeds hc with h | h | h
    · rw [h]; exact Or.inl rfl
    · rw [h]; exact Or.inr ⟨hc, rfl⟩
    · rw [h] at hmap; simp at hmap
  · rcases MapVertexBuffer_mapped ctx mapSucceeds a hc with h | h
    · rw [h]; exact Or.inl rfl
    · rw [h]; exact Or.inl rfl

/-- A call of `Print` keeps the invariant of the context and the capacity, and stores
only below `24 * capacity`. -/
theorem Print_invariant (ctx : TinyTextContext_c) (memory : VertexMemory) (mapSucceeds : Bool)
    (beyond : Nat → Fin 256) (viewport : D3D11_VIEWPORT) (maxCharacterCount : Nat)
    (text : Nat → Fin 256) (x y : Int) (colour : Nat)
    (hinv : ctx.Invariant) (hc : 6 * ctx.m_Capacity < 2 ^ 32) :
    (Print ctx memory mapSucceeds beyond viewport maxCharacterCount text x y colour).ctx.Invariant ∧
    (Print ctx memory mapSucceeds beyond viewport maxCharacterCount text x y colour).ctx.m_Capacity =
      ctx.m_Capacity ∧
    ∀ w ∈ (Print ctx memory mapSucceeds beyond viewport maxCharacterCount text x y colour).writes,
      w < 24 * ctx.m_Capacity := by
  cases hmap : (MapVertexBuffer ctx mapSucceeds).1 with
  | false =>
    rw [Print_of_map_false _ _ _ _ _ _ _ _ _ _ hmap]
    refine ⟨?_, ?_, by simp⟩
    · rcases MapVertexBuffer_false_ctx ctx mapSucceeds hmap with h | ⟨hn, h⟩
      · simpa [h] using hinv
      · simp only [h]
        exact ⟨0, rfl, Nat.zero_le _, fun a ha => by simp [hn] at ha⟩
    · rcases MapVertexBuffer_false_ctx ctx mapSucceeds hmap with h | ⟨_, h⟩
      · simp [h]
      · simp [h]
  | true =>
    obtain ⟨_, hs, hle⟩ := MapVertexBuffer_true ctx mapSucceeds hinv hmap
    have hr : remainingSlots ctx = ctx.m_Capacity - startCount ctx / 6 := rfl
    rw [Print_eq ctx memory mapSucceeds beyond viewport maxCharacterCount text x y colour hinv hmap
      (by rw [hr]; omega)]
    refine ⟨⟨startCount ctx / 6 +
      min (effectiveLength text maxCharacterCount 0) (remainingSlots ctx), ?_, ?_, ?_⟩, rfl, ?_⟩
    · simp only; omega
    · simp only; rw [hr]; omega
    · intro a ha
      simp only [Option.some.injEq] at ha
      omega
    · intro w hw
      simp only [List.mem_map, List.mem_range] at hw
      obtain ⟨j, hj, rfl⟩ := hw
      rw [hr] at hj
      omega

theorem UnmapVertexBuffer_ctx (ctx : TinyTextContext_c) (dev : DeviceState) :
    (UnmapVertexBuffer ctx dev).1 = { ctx with m_VertexBufferWriteAddress := none } := by
  unfold UnmapVertexBuffer
  cases h : ctx.m_VertexBufferWriteAddress with
  | none => cases ctx; simp_all
  | some a => simp only; split <;> rfl

/-- The only member `Render` may change is the write address, which it sets to null. -/
theorem Render_ctx (ctx : TinyTextContext_c) (dev : DeviceState) (maintainState : Bool) :
    (Render ctx dev maintainState).2.1 = ctx ∨
    (Render ctx dev maintainState).2.1 = { ctx with m_VertexBufferWriteAddress := none } := by
  unfold Render
  by_cases hd : ctx.m_Device = 0
  · rw [if_pos hd]; exact Or.inl rfl
  · rw [if_neg hd]
    by_cases hr : dev.RenderTarget = 0
    · simp [hr]
    · right
      simp only [hr, if_false, UnmapVertexBuffer_ctx]

theorem Render_invariant (ctx : TinyTextContext_c) (dev : DeviceState) (maintainState : Bool)
    (hinv : ctx.Invariant) :
    (Render ctx dev maintainState).2.1.Invariant ∧
    (Render ctx dev maintainState).2.1.m_Capacity = ctx.m_Capacity := by
  rcases Render_ctx ctx dev maintainState with h | h
  · rw [h]; exact ⟨hinv, rfl⟩
  · rw [h]
    obtain ⟨g, hk, hg, _⟩ := hinv
    exact ⟨⟨g, hk, hg, fun a ha => by simp at ha⟩, rfl⟩

theorem Initialise_members (ctx : TinyTextContext_c) (device deviceContext : Nat)
    (created : CreationOutcomes) :
    (Initialise ctx device deviceContext created).2.1.m_NumVertices = ctx.m_NumVertices ∧
    (Initialise ctx device deviceContext created).2.1.m_Capacity = ctx.m_Capacity ∧
    (Initialise ctx device deviceContext created).2.1.m_VertexBufferWriteAddress =
      ctx.m_VertexBufferWriteAddress := by
  unfold Initialise
  dsimp only
  split_ifs <;> exact ⟨rfl, rfl, rfl⟩

theorem new_members (device deviceContext characterCapacity : Nat) (created : CreationOutcomes) :
    (TinyTextContext_c.new device deviceContext characterCapacity created).2.1.m_NumVertices = 0 ∧
    (TinyTextContext_c.new device deviceContext characterCapacity created).2.1.m_Capacity =
      wrapUInt characterCapacity ∧
    (TinyTextContext_c.new device deviceContext characterCapacity created).2.1.m_VertexBufferWriteAddress
      = none := by
  unfold TinyTextContext_c.new
  exact Initialise_members _ _ _ _

/-- Every reachable batch keeps the capacity it was constructed with, satisfies the
invariant of the context, and has stored only below `24 * capacity`. -/
theorem Reachable_invariant (beyond : Nat → Fin 256) (c : Nat) (hc : 6 * c < 2 ^ 32) (b : Batch)
    (hb : Batch.Reachable beyond c b) :
    b.ctx.m_Capacity = c ∧ b.ctx.Invariant ∧ ∀ w ∈ b.writes, w < 24 * c := by
  obtain ⟨device, deviceContext, created, memory, calls, rfl⟩ := hb
  unfold Batch.run
  induction calls using List.reverseRecOn with
  | nil =>
    obtain ⟨h1, h2, h3⟩ := new_members device deviceContext c created
    simp only [List.foldl_nil]
    refine ⟨?_, ⟨0, h1, Nat.zero_le _, fun a ha => by simp [h3] at ha⟩, by simp⟩
    rw [h2]; exact wrapUInt_natCast_of_lt c (by omega)
  | append_singleton calls call ih =>
    rw [List.foldl_append]
    simp only [List.foldl_cons, List.foldl_nil]
    obtain ⟨hcap, hinv, hw⟩ := ih
    generalize List.foldl (Batch.step beyond) _ calls = b at hcap hinv hw
    cases call with
    | Print mapSucceeds viewport maxCharacterCount text x y colour =>
      obtain ⟨h1, h2, h3⟩ := Print_invariant b.ctx b.memory mapSucceeds beyond viewport
        maxCharacterCount text x y colour hinv (by rw [hcap]; exact hc)
      refine ⟨by simp only [Batch.step]; rw [h2, hcap], h1, ?_⟩
      intro w hmem
      simp only [Batch.step, List.mem_append] at hmem
      rcases hmem with hmem | hmem
      · exact hw w hmem
      · rw [← hcap]; exact h3 w hmem
    | Render dev maintainState =>
      obtain ⟨h1, h2⟩ := Render_invariant b.ctx dev maintainState hinv
      exact ⟨by simp only [Batch.step]; rw [h2, hcap], h1, hw⟩

theorem effectiveLength_repeatedText (n : Nat) (c : Fin 256) (hc : c ≠ 0) (maxCharacterCount : Nat) :
    effectiveLength (repeatedText n c) maxCharacterCount 0 = min n maxCharacterCount :=
  effectiveLength_eq_min _ _ 0 n (by simp [repeatedText])
    (fun j hj => by simp [repeatedText, hj, hc])

/-- What `MapVertexBuffer` leaves when it returns `true`, for any context. -/
theorem MapVertexBuffer_eq_of_true (ctx : TinyTextContext_c) (mapSucceeds : Bool)
    (hmap : (MapVertexBuffer ctx mapSucceeds).1 = true) :
    MapVertexBuffer ctx mapSucceeds =
      (true, { ctx with m_NumVertices := startCount ctx,
                        m_VertexBufferWriteAddress :=
                          some (ctx.m_VertexBufferWriteAddress.getD 0) }) := by
  rcases Option.eq_none_or_eq_some ctx.m_VertexBufferWriteAddress with hc | ⟨a, hc⟩
  · have hs : startCount ctx = 0 := by simp [startCount, hc]
    rcases MapVertexBuffer_unmapped ctx mapSucceeds hc with h | h | h
    · rw [h] at hmap; simp at hmap
    · rw [h] at hmap; simp at hmap
    · rw [h, hs, hc]; rfl
  · have hs : startCount ctx = ctx.m_NumVertices := by simp [startCount, hc]
    rcases MapVertexBuffer_mapped ctx mapSucceeds a hc with h | h
    · rw [h] at hmap; simp at hmap
    · rw [h, hs, hc]
      cases ctx
      simp_all

/-- With `2 ^ 32 ≤ 6 * capacity` the capacity check of the loop never fires: the loop
consumes every character and the 32-bit vertex counter wraps around. -/
theorem PrintLoop_of_huge_capacity (beyond : Nat → Fin 256) (viewport : D3D11_VIEWPORT)
    (text : Nat → Fin 256) (y : Int) (colour : Nat) (maxCharacterCount : Nat) :
    ∀ (i : Nat) (x : Int) (ctx : TinyTextContext_c) (memory : VertexMemory) (writes : List Nat)
      (a : Nat), 2 ^ 32 ≤ 6 * ctx.m_Capacity → ctx.m_NumVertices < 2 ^ 32 →
      ctx.m_VertexBufferWriteAddress = some a →
      (PrintLoop beyond viewport text y colour maxCharacterCount i x ctx memory writes).result
        = true ∧
      (PrintLoop beyond viewport text y colour maxCharacterCount i x ctx memory writes).ctx =
        { ctx with
          m_NumVertices :=
            (ctx.m_NumVertices + 6 * effectiveLength text maxCharacterCount i) % 2 ^ 32
          m_VertexBufferWriteAddress :=
            some (a + 24 * effectiveLength text maxCharacterCount i) } := by
  induction maxCharacterCount with
  | zero =>
    intro i x ctx memory writes a hcap hk ha
    unfold PrintLoop
    have := Nat.mod_eq_of_lt hk
    cases ctx
    simp_all [effectiveLength]
    omega
  | succ m ih =>
    intro i x ctx memory writes a hcap hk ha
    unfold PrintLoop
    have hmod := Nat.mod_eq_of_lt hk
    by_cases h0 : text i = 0
    · cases ctx
      simp_all [effectiveLength, charValue_eq_zero_iff]
      omega
    · have hne : ¬ charValue (text i) = 0 := by rwa [charValue_eq_zero_iff]
      have hdiv : ¬ ctx.m_NumVertices / NumVerticesPerCharacter = ctx.m_Capacity := by
        rw [NumVerticesPerCharacter]; omega
      simp only [hne, if_false, effectiveLength, h0, hdiv, ha]
      have hw : wrapUInt ((ctx.m_NumVertices : Int) + (NumVerticesPerCharacter : Int)) =
          (ctx.m_NumVertices + 6) % 2 ^ 32 := by
        unfold wrapUInt NumVerticesPerCharacter
        omega
      obtain ⟨h1, h2⟩ := ih (i + 1) (advanceX x)
        { ctx with
          m_VertexBufferWriteAddress := some (a + NumVertexElementsPerCharacter)
          m_NumVertices := wrapUInt ((ctx.m_NumVertices : Int) + (NumVerticesPerCharacter : Int)) }
        (writeElements memory a (characterElements beyond viewport (charValue (text i)) x y colour))
        (writes ++ (List.range NumVertexElementsPerCharacter).map (a + ·))
        (a + NumVertexElementsPerCharacter) hcap (by have := wrapUInt_lt ((ctx.m_NumVertices : Int) + (NumVerticesPerCharacter : Int)); simpa using this) rfl
      refine ⟨h1, ?_⟩
      rw [h2]
      simp only [TinyTextContext_c.mk.injEq, true_and, and_true, hw, NumVertexElementsPerCharacter,
        Option.some.injEq]
      omega

theorem Print_of_huge_capacity (ctx : TinyTextContext_c) (memory : VertexMemory)
    (mapSucceeds : Bool) (beyond : Nat → Fin 256) (viewport : D3D11_VIEWPORT)
    (maxCharacterCount : Nat) (text : Nat → Fin 256) (x y : Int) (colour : Nat)
    (hmap : (MapVertexBuffer ctx mapSucceeds).1 = true) (hcap : 2 ^ 32 ≤ 6 * ctx.m_Capacity)
    (hk : ctx.m_NumVertices < 2 ^ 32) :
    (Print ctx memory mapSucceeds beyond viewport maxCharacterCount text x y colour).result = true ∧
    (Print ctx memory mapSucceeds beyond viewport maxCharacterCount text x y colour).ctx =
      { ctx with
        m_NumVertices := (startCount ctx + 6 * effectiveLength text maxCharacterCount 0) % 2 ^ 32
        m_VertexBufferWriteAddress := some (ctx.m_VertexBufferWriteAddress.getD 0 +
          24 * effectiveLength text maxCharacterCount 0) } := by
  have hs : startCount ctx < 2 ^ 32 := by
    unfold startCount
    split <;> omega
  unfold Print
  rw [MapVertexBuffer_eq_of_true ctx mapSucceeds hmap]
  exact PrintLoop_of_huge_capacity beyond viewport text y colour maxCharacterCount 0 x
    { ctx with m_NumVertices := startCount ctx,
               m_VertexBufferWriteAddress := some (ctx.m_VertexBufferWriteAddress.getD 0) }
    memory [] _ hcap hs rfl

theorem hugeContext_eq : hugeContext = ⟨1, 2, 14, 12, 15, 13, 16, 17, 18, 0, 715827883, none⟩ := by
  rfl

theorem hugeContext_map : (MapVertexBuffer hugeContext true).1 = true := by
  rw [hugeContext_eq]; rfl

theorem wrapOutcome_ctx :
    wrapOutcome.ctx =
      ⟨1, 2, 14, 12, 15, 13, 16, 17, 18, 4294967292, 715827883, some 17179869168⟩ := by
  have h := (Print_of_huge_capacity hugeContext exampleMemory true exampleBeyond exampleViewport
    715827882 (repeatedText 715827882 65) 0 0 0xFFFFFFFF hugeContext_map
    (by rw [hugeContext_eq]; decide) (by rw [hugeContext_eq]; decide)).2
  rw [wrapOutcome, h, effectiveLength_repeatedText _ _ (by decide), hugeContext_eq]
  simp [startCount]

/-- Element `e` of glyph `k` of a glyph stream. -/
theorem glyphStream_getD (beyond : Nat → Fin 256) (viewport : D3D11_VIEWPORT)
    (text : Nat → Fin 256) (y : Int) (colour : Nat) (count : Nat) :
    ∀ (i : Nat) (x : Int) (k e : Nat) (d : DWORD), k < count → e < 24 →
      (glyphStream beyond viewport text y colour count i x).getD (24 * k + e) d =
        (characterElements beyond viewport (charValue (text (i + k))) (advanceX^[k] x) y
          colour).getD e d := by
  induction count with
  | zero => intro i x k e d hk; omega
  | succ n ih =>
    intro i x k e d hk he
    rw [glyphStream]
    cases k with
    | zero =>
      rw [List.getD_append _ _ _ _ (by rw [characterElements_length]; omega)]
      simp
    | succ k =>
      rw [List.getD_append_right _ _ _ _ (by rw [characterElements_length]; omega),
        characterElements_length, show 24 * (k + 1) + e - 24 = 24 * k + e by omega,
        ih (i + 1) (advanceX x) k e d (by omega) he]
      rw [show i + 1 + k = i + (k + 1) by omega, Function.iterate_succ_apply]

/-! ## Capacity (C1 to C5) -/

/-- C1: for a capacity `c` with `6 * c < 2 ^ 32`, after any sequence of `Print` and
`Render` calls on a context constructed with capacity `c` the vertex count is at
most `6 * c`, and every store `Print` made went to an offset below `24 * c` `DWORD`s
from the start of the mapped buffer. -/
theorem C1_vertex_count_and_stores_within_capacity (beyond : Nat → Fin 256) (c : Nat)
    (hc : 6 * c < 2 ^ 32) (b : Batch) (hb : Batch.Reachable beyond c b) :
    b.ctx.m_NumVertices ≤ 6 * c ∧ ∀ w ∈ b.writes, w < 24 * c := by
  obtain ⟨hcap, ⟨g, hk, hg, _⟩, hw⟩ := Reachable_invariant beyond c hc b hb
  exact ⟨by omega, hw⟩

theorem helloBatch_reachable : Batch.Reachable exampleBeyond 10 helloBatch :=
  ⟨1, 2, exampleCreated, exampleMemory, _, rfl⟩

theorem helloWorldBatch_reachable : Batch.Reachable exampleBeyond 10 helloWorldBatch :=
  ⟨1, 2, exampleCreated, exampleMemory, _, rfl⟩

/-- C1 applied to the batch holding "HELLO" and "WORLD" in a context of capacity 10. -/
theorem C1_vertex_count_and_stores_within_capacity_witness :
    6 * 10 < 2 ^ 32 ∧ Batch.Reachable exampleBeyond 10 helloWorldBatch ∧
      (helloWorldBatch.ctx.m_NumVertices ≤ 6 * 10 ∧ ∀ w ∈ helloWorldBatch.writes, w < 24 * 10) :=
  ⟨by decide, helloWorldBatch_reachable,
    C1_vertex_count_and_stores_within_capacity exampleBeyond 10 (by decide) helloWorldBatch
      helloWorldBatch_reachable⟩

/-- C2 fails as stated: on a context of capacity 715827883 (so `2 ^ 32 ≤ 6 * capacity`)
mapping succeeds, 715827883 glyph slots remain, the text has 715827884 characters
before its null terminator, and `Print` with `maxCharacterCount = 715827884` returns
`true` although `n = r + 1`. -/
theorem C2_huge_capacity_counterexample :
    (MapVertexBuffer hugeContext true).1 = true ∧
    repeatedText 715827884 65 715827884 = 0 ∧
    (∀ j < 715827884, repeatedText 715827884 65 j ≠ 0) ∧
    remainingSlots hugeContext = 715827883 ∧
    (Print hugeContext exampleMemory true exampleBeyond exampleViewport 715827884
      (repeatedText 715827884 65) 0 0 0xFFFFFFFF).result = true := by
  have hm : (MapVertexBuffer hugeContext true).1 = true := by rw [hugeContext_eq]; rfl
  refine ⟨hm, by simp [repeatedText], fun j hj => by simp [repeatedText, hj],
    by rw [hugeContext_eq]; rfl, ?_⟩
  exact (Print_of_huge_capacity hugeContext _ _ _ _ _ _ _ _ _ hm
    (by rw [hugeContext_eq]; decide) (by rw [hugeContext_eq]; decide)).1

/-- C2, amended to capacities `c` with `6 * c < 2 ^ 32`: in every reachable batch, for
a text whose null terminator is at index `L`, whenever mapping succeeds `Print`
returns `true` if and only if `min L maxCharacterCount ≤ capacity - k / 6`, where `k`
is the vertex count `Print` starts from. -/
theorem C2_print_succeeds_iff_text_fits (beyond : Nat → Fin 256) (c : Nat) (hc : 6 * c < 2 ^ 32)
    (b : Batch) (hb : Batch.Reachable beyond c b) (mapSucceeds : Bool)
    (viewport : D3D11_VIEWPORT) (maxCharacterCount : Nat) (text : Nat → Fin 256) (x y : Int)
    (colour : Nat) (L : Nat) (hL : text L = 0) (hnz : ∀ j, j < L → text j ≠ 0)
    (hmap : (MapVertexBuffer b.ctx mapSucceeds).1 = true) :
    (Print b.ctx b.memory mapSucceeds beyond viewport maxCharacterCount text x y colour).result
        = true ↔
      min L maxCharacterCount ≤ b.ctx.m_Capacity - startCount b.ctx / 6 := by
  obtain ⟨hcap, hinv, _⟩ := Reachable_invariant beyond c hc b hb
  obtain ⟨_, hs, hle⟩ := MapVertexBuffer_true b.ctx mapSucceeds hinv hmap
  have hr : remainingSlots b.ctx = b.ctx.m_Capacity - startCount b.ctx / 6 := rfl
  have hn : effectiveLength text maxCharacterCount 0 = min L maxCharacterCount :=
    effectiveLength_eq_min text maxCharacterCount 0 L (by simpa using hL)
      (fun j hj => by simpa using hnz j hj)
  rw [Print_eq b.ctx b.memory mapSucceeds beyond viewport maxCharacterCount text x y colour hinv
    hmap (by rw [hr]; omega), hn, hr]
  simp

/-- C2 applied to `Print "WORLD"` after `Print "HELLO"` with capacity 10 (`n = r = 5`). -/
theorem C2_print_succeeds_iff_text_fits_witness :
    6 * 10 < 2 ^ 32 ∧ Batch.Reachable exampleBeyond 10 helloBatch ∧ worldText 5 = 0 ∧
      (∀ j, j < 5 → worldText j ≠ 0) ∧ (MapVertexBuffer helloBatch.ctx true).1 = true ∧
      ((Print helloBatch.ctx helloBatch.memory true exampleBeyond exampleViewport 5 worldText
          40 0 0xFFFFFFFF).result = true ↔
        min 5 5 ≤ helloBatch.ctx.m_Capacity - startCount helloBatch.ctx / 6) :=
  ⟨by decide, helloBatch_reachable, by decide, by decide, by decide!,
    C2_print_succeeds_iff_text_fits exampleBeyond 10 (by decide) helloBatch helloBatch_reachable
      true exampleViewport 5 worldText 40 0 0xFFFFFFFF 5 (by decide) (by decide) (by decide!)⟩

/-- C3 fails as stated: with capacity 715827883, after 715827882 characters the buffer
is mapped and the vertex count is 4294967292; `Print "A"` then returns `true` and
leaves the 32-bit vertex count at 2, not at 4294967292 + 6. -/
theorem C3_counter_wraps_counterexample :
    wrapOutcome.ctx.m_VertexBufferWriteAddress.isSome = true ∧
    wrapOutcome.ctx.m_NumVertices = 4294967292 ∧ letterAText 0 ≠ 0 ∧ letterAText 1 = 0 ∧
    (Print wrapOutcome.ctx wrapOutcome.memory true exampleBeyond exampleViewport 1 letterAText 0 0
      0xFFFFFFFF).result = true ∧
    (Print wrapOutcome.ctx wrapOutcome.memory true exampleBeyond exampleViewport 1 letterAText 0 0
      0xFFFFFFFF).ctx.m_NumVertices = 2 := by
  have hm : (MapVertexBuffer wrapOutcome.ctx true).1 = true := by rw [wrapOutcome_ctx]; rfl
  obtain ⟨h1, h2⟩ := Print_of_huge_capacity wrapOutcome.ctx wrapOutcome.memory true exampleBeyond
    exampleViewport 1 letterAText 0 0 0xFFFFFFFF hm (by rw [wrapOutcome_ctx]; decide)
    (by rw [wrapOutcome_ctx]; decide)
  refine ⟨by rw [wrapOutcome_ctx]; rfl, by rw [wrapOutcome_ctx], by decide, by decide, h1, ?_⟩
  rw [h2, wrapOutcome_ctx]
  decide

/-- C3, amended to capacities `c` with `6 * c < 2 ^ 32`: in every reachable batch whose
buffer is already mapped, a `Print` that returns `true` leaves the vertex count at
the count before plus `6 * min (length of text) maxCharacterCount`. -/
theorem C3_count_advances_by_six_per_character (beyond : Nat → Fin 256) (c : Nat)
    (hc : 6 * c < 2 ^ 32) (b : Batch) (hb : Batch.Reachable beyond c b) (mapSucceeds : Bool)
    (viewport : D3D11_VIEWPORT) (maxCharacterCount : Nat) (text : Nat → Fin 256) (x y : Int)
    (colour : Nat) (L : Nat) (hL : text L = 0) (hnz : ∀ j, j < L → text j ≠ 0)
    (hmapped : b.ctx.m_VertexBufferWriteAddress.isSome = true)
    (hres : (Print b.ctx b.memory mapSucceeds beyond viewport maxCharacterCount text x y
      colour).result = true) :
    (Print b.ctx b.memory mapSucceeds beyond viewport maxCharacterCount text x y
      colour).ctx.m_NumVertices = b.ctx.m_NumVertices + 6 * min L maxCharacterCount := by
  obtain ⟨hcap, hinv, _⟩ := Reachable_invariant beyond c hc b hb
  have hmap : (MapVertexBuffer b.ctx mapSucceeds).1 = true := by
    cases h : (MapVertexBuffer b.ctx mapSucceeds).1 with
    | true => rfl
    | false => rw [Print_of_map_false _ _ _ _ _ _ _ _ _ _ h] at hres; simp at hres
  obtain ⟨_, hs, hle⟩ := MapVertexBuffer_true b.ctx mapSucceeds hinv hmap
  have hr : remainingSlots b.ctx = b.ctx.m_Capacity - startCount b.ctx / 6 := rfl
  have hn : effectiveLength text maxCharacterCount 0 = min L maxCharacterCount :=
    effectiveLength_eq_min text maxCharacterCount 0 L (by simpa using hL)
      (fun j hj => by simpa using hnz j hj)
  have hk : startCount b.ctx = b.ctx.m_NumVertices := by simp [startCount, hmapped]
  rw [Print_eq b.ctx b.memory mapSucceeds beyond viewport maxCharacterCount text x y colour hinv
    hmap (by rw [hr]; omega)] at hres ⊢
  simp only [decide_eq_true_eq] at hres
  simp only
  rw [Nat.min_eq_left hres, hn, hk]

/-- C3 applied to the scenario of the specification: capacity 10, `Print "HELLO"`
leaves 30 vertices and a following `Print "WORLD"` leaves 60. -/
theorem C3_count_advances_by_six_per_character_witness :
    6 * 10 < 2 ^ 32 ∧ Batch.Reachable exampleBeyond 10 helloBatch ∧ worldText 5 = 0 ∧
    (∀ j, j < 5 → worldText j ≠ 0) ∧ helloBatch.ctx.m_VertexBufferWriteAddress.isSome = true ∧
    (Print helloBatch.ctx helloBatch.memory true exampleBeyond exampleViewport 5 worldText 40 0
      0xFFFFFFFF).result = true ∧
    helloBatch.ctx.m_NumVertices = 30 ∧
    (Print helloBatch.ctx helloBatch.memory true exampleBeyond exampleViewport 5 worldText 40 0
      0xFFFFFFFF).ctx.m_NumVertices = 30 + 6 * min 5 5 :=
  have h30 : helloBatch.ctx.m_NumVertices = 30 := by decide!
  ⟨by decide, helloBatch_reachable, by decide, by decide, by decide!, by decide!, h30,
    h30 ▸ C3_count_advances_by_six_per_character exampleBeyond 10 (by decide) helloBatch
      helloBatch_reachable true exampleViewport 5 worldText 40 0 0xFFFFFFFF 5 (by decide)
      (by decide) (by decide!) (by decide!)⟩

/-- C4: when the buffer is mapped and the vertex count equals `capacity * 6`, a `Print`
of a text whose first character is not null, with `maxCharacterCount ≥ 1`, returns
`false`, makes no store and leaves the context (vertex count and write address
included) and the vertex memory unchanged. -/
theorem C4_print_at_capacity_changes_nothing (ctx : TinyTextContext_c) (memory : VertexMemory)
    (mapSucceeds : Bool) (beyond : Nat → Fin 256) (viewport : D3D11_VIEWPORT)
    (maxCharacterCount : Nat) (text : Nat → Fin 256) (x y : Int) (colour : Nat) (a : Nat)
    (hmapped : ctx.m_VertexBufferWriteAddress = some a)
    (hfull : ctx.m_NumVertices = ctx.m_Capacity * 6) (hchar : text 0 ≠ 0)
    (hmax : 1 ≤ maxCharacterCount) :
    Print ctx memory mapSucceeds beyond viewport maxCharacterCount text x y colour =
      ⟨false, ctx, memory, []⟩ := by
  rcases MapVertexBuffer_mapped ctx mapSucceeds a hmapped with h | h
  · rw [Print_of_map_false _ _ _ _ _ _ _ _ _ _ (by rw [h]), h]
  · unfold Print
    rw [h]
    simp only
    obtain ⟨m, rfl⟩ : ∃ m, maxCharacterCount = m + 1 := ⟨maxCharacterCount - 1, by omega⟩
    unfold PrintLoop
    have hne : ¬ charValue (text 0) = 0 := by rwa [charValue_eq_zero_iff]
    have hdiv : ctx.m_NumVertices / NumVerticesPerCharacter = ctx.m_Capacity := by
      rw [hfull, NumVerticesPerCharacter]; omega
    simp only [hne, if_false, hdiv, if_true]

/-- C4 applied to the batch holding "HELLO" and "WORLD" with capacity 10: a third
`Print "A"` fails and changes nothing. -/
theorem C4_print_at_capacity_changes_nothing_witness :
    helloWorldBatch.ctx.m_VertexBufferWriteAddress = some 240 ∧
    helloWorldBatch.ctx.m_NumVertices = helloWorldBatch.ctx.m_Capacity * 6 ∧
    letterAText 0 ≠ 0 ∧ 1 ≤ 1 ∧
    Print helloWorldBatch.ctx helloWorldBatch.memory true exampleBeyond exampleViewport 1
      letterAText 80 0 0xFFFFFFFF = ⟨false, helloWorldBatch.ctx, helloWorldBatch.memory, []⟩ :=
  ⟨by decide!, by decide!, by decide, by decide,
    C4_print_at_capacity_changes_nothing helloWorldBatch.ctx helloWorldBatch.memory true
      exampleBeyond exampleViewport 1 letterAText 80 0 0xFFFFFFFF 240 (by decide!) (by decide!)
      (by decide) (by decide)⟩

/-- C5 fails as stated: on a context of capacity 715827883 only 715827883 glyph slots
remain for a text of 800000000 characters, yet `Print` returns `true`, and the 32-bit
vertex count ends at 505032704 instead of `capacity * 6`. -/
theorem C5_huge_capacity_counterexample :
    (MapVertexBuffer hugeContext true).1 = true ∧
    repeatedText 800000000 65 800000000 = 0 ∧
    (∀ j < 800000000, repeatedText 800000000 65 j ≠ 0) ∧
    remainingSlots hugeContext = 715827883 ∧
    (Print hugeContext exampleMemory true exampleBeyond exampleViewport 800000000
      (repeatedText 800000000 65) 0 0 0xFFFFFFFF).result = true ∧
    (Print hugeContext exampleMemory true exampleBeyond exampleViewport 800000000
      (repeatedText 800000000 65) 0 0 0xFFFFFFFF).ctx.m_NumVertices = 505032704 := by
  obtain ⟨h1, h2⟩ := Print_of_huge_capacity hugeContext exampleMemory true exampleBeyond
    exampleViewport 800000000 (repeatedText 800000000 65) 0 0 0xFFFFFFFF hugeContext_map
    (by rw [hugeContext_eq]; decide) (by rw [hugeContext_eq]; decide)
  refine ⟨hugeContext_map, by simp [repeatedText], fun j hj => by simp [repeatedText, hj],
    by rw [hugeContext_eq]; rfl, h1, ?_⟩
  rw [h2, effectiveLength_repeatedText _ _ (by decide), hugeContext_eq]
  simp [startCount]

/-- C5, amended to capacities `c` with `6 * c < 2 ^ 32`: in every reachable batch, when
mapping succeeds and only `r < min L maxCharacterCount` glyph slots remain, `Print`
returns `false`, the vertex count afterwards is `capacity * 6`, and the quads of the
first `r` characters of the call are in the buffer: element `e` of glyph `k < r` is the
element computed for character `k` drawn at the `k`-th advance of `x`. -/
theorem C5_overflowing_print_fills_to_capacity (beyond : Nat → Fin 256) (c : Nat)
    (hc : 6 * c < 2 ^ 32) (b : Batch) (hb : Batch.Reachable beyond c b) (mapSucceeds : Bool)
    (viewport : D3D11_VIEWPORT) (maxCharacterCount : Nat) (text : Nat → Fin 256) (x y : Int)
    (colour : Nat) (L : Nat) (hL : text L = 0) (hnz : ∀ j, j < L → text j ≠ 0)
    (hmap : (MapVertexBuffer b.ctx mapSucceeds).1 = true)
    (hover : remainingSlots b.ctx < min L maxCharacterCount) :
    (Print b.ctx b.memory mapSucceeds beyond viewport maxCharacterCount text x y colour).result
        = false ∧
    (Print b.ctx b.memory mapSucceeds beyond viewport maxCharacterCount text x y
      colour).ctx.m_NumVertices = b.ctx.m_Capacity * 6 ∧
    ∀ k e, k < remainingSlots b.ctx → e < 24 →
      (Print b.ctx b.memory mapSucceeds beyond viewport maxCharacterCount text x y colour).memory
          (4 * startCount b.ctx + 24 * k + e) =
        (characterElements beyond viewport (charValue (text k)) (advanceX^[k] x) y colour).getD e
          (DWORD.bits 0) := by
  obtain ⟨hcap, hinv, _⟩ := Reachable_invariant beyond c hc b hb
  obtain ⟨_, hs, hle⟩ := MapVertexBuffer_true b.ctx mapSucceeds hinv hmap
  have hr : remainingSlots b.ctx = b.ctx.m_Capacity - startCount b.ctx / 6 := rfl
  have hn : effectiveLength text maxCharacterCount 0 = min L maxCharacterCount :=
    effectiveLength_eq_min text maxCharacterCount 0 L (by simpa using hL)
      (fun j hj => by simpa using hnz j hj)
  rw [Print_eq b.ctx b.memory mapSucceeds beyond viewport maxCharacterCount text x y colour hinv
    hmap (by rw [hr]; omega), hn, Nat.min_eq_right (Nat.le_of_lt hover)]
  refine ⟨by simpa using hover, by simp only; rw [hr]; omega, ?_⟩
  intro k e hk he
  simp only
  rw [Nat.add_assoc, writeElements_of_mem _ _ _ _ (by rw [glyphStream_length]; omega)
    (DWORD.bits 0), glyphStream_getD _ _ _ _ _ _ _ _ _ _ _ hk he, Nat.zero_add]

/-- C5 applied to a six-character text printed after "HELLO" with capacity 10. -/
theorem C5_overflowing_print_fills_to_capacity_witness :
    6 * 10 < 2 ^ 32 ∧ Batch.Reachable exampleBeyond 10 helloBatch ∧
    repeatedText 6 65 6 = 0 ∧ (∀ j, j < 6 → repeatedText 6 65 j ≠ 0) ∧
    (MapVertexBuffer helloBatch.ctx true).1 = true ∧
    remainingSlots helloBatch.ctx < min 6 6 ∧
    ((Print helloBatch.ctx helloBatch.memory true exampleBeyond exampleViewport 6
        (repeatedText 6 65) 40 0 0xFFFFFFFF).result = false ∧
      (Print helloBatch.ctx helloBatch.memory true exampleBeyond exampleViewport 6
        (repeatedText 6 65) 40 0 0xFFFFFFFF).ctx.m_NumVertices = helloBatch.ctx.m_Capacity * 6 ∧
      ∀ k e, k < remainingSlots helloBatch.ctx → e < 24 →
        (Print helloBatch.ctx helloBatch.memory true exampleBeyond exampleViewport 6
          (repeatedText 6 65) 40 0 0xFFFFFFFF).memory (4 * startCount helloBatch.ctx + 24 * k + e)
          = (characterElements exampleBeyond exampleViewport (charValue (repeatedText 6 65 k))
              (advanceX^[k] 40) 0 0xFFFFFFFF).getD e (DWORD.bits 0)) :=
  ⟨by decide, helloBatch_reachable, by decide, by decide, by decide!, by decide!,
    C5_overflowing_print_fills_to_capacity exampleBeyond 10 (by decide) helloBatch
      helloBatch_reachable true exampleViewport 6 (repeatedText 6 65) 40 0 0xFFFFFFFF 6
      (by decide) (by decide) (by decide!) (by decide!)⟩

theorem CharacterData_lt : ∀ v ∈ CharacterData, v < 256 := by decide!

theorem readCharacterData_lt (beyond : Nat → Fin 256) (index : Nat) :
    readCharacterData beyond index < 256 := by
  unfold readCharacterData
  split
  · exact CharacterData_lt _ (List.get_mem _ _ _)
  · exact (beyond index).isLt

theorem glyphHeight_bounds (beyond : Nat → Fin 256) (currentChar : Int) :
    0 ≤ glyphHeight beyond currentChar ∧ glyphHeight beyond currentChar ≤ 15 := by
  unfold glyphHeight
  have h : readCharacterData beyond (characterDataIndex currentChar 2) &&& 0x0F ≤ 15 :=
    Nat.and_le_right
  omega

theorem glyphYOffset_bounds (beyond : Nat → Fin 256) (currentChar : Int) :
    0 ≤ glyphYOffset beyond currentChar ∧ glyphYOffset beyond currentChar ≤ 15 := by
  unfold glyphYOffset
  have h := readCharacterData_lt beyond (characterDataIndex currentChar 2)
  rw [Nat.shiftRight_eq_div_pow]
  omega

theorem wrapInt_of_range (i : Int) (h1 : -2 ^ 31 ≤ i) (h2 : i < 2 ^ 31) : wrapInt i = i := by
  unfold wrapInt
  omega

/-- C7, the code at a negative `x`: `Print "A"` at `x = -16` in a viewport 640 wide
stores the left edge `2 * (-16) / 640 - 1` but, because `x + CharacterWidth` is
computed as `unsigned int`, the right edge `4294967280 / 640 - 1 = 53687083 / 8`,
where the claim gives `2 * (-16 + 8) / 640 - 1 = -41 / 40`. -/
theorem C7_negative_x_right_edge :
    (Print exampleContext exampleMemory true exampleBeyond exampleViewport 1 letterAText (-16) 0
      0xFFFFFFFF).result = true ∧
    (Print exampleContext exampleMemory true exampleBeyond exampleViewport 1 letterAText (-16) 0
      0xFFFFFFFF).memory 0 = DWORD.float (2 * ((-16 : ℚ) + 8 * 0) / 640 - 1) ∧
    (Print exampleContext exampleMemory true exampleBeyond exampleViewport 1 letterAText (-16) 0
      0xFFFFFFFF).memory 8 = DWORD.float (53687083 / 8) ∧
    2 * ((-16 : ℚ) + 8 * 0 + 8) / 640 - 1 = -41 / 40 := by
  decide!

theorem mask_high (w : Nat) (h : w < 2 ^ 16) : (w <<< 16) &&& 0xFFFF0000 = w <<< 16 := by
  apply Nat.eq_of_testBit_eq
  intro i
  have hc : (0xFFFF0000 : Nat) = (2 ^ 16 - 1) <<< 16 := by decide
  rw [Nat.testBit_and, hc, Nat.testBit_shiftLeft, Nat.testBit_shiftLeft, Nat.testBit_two_pow_sub_one]
  by_cases h16 : 16 ≤ i
  · by_cases hi : i - 16 < 16
    · simp [h16, hi]
    · have : w.testBit (i - 16) = false := by
        apply Nat.testBit_lt_two_pow
        calc w < 2 ^ 16 := h
          _ ≤ 2 ^ (i - 16) := Nat.pow_le_pow_right (by norm_num) (by omega)
      simp [this]
  · simp [h16]

theorem or_decode (u v : Nat) (hu : u < 2 ^ 16) :
    (u ||| v <<< 16) &&& 0xFFFF = u ∧ (u ||| v <<< 16) >>> 16 = v := by
  constructor
  · apply Nat.eq_of_testBit_eq
    intro i
    have hc : (0xFFFF : Nat) = 2 ^ 16 - 1 := by norm_num
    rw [Nat.testBit_and, hc, Nat.testBit_two_pow_sub_one, Nat.testBit_or, Nat.testBit_shiftLeft]
    by_cases hi : i < 16
    · have : ¬ (16 ≤ i) := by omega
      simp [hi, this]
    · have : u.testBit i = false := by
        apply Nat.testBit_lt_two_pow
        calc u < 2 ^ 16 := hu
          _ ≤ 2 ^ i := Nat.pow_le_pow_right (by norm_num) (by omega)
      simp [hi, this]
  · apply Nat.eq_of_testBit_eq
    intro i
    rw [Nat.testBit_shiftRight, Nat.testBit_or, Nat.testBit_shiftLeft]
    have : u.testBit (16 + i) = false := by
      apply Nat.testBit_lt_two_pow
      calc u < 2 ^ 16 := hu
        _ ≤ 2 ^ (16 + i) := Nat.pow_le_pow_right (by norm_num) (by omega)
    simp [this]

theorem EncodeUVWord_eq (u v : Nat) (hu : u ≤ 65535) (hv : v ≤ 65535) :
    EncodeUVWord u v = u ||| v <<< 16 := by
  unfold EncodeUVWord
  have h1 : wrapUInt (u : Int) = u := wrapUInt_natCast_of_lt u (by omega)
  have h2 : wrapUInt (v : Int) = v := wrapUInt_natCast_of_lt v (by omega)
  have h3 : v <<< 16 < 2 ^ 32 := by
    rw [Nat.shiftLeft_eq]; omega
  rw [h1, h2, wrapUInt_natCast_of_lt _ h3, mask_high v (by omega)]
  have hc : (0x0000FFFF : Nat) = 2 ^ 16 - 1 := by norm_num
  rw [hc, Nat.and_pow_two_sub_one_eq_mod, Nat.mod_eq_of_lt (by omega)]

/-- C9: for `u` and `v` in `[0, 65535]`, `EncodeUVCoords u v` is the 32-bit word
`u | (v << 16)`, and decoding it as `(word & 0xFFFF, word >> 16)` returns `(u, v)`. -/
theorem C9_uv_encoding_roundtrip (u v : Nat) (hu : u ≤ 65535) (hv : v ≤ 65535) :
    EncodeUVCoords u v = DWORD.bits (u ||| v <<< 16) ∧ (u ||| v <<< 16) < 2 ^ 32 ∧
    ((EncodeUVCoords u v).toBits &&& 0xFFFF, (EncodeUVCoords u v).toBits >>> 16) = (u, v) := by
  have h := EncodeUVWord_eq u v hu hv
  have hd := or_decode u v (by omega)
  refine ⟨by rw [EncodeUVCoords, h], ?_, ?_⟩
  · have h3 : v <<< 16 < 2 ^ 32 := by rw [Nat.shiftLeft_eq]; omega
    exact Nat.or_lt_two_pow (by omega) h3
  · rw [EncodeUVCoords, h]
    simp only [DWORD.toBits, hd.1, hd.2]

/-- C9 applied to the texture coordinates (90, 54). -/
theorem C9_uv_encoding_roundtrip_witness :
    90 ≤ 65535 ∧ 54 ≤ 65535 ∧
    (EncodeUVCoords (90 : Nat) (54 : Nat) = DWORD.bits (90 ||| 54 <<< 16) ∧
      (90 ||| 54 <<< 16) < 2 ^ 32 ∧
      ((EncodeUVCoords (90 : Nat) (54 : Nat)).toBits &&& 0xFFFF,
        (EncodeUVCoords (90 : Nat) (54 : Nat)).toBits >>> 16) = (90, 54)) :=
  ⟨by decide, by decide, C9_uv_encoding_roundtrip 90 54 (by decide) (by decide)⟩

/-- C10: the colour field of each of the six vertices of an emitted glyph is the
colour passed to `Print`, unchanged; and a colour `0xAABBGGRR` is a 32-bit word whose
bytes in little-endian memory order are `(RR, GG, BB, AA)`. -/
theorem C10_colour_stored_unchanged (beyond : Nat → Fin 256) (viewport : D3D11_VIEWPORT)
    (currentChar x y : Int) (colour : Nat) (rr gg bb aa : Nat) (hr : rr < 256) (hg : gg < 256)
    (hb : bb < 256) (ha : aa < 256)
    (hcolour : colour = aa * 2 ^ 24 + bb * 2 ^ 16 + gg * 2 ^ 8 + rr) :
    vertexColours (characterElements beyond viewport currentChar x y colour) =
      List.replicate 6 (DWORD.bits colour) ∧
    colour < 2 ^ 32 ∧ littleEndianBytes colour = [rr, gg, bb, aa] := by
  refine ⟨rfl, by omega, ?_⟩
  unfold littleEndianBytes
  simp only [List.cons.injEq, and_true]
  omega

/-- C10 applied to the colour `0x12345678`. -/
theorem C10_colour_stored_unchanged_witness :
    0x78 < 256 ∧ 0x56 < 256 ∧ 0x34 < 256 ∧ 0x12 < 256 ∧
    0x12345678 = 0x12 * 2 ^ 24 + 0x34 * 2 ^ 16 + 0x56 * 2 ^ 8 + 0x78 ∧
    (vertexColours (characterElements exampleBeyond exampleViewport 65 16 10 0x12345678) =
        List.replicate 6 (DWORD.bits 0x12345678) ∧
      0x12345678 < 2 ^ 32 ∧ littleEndianBytes 0x12345678 = [0x78, 0x56, 0x34, 0x12]) :=
  ⟨by decide, by decide, by decide, by decide, by decide,
    C10_colour_stored_unchanged exampleBeyond exampleViewport 65 16 10 0x12345678 0x78 0x56 0x34
      0x12 (by decide) (by decide) (by decide) (by decide) (by decide)⟩

/-! ## Glyph table (C11, C12) -/

theorem CharacterData_length : CharacterData.length = 768 := by decide!

theorem wrapUInt_cast_of_nonneg (i : Int) (h0 : 0 ≤ i) (h1 : i < 2 ^ 32) :
    (wrapUInt i : Int) = i := by
  unfold wrapUInt
  omega

theorem wrapUInt_cast_of_neg (i : Int) (h0 : -2 ^ 32 ≤ i) (h1 : i < 0) :
    (wrapUInt i : Int) = i + 2 ^ 32 := by
  unfold wrapUInt
  omega

theorem characterDataIndex_of_nonneg (c : Int) (k : Nat) (h0 : 0 ≤ c) (hc : c < 256)
    (hk : k < 3) : (characterDataIndex c k : Int) = c * 3 + k := by
  unfold characterDataIndex CharacterByteCount
  have h1 := wrapUInt_cast_of_nonneg (c * (3 : Nat)) (by omega) (by omega)
  rw [h1]
  have h2 := wrapUInt_cast_of_nonneg (c * (3 : Nat) + k) (by omega) (by omega)
  rw [h2]
  rfl

theorem characterDataIndex_of_neg (c : Int) (k : Nat) (h0 : -128 ≤ c) (hc : c < 0)
    (hk : k < 3) : (characterDataIndex c k : Int) = 2 ^ 32 + c * 3 + k := by
  unfold characterDataIndex CharacterByteCount
  have h1 := wrapUInt_cast_of_neg (c * (3 : Nat)) (by omega) (by omega)
  rw [h1]
  have h2 := wrapUInt_cast_of_nonneg (c * (3 : Nat) + 2 ^ 32 + k) (by omega) (by omega)
  rw [h2]
  ring

/-- C11, the code at a byte above 127: `CharacterData` has `256 * 3` entries, but `char`
is signed, so the byte 128 is the character value -128 and the `unsigned int` indices
`currentChar * CharacterByteCount + k` are 4294966912, 4294966913 and 4294966914, far
outside the table.  The same holds for every byte from 128 on, while the indices of
every byte below 128 are inside the table. -/
theorem C11_high_bytes_index_outside_table :
    CharacterData.length = 256 * 3 ∧ charValue 128 = -128 ∧
    characterDataIndex (charValue 128) 0 = 4294966912 ∧
    characterDataIndex (charValue 128) 1 = 4294966913 ∧
    characterDataIndex (charValue 128) 2 = 4294966914 ∧
    ¬ characterDataIndex (charValue 128) 0 < CharacterData.length ∧
    (∀ byte : Fin 256, 128 ≤ byte.val → ∀ k, k < 3 →
      ¬ characterDataIndex (charValue byte) k < CharacterData.length) ∧
    (∀ byte : Fin 256, byte.val < 128 → ∀ k, k < 3 →
      characterDataIndex (charValue byte) k < CharacterData.length) := by
  refine ⟨by decide!, by decide, by decide, by decide, by decide, by decide!, ?_, ?_⟩
  · intro byte h k hk
    rw [CharacterData_length]
    have := byte.isLt
    have hv : charValue byte = byte.val - 256 := by
      unfold charValue
      rw [if_neg (by omega)]
    have h1 := characterDataIndex_of_neg (charValue byte) k (by omega) (by omega) hk
    omega
  · intro byte h k hk
    rw [CharacterData_length]
    have hv : charValue byte = byte.val := by
      unfold charValue
      rw [if_pos h]
    have h1 := characterDataIndex_of_nonneg (charValue byte) k (by omega) (by omega) hk
    omega

theorem characterDataIndex_natCast (c k : Nat) (hc : c < 256) (hk : k < 3) :
    characterDataIndex (c : Int) k = c * 3 + k := by
  have h1 := characterDataIndex_of_nonneg (c : Int) k (by omega) (by omega) hk
  omega

theorem CharacterData_entries_in_atlas :
    ∀ c : Fin 256, CharacterData.getD (c.val * 3) 0 + CharacterWidth ≤ TextTextureWidth ∧
      CharacterData.getD (c.val * 3 + 1) 0 + (CharacterData.getD (c.val * 3 + 2) 0 &&& 0x0F) ≤
        TextTextureHeight := by
  decide!

theorem readCharacterData_of_lt (beyond : Nat → Fin 256) (index : Nat)
    (h : index < CharacterData.length) :
    readCharacterData beyond index = CharacterData.getD index 0 := by
  unfold readCharacterData
  rw [dif_pos h, List.getD_eq_getElem _ _ h]
  rfl

/-- C12: for every character code `c` in 0..255, entry `c` of `CharacterData` decoded
as `Print` decodes it (`u` = byte 0, `v` = byte 1, height = low 4 bits of byte 2,
y-offset = high 4 bits of byte 2) is a rectangle inside the 128 by 128 atlas:
`u + CharacterWidth ≤ 128` and `v + height ≤ 128`. -/
theorem C12_glyph_rectangles_inside_atlas (beyond : Nat → Fin 256) (c : Nat) (hc : c < 256) :
    CharacterData.length = 256 * 3 ∧
    glyphU beyond (c : Int) = (CharacterData.getD (c * CharacterByteCount) 0 : Nat) ∧
    glyphV beyond (c : Int) = (CharacterData.getD (c * CharacterByteCount + 1) 0 : Nat) ∧
    glyphU beyond (c : Int) + CharacterWidth ≤ TextTextureWidth ∧
    glyphV beyond (c : Int) + glyphHeight beyond (c : Int) ≤ TextTextureHeight ∧
    glyphHeight beyond (c : Int) =
      (CharacterData.getD (c * CharacterByteCount + 2) 0 % 16 : Nat) ∧
    glyphYOffset beyond (c : Int) =
      (CharacterData.getD (c * CharacterByteCount + 2) 0 / 16 : Nat) := by
  have h := CharacterData_entries_in_atlas ⟨c, hc⟩
  have hl := CharacterData_length
  simp only at h
  unfold glyphU glyphV glyphHeight glyphYOffset
  rw [characterDataIndex_natCast c 0 hc (by omega), characterDataIndex_natCast c 1 hc (by omega),
    characterDataIndex_natCast c 2 hc (by omega),
    readCharacterData_of_lt _ _ (by omega), readCharacterData_of_lt _ _ (by omega),
    readCharacterData_of_lt _ _ (by omega)]
  refine ⟨by decide!, by rw [CharacterByteCount, Nat.add_zero], by rw [CharacterByteCount],
    ?_, ?_, ?_, ?_⟩
  · have := h.1; simp only [CharacterWidth, TextTextureWidth, Nat.add_zero] at *; omega
  · have := h.2; simp only [TextTextureHeight] at *; omega
  · have : (0x0F : Nat) = 2 ^ 4 - 1 := by decide
    rw [this, Nat.and_pow_two_sub_one_eq_mod, CharacterByteCount]
  · rw [Nat.shiftRight_eq_div_pow, CharacterByteCount]

/-- C12 applied to the entry of the character `A`. -/
theorem C12_glyph_rectangles_inside_atlas_witness :
    65 < 256 ∧
    (CharacterData.length = 256 * 3 ∧
    glyphU exampleBeyond ((65 : Nat) : Int) =
      (CharacterData.getD (65 * CharacterByteCount) 0 : Nat) ∧
    glyphV exampleBeyond ((65 : Nat) : Int) =
      (CharacterData.getD (65 * CharacterByteCount + 1) 0 : Nat) ∧
    glyphU exampleBeyond ((65 : Nat) : Int) + CharacterWidth ≤ TextTextureWidth ∧
    glyphV exampleBeyond ((65 : Nat) : Int) + glyphHeight exampleBeyond ((65 : Nat) : Int) ≤
      TextTextureHeight ∧
    glyphHeight exampleBeyond ((65 : Nat) : Int) =
      (CharacterData.getD (65 * CharacterByteCount + 2) 0 % 16 : Nat) ∧
    glyphYOffset exampleBeyond ((65 : Nat) : Int) =
      (CharacterData.getD (65 * CharacterByteCount + 2) 0 / 16 : Nat)) :=
  ⟨by decide, C12_glyph_rectangles_inside_atlas exampleBeyond 65 (by decide)⟩

/-! ## Render and the state guard (C13 to C16) -/

theorem AddRef_eq (dev : DeviceState) (handle : Nat) :
    dev.AddRef handle =
      { dev with refCount := fun x =>
          dev.refCount x + (if handle ≠ 0 ∧ x = handle then 1 else 0) } := by
  unfold DeviceState.AddRef
  by_cases h : handle = 0
  · simp [h]
  · rw [if_neg h]
    congr 1
    funext x
    by_cases hx : x = handle
    · subst hx; simp [h]
    · simp [hx, Function.update_noteq hx]

theorem releasePointer_eq (dev : DeviceState) (handle : Nat) :
    releasePointer dev handle =
      (0, { dev with refCount := fun x =>
          dev.refCount x - (if handle ≠ 0 ∧ x = handle then 1 else 0) }) := by
  unfold releasePointer DeviceState.Release
  by_cases h : handle = 0
  · simp [h]
  · rw [if_pos h]
    congr 2
    funext x
    by_cases hx : x = handle
    · subst hx; simp [h]
    · simp [hx, Function.update_noteq hx]

/-- The guard after `Capture`: every field holds the binding found on the device. -/
theorem Capture_fst (state : PreviousState_c) (dev : DeviceState) :
    (state.Capture dev).1 =
      { prevVertexShader := dev.VertexShader
        prevPixelShader := dev.PixelShader
        prevTextureView := dev.PSShaderResource
        prevSampler := dev.PSSampler
        prevInputLayout := dev.InputLayout
        prevVertexBuffer := dev.VertexBuffer
        prevGeometryShader := dev.GeometryShader
        prevBlendState := dev.BlendState
        prevBlendFactor := dev.BlendFactor
        prevSampleMask := dev.SampleMask
        prevDepthStencilState := dev.DepthStencilState
        prevStencilRef := dev.StencilRef
        numViewports := state.numViewports
        prevRasterizerState := dev.RasterizerState
        prevVertexStride := dev.VertexStride
        prevVertexOffset := dev.VertexOffset
        prevTopology := dev.PrimitiveTopology } := by
  simp only [PreviousState_c.Capture, AddRef_eq, DeviceState.logCall]

theorem Capture_written (state : PreviousState_c) (dev : DeviceState) :
    (state.Capture dev).2.written = dev.written ∧
    (state.Capture dev).2.RenderTarget = dev.RenderTarget := by
  simp only [PreviousState_c.Capture, AddRef_eq, DeviceState.logCall, DeviceState.written,
    and_self]

theorem Capture_refCount (state : PreviousState_c) (dev : DeviceState) (x : Nat) :
    (state.Capture dev).2.refCount x =
      dev.refCount x
        + (if dev.GeometryShader ≠ 0 ∧ x = dev.GeometryShader then 1 else 0)
        + (if dev.VertexShader ≠ 0 ∧ x = dev.VertexShader then 1 else 0)
        + (if dev.PixelShader ≠ 0 ∧ x = dev.PixelShader then 1 else 0)
        + (if dev.PSShaderResource ≠ 0 ∧ x = dev.PSShaderResource then 1 else 0)
        + (if dev.PSSampler ≠ 0 ∧ x = dev.PSSampler then 1 else 0)
        + (if dev.InputLayout ≠ 0 ∧ x = dev.InputLayout then 1 else 0)
        + (if dev.VertexBuffer ≠ 0 ∧ x = dev.VertexBuffer then 1 else 0)
        + (if dev.BlendState ≠ 0 ∧ x = dev.BlendState then 1 else 0)
        + (if dev.DepthStencilState ≠ 0 ∧ x = dev.DepthStencilState then 1 else 0)
        + (if dev.RasterizerState ≠ 0 ∧ x = dev.RasterizerState then 1 else 0) := by
  simp only [PreviousState_c.Capture, AddRef_eq, DeviceState.logCall]

theorem Release_fst (state : PreviousState_c) (dev : DeviceState) :
    (state.Release dev).1.pointers = List.replicate 10 0 := by
  simp only [PreviousState_c.Release, releasePointer_eq, PreviousState_c.pointers]
  rfl

theorem Release_written (state : PreviousState_c) (dev : DeviceState) :
    (state.Release dev).2.written = dev.written ∧
    (state.Release dev).2.RenderTarget = dev.RenderTarget ∧
    (state.Release dev).2.calls = dev.calls := by
  simp only [PreviousState_c.Release, releasePointer_eq, DeviceState.written, and_self]

theorem Release_refCount (state : PreviousState_c) (dev : DeviceState) (x : Nat) :
    (state.Release dev).2.refCount x =
      dev.refCount x
        - (if state.prevVertexShader ≠ 0 ∧ x = state.prevVertexShader then 1 else 0)
        - (if state.prevPixelShader ≠ 0 ∧ x = state.prevPixelShader then 1 else 0)
        - (if state.prevTextureView ≠ 0 ∧ x = state.prevTextureView then 1 else 0)
        - (if state.prevSampler ≠ 0 ∧ x = state.prevSampler then 1 else 0)
        - (if state.prevInputLayout ≠ 0 ∧ x = state.prevInputLayout then 1 else 0)
        - (if state.prevVertexBuffer ≠ 0 ∧ x = state.prevVertexBuffer then 1 else 0)
        - (if state.prevGeometryShader ≠ 0 ∧ x = state.prevGeometryShader then 1 else 0)
        - (if state.prevBlendState ≠ 0 ∧ x = state.prevBlendState then 1 else 0)
        - (if state.prevDepthStencilState ≠ 0 ∧ x = state.prevDepthStencilState then 1 else 0)
        - (if state.prevRasterizerState ≠ 0 ∧ x = state.prevRasterizerState then 1 else 0) := by
  simp only [PreviousState_c.Release, releasePointer_eq]

/-- The device after the `Set` calls of `Restore`, before the guard releases its pointers. -/
theorem Restore_eq (state : PreviousState_c) (dev : DeviceState) :
    state.Restore dev = state.Release
      (((((((((((dev.GSSetShader state.prevGeometryShader).VSSetShader
        state.prevVertexShader).PSSetShader state.prevPixelShader).PSSetShaderResources
        state.prevTextureView).PSSetSamplers state.prevSampler).IASetInputLayout
        state.prevInputLayout).IASetVertexBuffers state.prevVertexBuffer state.prevVertexStride
        state.prevVertexOffset).IASetPrimitiveTopology state.prevTopology).OMSetBlendState
        state.prevBlendState (some state.prevBlendFactor) state.prevSampleMask).OMSetDepthStencilState
        state.prevDepthStencilState state.prevStencilRef).RSSetState state.prevRasterizerState) :=
  rfl

theorem Restore_written (state : PreviousState_c) (dev : DeviceState) :
    (state.Restore dev).2.written =
      (state.prevVertexShader, state.prevGeometryShader, state.prevPixelShader,
        state.prevTextureView, state.prevSampler, state.prevInputLayout, state.prevVertexBuffer,
        state.prevVertexStride, state.prevVertexOffset, state.prevTopology, state.prevBlendState,
        state.prevBlendFactor, state.prevSampleMask, state.prevDepthStencilState,
        state.prevStencilRef, state.prevRasterizerState) ∧
    (state.Restore dev).2.RenderTarget = dev.RenderTarget := by
  rw [Restore_eq]
  refine ⟨by rw [(Release_written _ _).1]; rfl, by rw [(Release_written _ _).2.1]; rfl⟩

theorem Restore_refCount (state : PreviousState_c) (dev : DeviceState) (x : Nat) :
    (state.Restore dev).2.refCount x = (state.Release dev).2.refCount x := by
  rw [Restore_eq, Release_refCount, Release_refCount]
  rfl

theorem Restore_fst (state : PreviousState_c) (dev : DeviceState) :
    (state.Restore dev).1.pointers = List.replicate 10 0 := by
  rw [Restore_eq]
  exact Release_fst _ _

theorem UnmapVertexBuffer_written (ctx : TinyTextContext_c) (dev : DeviceState) :
    (UnmapVertexBuffer ctx dev).2.written = dev.written ∧
    (UnmapVertexBuffer ctx dev).2.RenderTarget = dev.RenderTarget ∧
    (UnmapVertexBuffer ctx dev).2.refCount = dev.refCount := by
  unfold UnmapVertexBuffer
  rcases Option.eq_none_or_eq_some ctx.m_VertexBufferWriteAddress with h | ⟨a, h⟩
  · rw [h]; exact ⟨rfl, rfl, rfl⟩
  · rw [h]
    simp only
    split <;> exact ⟨rfl, rfl, rfl⟩

/-- C13 fails as stated: on the initialised context holding "HELLO", whose buffer is
mapped, `Render` with no render target bound returns `false` and the write address is
still `some 120`: the buffer stays mapped. -/
theorem C13_buffer_stays_mapped_counterexample :
    helloBatch.ctx.m_Device ≠ 0 ∧ helloBatch.ctx.m_VertexBufferWriteAddress = some 120 ∧
    exampleDeviceWithoutTarget.RenderTarget = 0 ∧
    (Render helloBatch.ctx exampleDeviceWithoutTarget true).1 = false ∧
    (Render helloBatch.ctx exampleDeviceWithoutTarget true).2.1.m_VertexBufferWriteAddress =
      some 120 := by
  decide!

/-- C13, amended: for every initialised context whose buffer is mapped, `Render` while
no render target is bound returns `false` and leaves the context as it was, the buffer
still mapped; the only call the device receives is `OMGetRenderTargets`. -/
theorem C13_render_without_target_changes_nothing (ctx : TinyTextContext_c) (dev : DeviceState)
    (maintainState : Bool) (a : Nat) (hinit : ctx.m_Device ≠ 0)
    (hmapped : ctx.m_VertexBufferWriteAddress = some a) (htarget : dev.RenderTarget = 0) :
    Render ctx dev maintainState = (false, ctx, dev.logCall DeviceCall.OMGetRenderTargets) ∧
    (Render ctx dev maintainState).2.1.m_VertexBufferWriteAddress = some a := by
  have h : Render ctx dev maintainState =
      (false, ctx, dev.logCall DeviceCall.OMGetRenderTargets) := by
    unfold Render
    rw [if_neg hinit]
    simp only [htarget, if_true, DeviceState.AddRef]
  rw [h]
  exact ⟨rfl, hmapped⟩

/-- C13 (amended) applied to the context holding "HELLO" and a device without render target. -/
theorem C13_render_without_target_changes_nothing_witness :
    helloBatch.ctx.m_Device ≠ 0 ∧ helloBatch.ctx.m_VertexBufferWriteAddress = some 120 ∧
    exampleDeviceWithoutTarget.RenderTarget = 0 ∧
    (Render helloBatch.ctx exampleDeviceWithoutTarget true =
        (false, helloBatch.ctx,
          exampleDeviceWithoutTarget.logCall DeviceCall.OMGetRenderTargets) ∧
      (Render helloBatch.ctx exampleDeviceWithoutTarget true).2.1.m_VertexBufferWriteAddress =
        some 120) :=
  ⟨by decide!, by decide!, by decide,
    C13_render_without_target_changes_nothing helloBatch.ctx exampleDeviceWithoutTarget true 120
      (by decide!) (by decide!) (by decide)⟩

theorem Render_true_iff (ctx : TinyTextContext_c) (dev : DeviceState) (maintainState : Bool) :
    (Render ctx dev maintainState).1 = true ↔ ctx.m_Device ≠ 0 ∧ dev.RenderTarget ≠ 0 := by
  unfold Render
  by_cases hd : ctx.m_Device = 0
  · simp [hd]
  · by_cases hr : dev.RenderTarget = 0
    · simp [hd, hr]
    · simp [hd, hr]

/-- C14: after a successful `Render` with `maintainState = true` every device field that
`Render` writes has the value it had before the call. -/
theorem C14_render_restores_written_state (ctx : TinyTextContext_c) (dev : DeviceState)
    (hsuccess : (Render ctx dev true).1 = true) :
    (Render ctx dev true).2.2.written = dev.written := by
  obtain ⟨hd, hr⟩ := (Render_true_iff ctx dev true).1 hsuccess
  unfold Render
  rw [if_neg hd]
  simp only [hr, if_false, if_true]
  rw [(Release_written _ _).1, (Restore_written _ _).1, Capture_fst]
  simp only
  have h := (UnmapVertexBuffer_written ctx
    (((dev.logCall DeviceCall.OMGetRenderTargets).AddRef dev.RenderTarget).Release
      dev.RenderTarget)).1
  have h2 : (((dev.logCall DeviceCall.OMGetRenderTargets).AddRef dev.RenderTarget).Release
      dev.RenderTarget).written = dev.written := by
    rw [AddRef_eq]; rfl
  rw [h2] at h
  rw [← h]
  rfl

/-- C14 applied to the context holding "HELLO" and the example device. -/
theorem C14_render_restores_written_state_witness :
    (Render helloBatch.ctx exampleDevice true).1 = true ∧
    (Render helloBatch.ctx exampleDevice true).2.2.written = exampleDevice.written :=
  ⟨by decide!, C14_render_restores_written_state helloBatch.ctx exampleDevice (by decide!)⟩

/-- C15 fails as stated: `Restore` on a guard that never captured changes the example
device: vertex shader 101 becomes null, topology 5 becomes undefined, the blend factor
becomes zero and the sample mask `0xffffffff`. -/
theorem C15_restore_without_capture_counterexample :
    exampleDevice.VertexShader = 101 ∧
    (PreviousState_c.new.Restore exampleDevice).2.VertexShader = 0 ∧
    exampleDevice.PrimitiveTopology = 5 ∧
    (PreviousState_c.new.Restore exampleDevice).2.PrimitiveTopology = 0 ∧
    exampleDevice.BlendFactor = (1 / 2, 1 / 4, 1, 0) ∧
    (PreviousState_c.new.Restore exampleDevice).2.BlendFactor = (0, 0, 0, 0) ∧
    exampleDevice.SampleMask = 255 ∧
    (PreviousState_c.new.Restore exampleDevice).2.SampleMask = 4294967295 := by
  decide!

/-- C15, amended: `Restore` on a guard on which `Capture` has never been called sets the
fields it writes to the values the constructor of the guard holds (null objects, stride
and offset 0, undefined topology, blend factor zero, sample mask `0xffffffff`, stencil
reference 0); it changes neither the render target nor any reference count. -/
theorem C15_restore_without_capture_sets_defaults (dev : DeviceState) :
    (PreviousState_c.new.Restore dev).2.written =
      (0, 0, 0, 0, 0, 0, 0, 0, 0, D3D11_PRIMITIVE_TOPOLOGY_UNDEFINED, 0, (0, 0, 0, 0),
        0xffffffff, 0, 0, 0) ∧
    (PreviousState_c.new.Restore dev).2.RenderTarget = dev.RenderTarget ∧
    (PreviousState_c.new.Restore dev).2.refCount = dev.refCount := by
  refine ⟨(Restore_written _ _).1, (Restore_written _ _).2, ?_⟩
  funext x
  rw [Restore_refCount, Release_refCount]
  simp [PreviousState_c.new]

/-- C16: with each `Get` call adding one reference to the non-null object it returns,
after one `Capture` followed by `Restore`, or by the destructor (`Release`) without
`Restore`, all ten object pointers of the guard are null and every reference count has
the value it had before `Capture`.  `later` is the device at that moment, with the
reference counts `Capture` left. -/
theorem C16_guard_releases_what_it_captured (state : PreviousState_c) (dev later : DeviceState)
    (hlater : later.refCount = (state.Capture dev).2.refCount) :
    ((state.Capture dev).1.Restore later).1.pointers = List.replicate 10 0 ∧
    ((state.Capture dev).1.Restore later).2.refCount = dev.refCount ∧
    ((state.Capture dev).1.Release later).1.pointers = List.replicate 10 0 ∧
    ((state.Capture dev).1.Release later).2.refCount = dev.refCount := by
  have key : ((state.Capture dev).1.Release later).2.refCount = dev.refCount := by
    funext x
    rw [Release_refCount, hlater, Capture_refCount, Capture_fst]
    simp only
    generalize (if dev.GeometryShader ≠ 0 ∧ x = dev.GeometryShader then 1 else 0) = a1
    generalize (if dev.VertexShader ≠ 0 ∧ x = dev.VertexShader then 1 else 0) = a2
    generalize (if dev.PixelShader ≠ 0 ∧ x = dev.PixelShader then 1 else 0) = a3
    generalize (if dev.PSShaderResource ≠ 0 ∧ x = dev.PSShaderResource then 1 else 0) = a4
    generalize (if dev.PSSampler ≠ 0 ∧ x = dev.PSSampler then 1 else 0) = a5
    generalize (if dev.InputLayout ≠ 0 ∧ x = dev.InputLayout then 1 else 0) = a6
    generalize (if dev.VertexBuffer ≠ 0 ∧ x = dev.VertexBuffer then 1 else 0) = a7
    generalize (if dev.BlendState ≠ 0 ∧ x = dev.BlendState then 1 else 0) = a8
    generalize (if dev.DepthStencilState ≠ 0 ∧ x = dev.DepthStencilState then 1 else 0) = a9
    generalize (if dev.RasterizerState ≠ 0 ∧ x = dev.RasterizerState then 1 else 0) = a10
    omega
  refine ⟨Restore_fst _ _, ?_, Release_fst _ _, key⟩
  funext x
  rw [Restore_refCount, key]

/-- C16 applied to a fresh guard and the example device. -/
theorem C16_guard_releases_what_it_captured_witness :
    (PreviousState_c.new.Capture exampleDevice).2.refCount =
      (PreviousState_c.new.Capture exampleDevice).2.refCount ∧
    (((PreviousState_c.new.Capture exampleDevice).1.Restore
        (PreviousState_c.new.Capture exampleDevice).2).1.pointers = List.replicate 10 0 ∧
      ((PreviousState_c.new.Capture exampleDevice).1.Restore
        (PreviousState_c.new.Capture exampleDevice).2).2.refCount = exampleDevice.refCount ∧
      ((PreviousState_c.new.Capture exampleDevice).1.Release
        (PreviousState_c.new.Capture exampleDevice).2).1.pointers = List.replicate 10 0 ∧
      ((PreviousState_c.new.Capture exampleDevice).1.Release
        (PreviousState_c.new.Capture exampleDevice).2).2.refCount = exampleDevice.refCount) :=
  ⟨rfl, C16_guard_releases_what_it_captured PreviousState_c.new exampleDevice
    (PreviousState_c.new.Capture exampleDevice).2 rfl⟩

/-! ## Construction and text access (C17 to C20) -/

/-- C17, the code when the vertex shader fails and the input layout succeeds:
`Initialise` returns `false` having released only the shader byte code (handle 11); the
input layout it created (handle 13) is not released. -/
theorem C17_input_layout_leaks_when_vertex_shader_fails :
    vertexShaderFails.vertexShaderByteCode ≠ 0 ∧ vertexShaderFails.vertexShader = 0 ∧
    vertexShaderFails.inputLayout = 13 ∧
    (TinyTextContext_c.new 1 2 10 vertexShaderFails).1 = false ∧
    (TinyTextContext_c.new 1 2 10 vertexShaderFails).2.2 = [11] ∧
    vertexShaderFails.inputLayout ∉ (TinyTextContext_c.new 1 2 10 vertexShaderFails).2.2 := by
  decide!

theorem Initialise_true_or_unchanged (ctx : TinyTextContext_c) (device deviceContext : Nat)
    (created : CreationOutcomes) :
    (Initialise ctx device deviceContext created).1 = true ∨
    (Initialise ctx device deviceContext created).2.1 = ctx := by
  unfold Initialise
  dsimp only
  split_ifs
  all_goals first
    | exact Or.inr rfl
    | exact Or.inl rfl

/-- The context a failed construction leaves: the members as the constructor
initialised them. -/
theorem new_of_failure (device deviceContext characterCapacity : Nat) (created : CreationOutcomes)
    (hfail : (TinyTextContext_c.new device deviceContext characterCapacity created).1 = false) :
    (TinyTextContext_c.new device deviceContext characterCapacity created).2.1 =
      ⟨0, 0, 0, 0, 0, 0, 0, 0, 0, 0, wrapUInt characterCapacity, none⟩ := by
  unfold TinyTextContext_c.new at hfail ⊢
  rcases Initialise_true_or_unchanged _ device deviceContext created with h | h
  · rw [h] at hfail; simp at hfail
  · exact h

theorem Print_of_null_context (ctx : TinyTextContext_c) (memory : VertexMemory)
    (mapSucceeds : Bool) (beyond : Nat → Fin 256) (viewport : D3D11_VIEWPORT)
    (maxCharacterCount : Nat) (text : Nat → Fin 256) (x y : Int) (colour : Nat)
    (h : ctx.m_DeviceContext = 0) :
    Print ctx memory mapSucceeds beyond viewport maxCharacterCount text x y colour =
      ⟨false, ctx, memory, []⟩ := by
  have hm : MapVertexBuffer ctx mapSucceeds = (false, ctx) := by
    unfold MapVertexBuffer
    rw [if_pos h]
  rw [Print_of_map_false _ _ _ _ _ _ _ _ _ _ (by rw [hm]), hm]

theorem Render_of_null_device (ctx : TinyTextContext_c) (dev : DeviceState)
    (maintainState : Bool) (h : ctx.m_Device = 0) :
    Render ctx dev maintainState = (false, ctx, dev) := by
  unfold Render
  rw [if_pos h]

theorem run_of_null_context (beyond : Nat → Fin 256) (b : Batch) (calls : List Call)
    (h1 : b.ctx.m_Device = 0) (h2 : b.ctx.m_DeviceContext = 0) :
    Batch.run beyond b calls = b := by
  unfold Batch.run
  induction calls with
  | nil => rfl
  | cons call rest ih =>
    rw [List.foldl_cons]
    have hstep : Batch.step beyond b call = b := by
      cases call with
      | Print mapSucceeds viewport maxCharacterCount text x y colour =>
        simp only [Batch.step, Print_of_null_context _ _ _ _ _ _ _ _ _ _ h2, List.append_nil]
      | Render dev maintainState =>
        simp only [Batch.step, Render_of_null_device _ _ _ h1]
    rw [hstep]
    exact ih

/-- C18: construction with a null device reports failure; after any failed construction
every resource handle of the context is null, any sequence of calls leaves the batch
as it is, every `Print` returns `false` without a store and every `Render` returns
`false` leaving the device, its log of calls included, untouched. -/
theorem C18_failed_construction_leaves_inert_context (device deviceContext characterCapacity : Nat)
    (created : CreationOutcomes)
    (hfail : (TinyTextContext_c.new device deviceContext characterCapacity created).1 = false) :
    (TinyTextContext_c.new 0 deviceContext characterCapacity created).1 = false ∧
    (TinyTextContext_c.new device deviceContext characterCapacity created).2.1.handles =
      List.replicate 9 0 ∧
    ∀ (beyond : Nat → Fin 256) (memory : VertexMemory) (calls : List Call),
      Batch.run beyond
        ⟨(TinyTextContext_c.new device deviceContext characterCapacity created).2.1, memory, []⟩
        calls =
        ⟨(TinyTextContext_c.new device deviceContext characterCapacity created).2.1, memory, []⟩ ∧
      (∀ (mapSucceeds : Bool) (viewport : D3D11_VIEWPORT) (maxCharacterCount : Nat)
        (text : Nat → Fin 256) (x y : Int) (colour : Nat),
        Print (TinyTextContext_c.new device deviceContext characterCapacity created).2.1 memory
            mapSucceeds beyond viewport maxCharacterCount text x y colour =
          ⟨false, (TinyTextContext_c.new device deviceContext characterCapacity created).2.1,
            memory, []⟩) ∧
      ∀ (dev : DeviceState) (maintainState : Bool),
        Render (TinyTextContext_c.new device deviceContext characterCapacity created).2.1 dev
            maintainState =
          (false, (TinyTextContext_c.new device deviceContext characterCapacity created).2.1,
            dev) := by
  have hctx := new_of_failure device deviceContext characterCapacity created hfail
  refine ⟨?_, by rw [hctx]; rfl, ?_⟩
  · unfold TinyTextContext_c.new Initialise
    rw [if_pos rfl]
  · intro beyond memory calls
    rw [hctx]
    exact ⟨run_of_null_context beyond _ calls rfl rfl,
      fun _ _ _ _ _ _ _ => Print_of_null_context _ _ _ _ _ _ _ _ _ _ rfl,
      fun _ _ => Render_of_null_device _ _ _ rfl⟩

/-- C18 applied to the construction in which the vertex shader fails. -/
theorem C18_failed_construction_leaves_inert_context_witness :
    (TinyTextContext_c.new 1 2 10 vertexShaderFails).1 = false ∧
    ((TinyTextContext_c.new 0 2 10 vertexShaderFails).1 = false ∧
    (TinyTextContext_c.new 1 2 10 vertexShaderFails).2.1.handles = List.replicate 9 0 ∧
    ∀ (beyond : Nat → Fin 256) (memory : VertexMemory) (calls : List Call),
      Batch.run beyond ⟨(TinyTextContext_c.new 1 2 10 vertexShaderFails).2.1, memory, []⟩ calls =
        ⟨(TinyTextContext_c.new 1 2 10 vertexShaderFails).2.1, memory, []⟩ ∧
      (∀ (mapSucceeds : Bool) (viewport : D3D11_VIEWPORT) (maxCharacterCount : Nat)
        (text : Nat → Fin 256) (x y : Int) (colour : Nat),
        Print (TinyTextContext_c.new 1 2 10 vertexShaderFails).2.1 memory
            mapSucceeds beyond viewport maxCharacterCount text x y colour =
          ⟨false, (TinyTextContext_c.new 1 2 10 vertexShaderFails).2.1, memory, []⟩) ∧
      ∀ (dev : DeviceState) (maintainState : Bool),
        Render (TinyTextContext_c.new 1 2 10 vertexShaderFails).2.1 dev maintainState =
          (false, (TinyTextContext_c.new 1 2 10 vertexShaderFails).2.1, dev)) :=
  ⟨by decide!, C18_failed_construction_leaves_inert_context 1 2 10 vertexShaderFails (by decide!)⟩

theorem PrintLoopTraced_fst (beyond : Nat → Fin 256) (viewport : D3D11_VIEWPORT)
    (text : Nat → Fin 256) (y : Int) (colour : Nat) (maxCharacterCount : Nat) :
    ∀ (i : Nat) (x : Int) (ctx : TinyTextContext_c) (memory : VertexMemory)
      (writes reads : List Nat),
      (PrintLoopTraced beyond viewport text y colour maxCharacterCount i x ctx memory writes
        reads).1 = PrintLoop beyond viewport text y colour maxCharacterCount i x ctx memory writes := by
  induction maxCharacterCount with
  | zero =>
    intro i x ctx memory writes reads
    unfold PrintLoopTraced PrintLoop
    simp only
    split <;> rfl
  | succ m ih =>
    intro i x ctx memory writes reads
    unfold PrintLoopTraced PrintLoop
    simp only
    split
    · rfl
    · split
      · rfl
      · split
        · rfl
        · exact ih _ _ _ _ _ _

/-- The traced `Print` is `Print` itself with the record of reads added. -/
theorem PrintTraced_fst (ctx : TinyTextContext_c) (memory : VertexMemory) (mapSucceeds : Bool)
    (beyond : Nat → Fin 256) (viewport : D3D11_VIEWPORT) (maxCharacterCount : Nat)
    (text : Nat → Fin 256) (x y : Int) (colour : Nat) :
    (PrintTraced ctx memory mapSucceeds beyond viewport maxCharacterCount text x y colour).1 =
      Print ctx memory mapSucceeds beyond viewport maxCharacterCount text x y colour := by
  unfold PrintTraced Print
  split
  · rfl
  · exact PrintLoopTraced_fst _ _ _ _ _ _ _ _ _ _ _ _

/-- C19, the code on a buffer of one character without terminator: `Print` with
`maxCharacterCount = 1` stores the glyph of the character and reads `text` at the
indices 0 and 1; index 1 is not below the count. -/
theorem C19_read_past_counted_buffer :
    unterminatedText 0 ≠ 0 ∧
    (PrintTraced exampleContext exampleMemory true exampleBeyond exampleViewport 1
      unterminatedText 0 0 0xFFFFFFFF).1 =
      Print exampleContext exampleMemory true exampleBeyond exampleViewport 1 unterminatedText
        0 0 0xFFFFFFFF ∧
    (PrintTraced exampleContext exampleMemory true exampleBeyond exampleViewport 1
      unterminatedText 0 0 0xFFFFFFFF).2 = [0, 1] ∧
    (PrintTraced exampleContext exampleMemory true exampleBeyond exampleViewport 1
      unterminatedText 0 0 0xFFFFFFFF).1.ctx.m_NumVertices = 6 := by
  refine ⟨by decide, PrintTraced_fst _ _ _ _ _ _ _ _ _ _, by decide!, by decide!⟩

theorem PrintLoop_count_irrelevant (beyond : Nat → Fin 256) (viewport : D3D11_VIEWPORT)
    (text : Nat → Fin 256) (y : Int) (colour : Nat) (L : Nat) :
    ∀ (m n i : Nat) (x : Int) (ctx : TinyTextContext_c) (memory : VertexMemory)
      (writes : List Nat), text (i + L) = 0 → (∀ j, j < L → text (i + j) ≠ 0) → L ≤ m → L ≤ n →
      PrintLoop beyond viewport text y colour m i x ctx memory writes =
        PrintLoop beyond viewport text y colour n i x ctx memory writes := by
  induction L with
  | zero =>
    intro m n i x ctx memory writes h0 _ _ _
    have hz : charValue (text i) = 0 := by rw [charValue_eq_zero_iff]; simpa using h0
    unfold PrintLoop
    simp only [hz, if_true]
  | succ L ih =>
    intro m n i x ctx memory writes h0 hnz hm hn
    obtain ⟨m, rfl⟩ : ∃ m', m = m' + 1 := ⟨m - 1, by omega⟩
    obtain ⟨n, rfl⟩ : ∃ n', n = n' + 1 := ⟨n - 1, by omega⟩
    have hne : ¬ charValue (text i) = 0 := by
      rw [charValue_eq_zero_iff]; simpa using hnz 0 (by omega)
    rw [PrintLoop, PrintLoop]
    simp only [hne, if_false]
    split
    · rfl
    · split
      · rfl
      · exact ih m n (i + 1) _ _ _ _ (by rw [← h0]; congr 1; omega)
          (fun j hj => by
            have := hnz (j + 1) (by omega)
            rwa [show i + 1 + j = i + (j + 1) by omega]) (by omega) (by omega)

/-- C20: for every context, viewport, position, colour and every text whose null
terminator is at index `L < 2 ^ 32 - 1`, the overload of `Print` without a count has the
same outcome (result, context, vertex memory, stores) as the counted overload with
any count `n ≥ L`. -/
theorem C20_uncounted_print_equals_counted (ctx : TinyTextContext_c) (memory : VertexMemory)
    (mapSucceeds : Bool) (beyond : Nat → Fin 256) (viewport : D3D11_VIEWPORT)
    (text : Nat → Fin 256) (x y : Int) (colour : Nat) (L n : Nat) (hL : text L = 0)
    (hnz : ∀ j, j < L → text j ≠ 0) (hlen : L < 2 ^ 32 - 1) (hn : L ≤ n) :
    PrintText ctx memory mapSucceeds beyond viewport text x y colour =
      Print ctx memory mapSucceeds beyond viewport n text x y colour := by
  unfold PrintText Print
  split
  · rfl
  · exact PrintLoop_count_irrelevant beyond viewport text y colour L _ _ 0 x _ memory []
      (by simpa using hL) (fun j hj => by simpa using hnz j hj) (by omega) hn

/-- C20 applied to "HELLO" with the count 5 the managed wrapper passes. -/
theorem C20_uncounted_print_equals_counted_witness :
    helloText 5 = 0 ∧ (∀ j, j < 5 → helloText j ≠ 0) ∧ 5 < 2 ^ 32 - 1 ∧ 5 ≤ 5 ∧
    PrintText exampleContext exampleMemory true exampleBeyond exampleViewport helloText 0 0
        0xFFFFFFFF =
      Print exampleContext exampleMemory true exampleBeyond exampleViewport 5 helloText 0 0
        0xFFFFFFFF :=
  ⟨by decide, by decide, by decide, by decide,
    C20_uncounted_print_equals_counted exampleContext exampleMemory true exampleBeyond
      exampleViewport helloText 0 0 0xFFFFFFFF 5 5 (by decide) (by decide) (by decide)
      (by decide)⟩

/-! ## Draw call, accumulation cycles and buffer layout (C21 to C24, C27 to C29) -/

/-- The calls `Capture` makes, in order. -/
theorem Capture_calls (state : PreviousState_c) (dev : DeviceState) :
    (state.Capture dev).2.calls = dev.calls ++
      [DeviceCall.GSGetShader, DeviceCall.VSGetShader, DeviceCall.PSGetShader,
        DeviceCall.PSGetShaderResources, DeviceCall.PSGetSamplers, DeviceCall.IAGetInputLayout,
        DeviceCall.IAGetVertexBuffers, DeviceCall.IAGetPrimitiveTopology,
        DeviceCall.OMGetBlendState, DeviceCall.OMGetDepthStencilState, DeviceCall.RSGetState] := by
  simp only [PreviousState_c.Capture, AddRef_eq, DeviceState.logCall, List.append_assoc,
    List.singleton_append, List.cons_append, List.nil_append]

/-- The calls `Restore` makes, in order. -/
theorem Restore_calls (state : PreviousState_c) (dev : DeviceState) :
    (state.Restore dev).2.calls = dev.calls ++
      [DeviceCall.GSSetShader state.prevGeometryShader,
        DeviceCall.VSSetShader state.prevVertexShader,
        DeviceCall.PSSetShader state.prevPixelShader,
        DeviceCall.PSSetShaderResources state.prevTextureView,
        DeviceCall.PSSetSamplers state.prevSampler,
        DeviceCall.IASetInputLayout state.prevInputLayout,
        DeviceCall.IASetVertexBuffers state.prevVertexBuffer state.prevVertexStride
          state.prevVertexOffset,
        DeviceCall.IASetPrimitiveTopology state.prevTopology,
        DeviceCall.OMSetBlendState state.prevBlendState (some state.prevBlendFactor)
          state.prevSampleMask,
        DeviceCall.OMSetDepthStencilState state.prevDepthStencilState state.prevStencilRef,
        DeviceCall.RSSetState state.prevRasterizerState] := by
  rw [Restore_eq, (Release_written _ _).2.2]
  simp only [DeviceState.GSSetShader, DeviceState.VSSetShader, DeviceState.PSSetShader,
    DeviceState.PSSetShaderResources, DeviceState.PSSetSamplers, DeviceState.IASetInputLayout,
    DeviceState.IASetVertexBuffers, DeviceState.IASetPrimitiveTopology,
    DeviceState.OMSetBlendState, DeviceState.OMSetDepthStencilState, DeviceState.RSSetState,
    DeviceState.logCall, List.append_assoc, List.singleton_append, List.cons_append,
    List.nil_append]

theorem UnmapVertexBuffer_calls (ctx : TinyTextContext_c) (dev : DeviceState) :
    (UnmapVertexBuffer ctx dev).2.calls = dev.calls ++
      (if ctx.m_VertexBufferWriteAddress.isSome ∧ ctx.m_VertexBuffer ≠ 0 then
        [DeviceCall.Unmap ctx.m_VertexBuffer] else []) := by
  unfold UnmapVertexBuffer
  rcases Option.eq_none_or_eq_some ctx.m_VertexBufferWriteAddress with h | ⟨a, h⟩
  · rw [h]; simp
  · rw [h]
    simp only
    by_cases hb : ctx.m_VertexBuffer = 0
    · simp [hb]
    · simp [hb, DeviceState.logCall]

theorem UnmapVertexBuffer_snd (ctx : TinyTextContext_c) (dev : DeviceState) :
    (UnmapVertexBuffer ctx dev).2 = { dev with calls := dev.calls ++
      (if ctx.m_VertexBufferWriteAddress.isSome ∧ ctx.m_VertexBuffer ≠ 0 then
        [DeviceCall.Unmap ctx.m_VertexBuffer] else []) } := by
  unfold UnmapVertexBuffer
  rcases Option.eq_none_or_eq_some ctx.m_VertexBufferWriteAddress with h | ⟨a, h⟩
  · rw [h]; simp
  · rw [h]
    simp only
    by_cases hb : ctx.m_VertexBuffer = 0
    · simp [hb]
    · simp [hb, DeviceState.logCall]

/-- The calls a successful `Render` makes, in order. -/
theorem Render_calls (ctx : TinyTextContext_c) (dev : DeviceState) (maintainState : Bool)
    (hsuccess : (Render ctx dev maintainState).1 = true) :
    (Render ctx dev maintainState).2.2.calls = dev.calls ++
      ([DeviceCall.OMGetRenderTargets] ++
        (if ctx.m_VertexBufferWriteAddress.isSome ∧ ctx.m_VertexBuffer ≠ 0 then
          [DeviceCall.Unmap ctx.m_VertexBuffer] else []) ++
        (if maintainState then
          [DeviceCall.GSGetShader, DeviceCall.VSGetShader, DeviceCall.PSGetShader,
            DeviceCall.PSGetShaderResources, DeviceCall.PSGetSamplers,
            DeviceCall.IAGetInputLayout, DeviceCall.IAGetVertexBuffers,
            DeviceCall.IAGetPrimitiveTopology, DeviceCall.OMGetBlendState,
            DeviceCall.OMGetDepthStencilState, DeviceCall.RSGetState] else []) ++
        [DeviceCall.VSSetShader ctx.m_VertexShader, DeviceCall.GSSetShader 0,
          DeviceCall.PSSetShader ctx.m_PixelShader,
          DeviceCall.PSSetShaderResources ctx.m_TextureView,
          DeviceCall.PSSetSamplers ctx.m_SamplerState,
          DeviceCall.IASetInputLayout ctx.m_InputLayout,
          DeviceCall.IASetVertexBuffers ctx.m_VertexBuffer 16 0,
          DeviceCall.IASetPrimitiveTopology D3D11_PRIMITIVE_TOPOLOGY_TRIANGLELIST,
          DeviceCall.OMSetDepthStencilState ctx.m_DepthStencilState 0,
          DeviceCall.OMSetBlendState 0 none 0xffffffff, DeviceCall.RSSetState 0,
          DeviceCall.Draw ctx.m_NumVertices 0] ++
        (if maintainState then
          [DeviceCall.GSSetShader dev.GeometryShader, DeviceCall.VSSetShader dev.VertexShader,
            DeviceCall.PSSetShader dev.PixelShader,
            DeviceCall.PSSetShaderResources dev.PSShaderResource,
            DeviceCall.PSSetSamplers dev.PSSampler, DeviceCall.IASetInputLayout dev.InputLayout,
            DeviceCall.IASetVertexBuffers dev.VertexBuffer dev.VertexStride dev.VertexOffset,
            DeviceCall.IASetPrimitiveTopology dev.PrimitiveTopology,
            DeviceCall.OMSetBlendState dev.BlendState (some dev.BlendFactor) dev.SampleMask,
            DeviceCall.OMSetDepthStencilState dev.DepthStencilState dev.StencilRef,
            DeviceCall.RSSetState dev.RasterizerState] else [])) := by
  obtain ⟨hd, hr⟩ := (Render_true_iff ctx dev maintainState).1 hsuccess
  have hstride : wrapUInt ((NumVertexElementsPerCharacter / NumVerticesPerCharacter *
      sizeofDWORD : Nat) : Int) = 16 := by decide
  unfold Render
  rw [if_neg hd]
  simp only [hr, if_false]
  rw [(Release_written _ _).2.2, hstride]
  cases maintainState
  · simp only [Bool.false_eq_true, if_false, UnmapVertexBuffer_ctx]
    simp only [DeviceState.GSSetShader, DeviceState.VSSetShader, DeviceState.PSSetShader,
      DeviceState.PSSetShaderResources, DeviceState.PSSetSamplers, DeviceState.IASetInputLayout,
      DeviceState.IASetVertexBuffers, DeviceState.IASetPrimitiveTopology,
      DeviceState.OMSetBlendState, DeviceState.OMSetDepthStencilState, DeviceState.RSSetState,
      DeviceState.Draw, DeviceState.logCall, UnmapVertexBuffer_snd, AddRef_eq,
      DeviceState.Release, List.append_assoc, List.singleton_append, List.cons_append,
      List.nil_append, List.append_nil]
  · simp only [if_true, UnmapVertexBuffer_ctx]
    rw [Restore_calls, Capture_fst]
    simp only [DeviceState.GSSetShader, DeviceState.VSSetShader, DeviceState.PSSetShader,
      DeviceState.PSSetShaderResources, DeviceState.PSSetSamplers, DeviceState.IASetInputLayout,
      DeviceState.IASetVertexBuffers, DeviceState.IASetPrimitiveTopology,
      DeviceState.OMSetBlendState, DeviceState.OMSetDepthStencilState, DeviceState.RSSetState,
      DeviceState.Draw, DeviceState.logCall, Capture_calls, UnmapVertexBuffer_snd, AddRef_eq,
      DeviceState.Release, List.append_assoc, List.singleton_append, List.cons_append,
      List.nil_append, List.append_nil]

/-- C21: every successful `Render` appends to the calls of the device context exactly one
`Draw`, with vertex count `m_NumVertices` (which `Render` leaves unchanged) and start
vertex 0, issued while the vertex buffer of the context is bound with stride 16 and
offset 0.  The input layout places two 32-bit floats at offset 0, two 16-bit texture
coordinates at offset 8 and a 32-bit colour at offset 12, 16 bytes in all, one sixth of
the `24 * sizeof(DWORD) = 96` bytes `Print` writes per glyph. -/
theorem C21_render_issues_one_draw (ctx : TinyTextContext_c) (dev : DeviceState)
    (maintainState : Bool) (hsuccess : (Render ctx dev maintainState).1 = true) :
    (Render ctx dev maintainState).2.2.calls =
      dev.calls ++ (Render ctx dev maintainState).2.2.calls.drop dev.calls.length ∧
    drawCalls ((Render ctx dev maintainState).2.2.calls.drop dev.calls.length) =
      [DeviceCall.Draw ctx.m_NumVertices 0] ∧
    (Render ctx dev maintainState).2.1.m_NumVertices = ctx.m_NumVertices ∧
    (∀ bound, vertexBufferAtDraw ((Render ctx dev maintainState).2.2.calls.drop dev.calls.length)
      bound = some (ctx.m_VertexBuffer, 16, 0)) ∧
    inputLayoutDesc.map (fun e => e.AlignedByteOffset) = [0, 8, 12] ∧
    inputLayoutDesc.map (fun e => e.Format.byteSize) = [2 * 4, 2 * 2, 4] ∧
    (inputLayoutDesc.map (fun e => e.Format.byteSize)).sum = 16 ∧
    6 * 16 = NumVertexElementsPerCharacter * sizeofDWORD ∧
    NumVertexElementsPerCharacter * sizeofDWORD = 96 := by
  have hcalls := Render_calls ctx dev maintainState hsuccess
  have hctx : (Render ctx dev maintainState).2.1.m_NumVertices = ctx.m_NumVertices := by
    rcases Render_ctx ctx dev maintainState with h | h <;> rw [h]
  refine ⟨?_, ?_, hctx, ?_, by decide, by decide, by decide, by decide, by decide⟩
  · rw [hcalls, List.drop_left]
  · rw [hcalls, List.drop_left]
    cases maintainState <;>
      by_cases hu : ctx.m_VertexBufferWriteAddress.isSome = true ∧ ctx.m_VertexBuffer ≠ 0 <;>
      simp [hu, drawCalls]
  · intro bound
    rw [hcalls, List.drop_left]
    cases maintainState <;>
      by_cases hu : ctx.m_VertexBufferWriteAddress.isSome = true ∧ ctx.m_VertexBuffer ≠ 0 <;>
      simp [hu, vertexBufferAtDraw]

/-- C21 applied to the context holding "HELLO", rendered on the example device with
`maintainState = true`. -/
theorem C21_render_issues_one_draw_witness :
    (Render helloBatch.ctx exampleDevice true).1 = true ∧
    ((Render helloBatch.ctx exampleDevice true).2.2.calls =
      exampleDevice.calls ++
        (Render helloBatch.ctx exampleDevice true).2.2.calls.drop exampleDevice.calls.length ∧
    drawCalls ((Render helloBatch.ctx exampleDevice true).2.2.calls.drop
        exampleDevice.calls.length) = [DeviceCall.Draw helloBatch.ctx.m_NumVertices 0] ∧
    (Render helloBatch.ctx exampleDevice true).2.1.m_NumVertices = helloBatch.ctx.m_NumVertices ∧
    (∀ bound, vertexBufferAtDraw ((Render helloBatch.ctx exampleDevice true).2.2.calls.drop
        exampleDevice.calls.length) bound = some (helloBatch.ctx.m_VertexBuffer, 16, 0)) ∧
    inputLayoutDesc.map (fun e => e.AlignedByteOffset) = [0, 8, 12] ∧
    inputLayoutDesc.map (fun e => e.Format.byteSize) = [2 * 4, 2 * 2, 4] ∧
    (inputLayoutDesc.map (fun e => e.Format.byteSize)).sum = 16 ∧
    6 * 16 = NumVertexElementsPerCharacter * sizeofDWORD ∧
    NumVertexElementsPerCharacter * sizeofDWORD = 96) :=
  ⟨by decide!, C21_render_issues_one_draw helloBatch.ctx exampleDevice true (by decide!)⟩

theorem Render_success_ctx (ctx : TinyTextContext_c) (dev : DeviceState) (maintainState : Bool)
    (hsuccess : (Render ctx dev maintainState).1 = true) :
    (Render ctx dev maintainState).2.1 = { ctx with m_VertexBufferWriteAddress := none } := by
  obtain ⟨hd, hr⟩ := (Render_true_iff ctx dev maintainState).1 hsuccess
  unfold Render
  rw [if_neg hd]
  simp only [hr, if_false, UnmapVertexBuffer_ctx]

theorem MapVertexBuffer_handles_of_true (ctx : TinyTextContext_c) (mapSucceeds : Bool)
    (hmap : (MapVertexBuffer ctx mapSucceeds).1 = true) :
    ctx.m_DeviceContext ≠ 0 ∧ ctx.m_VertexBuffer ≠ 0 := by
  unfold MapVertexBuffer at hmap
  by_cases h1 : ctx.m_DeviceContext = 0
  · rw [if_pos h1] at hmap; simp at hmap
  · by_cases h2 : ctx.m_VertexBuffer = 0
    · rw [if_neg h1, if_pos h2] at hmap; simp at hmap
    · exact ⟨h1, h2⟩

theorem MapVertexBuffer_of_mapped (ctx : TinyTextContext_c) (mapSucceeds : Bool) (a : Nat)
    (h1 : ctx.m_DeviceContext ≠ 0) (h2 : ctx.m_VertexBuffer ≠ 0)
    (ha : ctx.m_VertexBufferWriteAddress = some a) :
    MapVertexBuffer ctx mapSucceeds = (true, ctx) := by
  unfold MapVertexBuffer
  rw [if_neg h1, if_neg h2, ha]

/-- C22 fails as stated: on the initialised context of capacity 715827883, after a
successful `Render`, mapping succeeds and a text of 715827883 characters fits the
capacity; `Print` returns `true`, but the 32-bit vertex count is left at 2, not at
`6 * 715827883`. -/
theorem C22_new_cycle_count_wraps_counterexample :
    hugeContext.m_Device ≠ 0 ∧ (Render hugeContext exampleDevice true).1 = true ∧
    (MapVertexBuffer (Render hugeContext exampleDevice true).2.1 true).1 = true ∧
    effectiveLength (repeatedText 715827883 65) 715827883 0 = 715827883 ∧
    715827883 ≤ (Render hugeContext exampleDevice true).2.1.m_Capacity ∧
    (Print (Render hugeContext exampleDevice true).2.1 exampleMemory true exampleBeyond
      exampleViewport 715827883 (repeatedText 715827883 65) 0 0 0xFFFFFFFF).result = true ∧
    (Print (Render hugeContext exampleDevice true).2.1 exampleMemory true exampleBeyond
      exampleViewport 715827883 (repeatedText 715827883 65) 0 0 0xFFFFFFFF).ctx.m_NumVertices
      = 2 := by
  have hs : (Render hugeContext exampleDevice true).1 = true := by
    rw [Render_true_iff, hugeContext_eq]
    exact ⟨by decide, by decide⟩
  have hctx : (Render hugeContext exampleDevice true).2.1 = hugeContext := by
    rw [Render_success_ctx _ _ _ hs, hugeContext_eq]
  rw [hctx]
  obtain ⟨h1, h2⟩ := Print_of_huge_capacity hugeContext exampleMemory true exampleBeyond
    exampleViewport 715827883 (repeatedText 715827883 65) 0 0 0xFFFFFFFF hugeContext_map
    (by rw [hugeContext_eq]; decide) (by rw [hugeContext_eq]; decide)
  refine ⟨by rw [hugeContext_eq]; decide, hs, hugeContext_map,
    by rw [effectiveLength_repeatedText _ _ (by decide)]; rfl, by rw [hugeContext_eq], h1, ?_⟩
  rw [h2, effectiveLength_repeatedText _ _ (by decide), hugeContext_eq]
  simp [startCount]

/-- C22, amended to capacities with `6 * capacity < 2 ^ 32`: after a successful `Render`,
whatever the vertex count was before it, a `Print` whose mapping succeeds and whose text
(null terminator at index `L`) fits the capacity returns `true`, stores exactly at the
offsets `0 .. 24 * n - 1` from the start of the buffer, where `n = min L
maxCharacterCount`, and leaves the vertex count at `6 * n`; a further `Print` with no
`Render` in between continues from `6 * n`. -/
theorem C22_print_after_render_starts_new_cycle (ctx : TinyTextContext_c) (dev : DeviceState)
    (maintainState : Bool) (memory : VertexMemory) (mapSucceeds : Bool)
    (beyond : Nat → Fin 256) (viewport : D3D11_VIEWPORT) (maxCharacterCount : Nat)
    (text : Nat → Fin 256) (x y : Int) (colour : Nat) (L : Nat)
    (hcap : 6 * ctx.m_Capacity < 2 ^ 32)
    (hsuccess : (Render ctx dev maintainState).1 = true)
    (hmap : (MapVertexBuffer (Render ctx dev maintainState).2.1 mapSucceeds).1 = true)
    (hL : text L = 0) (hnz : ∀ j, j < L → text j ≠ 0)
    (hfits : min L maxCharacterCount ≤ ctx.m_Capacity) :
    (Print (Render ctx dev maintainState).2.1 memory mapSucceeds beyond viewport
      maxCharacterCount text x y colour).result = true ∧
    (Print (Render ctx dev maintainState).2.1 memory mapSucceeds beyond viewport
      maxCharacterCount text x y colour).ctx.m_NumVertices = 6 * min L maxCharacterCount ∧
    (Print (Render ctx dev maintainState).2.1 memory mapSucceeds beyond viewport
      maxCharacterCount text x y colour).writes = List.range (24 * min L maxCharacterCount) ∧
    (Print (Render ctx dev maintainState).2.1 memory mapSucceeds beyond viewport
      maxCharacterCount text x y colour).memory =
        writeElements memory 0
          (glyphStream beyond viewport text y colour (min L maxCharacterCount) 0 x) ∧
    ∀ (mapSucceeds' : Bool) (viewport' : D3D11_VIEWPORT) (maxCharacterCount' : Nat)
      (text' : Nat → Fin 256) (x' y' : Int) (colour' : Nat),
      (Print (Print (Render ctx dev maintainState).2.1 memory mapSucceeds beyond viewport
          maxCharacterCount text x y colour).ctx
        (Print (Render ctx dev maintainState).2.1 memory mapSucceeds beyond viewport
          maxCharacterCount text x y colour).memory mapSucceeds' beyond viewport'
          maxCharacterCount' text' x' y' colour').ctx.m_NumVertices =
        6 * min L maxCharacterCount +
          6 * min (effectiveLength text' maxCharacterCount' 0)
            (ctx.m_Capacity - min L maxCharacterCount) := by
  have hn : effectiveLength text maxCharacterCount 0 = min L maxCharacterCount :=
    effectiveLength_eq_min text maxCharacterCount 0 L (by simpa using hL)
      (fun j hj => by simpa using hnz j hj)
  rw [Render_success_ctx ctx dev maintainState hsuccess] at hmap ⊢
  obtain ⟨hdc, hvb⟩ := MapVertexBuffer_handles_of_true _ mapSucceeds hmap
  have hm := MapVertexBuffer_eq_of_true _ mapSucceeds hmap
  simp only [startCount, Option.isSome_none, Bool.false_eq_true, if_false, Option.getD_none]
    at hm
  have hp : Print { ctx with m_VertexBufferWriteAddress := none } memory mapSucceeds beyond
      viewport maxCharacterCount text x y colour =
      ⟨true,
        { ctx with m_NumVertices := 6 * min L maxCharacterCount,
                   m_VertexBufferWriteAddress := some (24 * min L maxCharacterCount) },
        writeElements memory 0
          (glyphStream beyond viewport text y colour (min L maxCharacterCount) 0 x),
        List.range (24 * min L maxCharacterCount)⟩ := by
    unfold Print
    rw [hm]
    simp only
    have key := PrintLoop_eq beyond viewport text y colour maxCharacterCount 0 x
      { ctx with m_NumVertices := 0, m_VertexBufferWriteAddress := some 0 } memory [] 0 0 rfl
      (Nat.zero_le _) (by simp only [hn]; omega) rfl
    rw [key, hn]
    simp only [Nat.sub_zero, Nat.min_eq_left hfits, Nat.zero_add, List.nil_append,
      decide_eq_true hfits]
    congr 1
    rw [List.map_congr_left (g := id) (fun j _ => by simp), List.map_id]
  rw [hp]
  refine ⟨rfl, rfl, rfl, rfl, ?_⟩
  intro mapSucceeds' viewport' maxCharacterCount' text' x' y' colour'
  simp only
  have hinv : TinyTextContext_c.Invariant
      { ctx with m_NumVertices := 6 * min L maxCharacterCount,
                 m_VertexBufferWriteAddress := some (24 * min L maxCharacterCount) } :=
    ⟨min L maxCharacterCount, rfl, hfits, fun a ha => by simpa using ha.symm⟩
  have hmap' := MapVertexBuffer_of_mapped
    { ctx with m_NumVertices := 6 * min L maxCharacterCount,
               m_VertexBufferWriteAddress := some (24 * min L maxCharacterCount) }
    mapSucceeds' (24 * min L maxCharacterCount) hdc hvb rfl
  have hstart : startCount
      { ctx with m_NumVertices := 6 * min L maxCharacterCount,
                 m_VertexBufferWriteAddress := some (24 * min L maxCharacterCount) } =
      6 * min L maxCharacterCount := by simp [startCount]
  have hrem : remainingSlots
      { ctx with m_NumVertices := 6 * min L maxCharacterCount,
                 m_VertexBufferWriteAddress := some (24 * min L maxCharacterCount) } =
      ctx.m_Capacity - min L maxCharacterCount := by
    unfold remainingSlots
    rw [hstart, NumVerticesPerCharacter]
    simp only
    omega
  rw [Print_eq _ _ mapSucceeds' beyond viewport' maxCharacterCount' text' x' y' colour' hinv
    (by rw [hmap']) (by rw [hstart, hrem]; omega)]
  simp only [hstart, hrem]

/-- C22 (amended) applied to the context holding "HELLO" and "WORLD" (60 vertices):
after `Render`, `Print "HELLO"` leaves 30 vertices. -/
theorem C22_print_after_render_starts_new_cycle_witness :
    6 * helloWorldBatch.ctx.m_Capacity < 2 ^ 32 ∧
    (Render helloWorldBatch.ctx exampleDevice true).1 = true ∧
    (MapVertexBuffer (Render helloWorldBatch.ctx exampleDevice true).2.1 true).1 = true ∧
    helloText 5 = 0 ∧ (∀ j, j < 5 → helloText j ≠ 0) ∧
    min 5 5 ≤ helloWorldBatch.ctx.m_Capacity ∧ helloWorldBatch.ctx.m_NumVertices = 60 ∧
    ((Print (Render helloWorldBatch.ctx exampleDevice true).2.1 exampleMemory true exampleBeyond
        exampleViewport 5 helloText 0 0 0xFFFFFFFF).result = true ∧
      (Print (Render helloWorldBatch.ctx exampleDevice true).2.1 exampleMemory true exampleBeyond
        exampleViewport 5 helloText 0 0 0xFFFFFFFF).ctx.m_NumVertices = 6 * min 5 5 ∧
      (Print (Render helloWorldBatch.ctx exampleDevice true).2.1 exampleMemory true exampleBeyond
        exampleViewport 5 helloText 0 0 0xFFFFFFFF).writes = List.range (24 * min 5 5) ∧
      (Print (Render helloWorldBatch.ctx exampleDevice true).2.1 exampleMemory true exampleBeyond
        exampleViewport 5 helloText 0 0 0xFFFFFFFF).memory =
          writeElements exampleMemory 0
            (glyphStream exampleBeyond exampleViewport helloText 0 0xFFFFFFFF (min 5 5) 0 0) ∧
      ∀ (mapSucceeds' : Bool) (viewport' : D3D11_VIEWPORT) (maxCharacterCount' : Nat)
        (text' : Nat → Fin 256) (x' y' : Int) (colour' : Nat),
        (Print (Print (Render helloWorldBatch.ctx exampleDevice true).2.1 exampleMemory true
            exampleBeyond exampleViewport 5 helloText 0 0 0xFFFFFFFF).ctx
          (Print (Render helloWorldBatch.ctx exampleDevice true).2.1 exampleMemory true
            exampleBeyond exampleViewport 5 helloText 0 0 0xFFFFFFFF).memory mapSucceeds'
            exampleBeyond viewport' maxCharacterCount' text' x' y' colour').ctx.m_NumVertices =
          6 * min 5 5 +
            6 * min (effectiveLength text' maxCharacterCount' 0)
              (helloWorldBatch.ctx.m_Capacity - min 5 5)) :=
  ⟨by decide!, by decide!, by decide!, by decide, by decide, by decide!, by decide!,
    C22_print_after_render_starts_new_cycle helloWorldBatch.ctx exampleDevice true exampleMemory
      true exampleBeyond exampleViewport 5 helloText 0 0 0xFFFFFFFF 5 (by decide!) (by decide!)
      (by decide!) (by decide) (by decide) (by decide!)⟩

/-- The context `wrappedOutcome` holds. -/
theorem wrappedOutcome_ctx :
    wrappedOutcome.ctx =
      ⟨1, 2, 14, 12, 15, 13, 16, 17, 18, 2, 715827883, some 17179869192⟩ := by
  have hm : (MapVertexBuffer wrapOutcome.ctx true).1 = true := by rw [wrapOutcome_ctx]; rfl
  have h := (Print_of_huge_capacity wrapOutcome.ctx wrapOutcome.memory true exampleBeyond
    exampleViewport 1 letterAText 0 0 0xFFFFFFFF hm (by rw [wrapOutcome_ctx]; decide)
    (by rw [wrapOutcome_ctx]; decide)).2
  have he : effectiveLength letterAText 1 0 = 1 := by decide
  rw [wrappedOutcome, h, he, wrapOutcome_ctx]
  simp [startCount]

/-- C23 fails as stated: with capacity 715827883, after 715827882 characters and then
`Print "A"` in the same mapping, the buffer is mapped, the 32-bit vertex count is 2 and
the write address is 17179869192 `DWORD`s past the base, not `2 * 16` bytes. -/
theorem C23_cursor_after_wrap_counterexample :
    wrappedOutcome.ctx.m_Capacity = 715827883 ∧ wrappedOutcome.ctx.m_NumVertices = 2 ∧
    wrappedOutcome.ctx.m_VertexBufferWriteAddress = some 17179869192 ∧
    sizeofDWORD * 17179869192 ≠ 2 * 16 := by
  rw [wrappedOutcome_ctx]
  exact ⟨rfl, rfl, rfl, by decide⟩

/-- C23, amended to capacities `c` with `6 * c < 2 ^ 32`: in every batch reachable by
`Print` and `Render` calls whose buffer is mapped, the write address lies
`m_NumVertices * 16` bytes past the mapped base, that is 4 `DWORD`s per vertex and 24
`DWORD`s per glyph. -/
theorem C23_cursor_tracks_vertex_count (beyond : Nat → Fin 256) (c : Nat) (hc : 6 * c < 2 ^ 32)
    (b : Batch) (hb : Batch.Reachable beyond c b) (a : Nat)
    (hmapped : b.ctx.m_VertexBufferWriteAddress = some a) :
    sizeofDWORD * a = b.ctx.m_NumVertices * 16 ∧ a = 4 * b.ctx.m_NumVertices ∧
    a = NumVertexElementsPerCharacter * (b.ctx.m_NumVertices / NumVerticesPerCharacter) := by
  obtain ⟨_, ⟨g, hk, _, ha⟩, _⟩ := Reachable_invariant beyond c hc b hb
  have := ha a hmapped
  simp only [sizeofDWORD, NumVertexElementsPerCharacter, NumVerticesPerCharacter]
  omega

/-- C23 (amended) applied to the batch holding "HELLO" with capacity 10: 30 vertices,
write address 120 `DWORD`s past the base. -/
theorem C23_cursor_tracks_vertex_count_witness :
    6 * 10 < 2 ^ 32 ∧ Batch.Reachable exampleBeyond 10 helloBatch ∧
    helloBatch.ctx.m_VertexBufferWriteAddress = some 120 ∧
    (sizeofDWORD * 120 = helloBatch.ctx.m_NumVertices * 16 ∧
      120 = 4 * helloBatch.ctx.m_NumVertices ∧
      120 = NumVertexElementsPerCharacter *
        (helloBatch.ctx.m_NumVertices / NumVerticesPerCharacter)) :=
  ⟨by decide, helloBatch_reachable, by decide!,
    C23_cursor_tracks_vertex_count exampleBeyond 10 (by decide) helloBatch helloBatch_reachable
      120 (by decide!)⟩

/-- What the loop of `Print` leaves alone, for any context with a non-null write
address `a`: the memory below `a`; the write address only moves up, and stays at or
above four `DWORD`s per counted vertex if it was so before. -/
theorem PrintLoop_frame (beyond : Nat → Fin 256) (viewport : D3D11_VIEWPORT)
    (text : Nat → Fin 256) (y : Int) (colour : Nat) (maxCharacterCount : Nat) :
    ∀ (i : Nat) (x : Int) (ctx : TinyTextContext_c) (memory : VertexMemory) (writes : List Nat)
      (a : Nat), ctx.m_VertexBufferWriteAddress = some a →
      (∀ p, p < a →
        (PrintLoop beyond viewport text y colour maxCharacterCount i x ctx memory writes).memory p
          = memory p) ∧
      ∃ a', (PrintLoop beyond viewport text y colour maxCharacterCount i x ctx memory
          writes).ctx.m_VertexBufferWriteAddress = some a' ∧ a ≤ a' ∧
        (4 * ctx.m_NumVertices ≤ a →
          4 * (PrintLoop beyond viewport text y colour maxCharacterCount i x ctx memory
            writes).ctx.m_NumVertices ≤ a') := by
  induction maxCharacterCount with
  | zero =>
    intro i x ctx memory writes a ha
    unfold PrintLoop
    simp only
    split
    · exact ⟨fun _ _ => rfl, a, ha, Nat.le_refl _, fun h => h⟩
    · exact ⟨fun _ _ => rfl, a, ha, Nat.le_refl _, fun h => h⟩
  | succ m ih =>
    intro i x ctx memory writes a ha
    unfold PrintLoop
    simp only
    split
    · exact ⟨fun _ _ => rfl, a, ha, Nat.le_refl _, fun h => h⟩
    · split
      · exact ⟨fun _ _ => rfl, a, ha, Nat.le_refl _, fun h => h⟩
      · rw [ha]
        simp only
        obtain ⟨h1, a', h2, h3, h4⟩ := ih (i + 1) (advanceX x)
          { ctx with
            m_VertexBufferWriteAddress := some (a + NumVertexElementsPerCharacter)
            m_NumVertices := wrapUInt ((ctx.m_NumVertices : Int) + (NumVerticesPerCharacter : Int)) }
          (writeElements memory a (characterElements beyond viewport (charValue (text i)) x y
            colour))
          (writes ++ (List.range NumVertexElementsPerCharacter).map (a + ·))
          (a + NumVertexElementsPerCharacter) rfl
        refine ⟨?_, a', h2, by omega, ?_⟩
        · intro p hp
          rw [h1 p (by omega), writeElements_of_lt _ _ _ _ hp]
        · intro hinv
          apply h4
          have hw : wrapUInt ((ctx.m_NumVertices : Int) + (NumVerticesPerCharacter : Int)) ≤
              ctx.m_NumVertices + 6 := by
            unfold wrapUInt NumVerticesPerCharacter
            omega
          simp only [NumVertexElementsPerCharacter]
          omega

theorem Print_frame (ctx : TinyTextContext_c) (memory : VertexMemory) (mapSucceeds : Bool)
    (beyond : Nat → Fin 256) (viewport : D3D11_VIEWPORT) (maxCharacterCount : Nat)
    (text : Nat → Fin 256) (x y : Int) (colour : Nat)
    (hinv : ∀ a, ctx.m_VertexBufferWriteAddress = some a → 4 * ctx.m_NumVertices ≤ a) :
    (∀ a, ctx.m_VertexBufferWriteAddress = some a → ∀ p, p < a →
      (Print ctx memory mapSucceeds beyond viewport maxCharacterCount text x y colour).memory p =
        memory p) ∧
    ∀ a, (Print ctx memory mapSucceeds beyond viewport maxCharacterCount text x y
        colour).ctx.m_VertexBufferWriteAddress = some a →
      4 * (Print ctx memory mapSucceeds beyond viewport maxCharacterCount text x y
        colour).ctx.m_NumVertices ≤ a := by
  cases hmap : (MapVertexBuffer ctx mapSucceeds).1 with
  | false =>
    rw [Print_of_map_false _ _ _ _ _ _ _ _ _ _ hmap]
    refine ⟨fun _ _ _ _ => rfl, ?_⟩
    rcases MapVertexBuffer_false_ctx ctx mapSucceeds hmap with h | ⟨hn, h⟩
    · rw [h]; exact hinv
    · rw [h]; intro a ha; simp [hn] at ha
  | true =>
    have hm := MapVertexBuffer_eq_of_true ctx mapSucceeds hmap
    have hstart : 4 * startCount ctx ≤ ctx.m_VertexBufferWriteAddress.getD 0 := by
      rcases Option.eq_none_or_eq_some ctx.m_VertexBufferWriteAddress with hc | ⟨a, hc⟩
      · simp [startCount, hc]
      · have := hinv a hc
        simp [startCount, hc]
        exact this
    obtain ⟨h1, a', h2, h3, h4⟩ := PrintLoop_frame beyond viewport text y colour
      maxCharacterCount 0 x
      { ctx with m_NumVertices := startCount ctx,
                 m_VertexBufferWriteAddress := some (ctx.m_VertexBufferWriteAddress.getD 0) }
      memory [] (ctx.m_VertexBufferWriteAddress.getD 0) rfl
    have hp : Print ctx memory mapSucceeds beyond viewport maxCharacterCount text x y colour =
        PrintLoop beyond viewport text y colour maxCharacterCount 0 x
          { ctx with m_NumVertices := startCount ctx,
                     m_VertexBufferWriteAddress := some (ctx.m_VertexBufferWriteAddress.getD 0) }
          memory [] := by
      unfold Print
      rw [hm]
    rw [hp]
    refine ⟨?_, ?_⟩
    · intro a ha p hpa
      exact h1 p (by rw [ha]; exact hpa)
    · intro a ha
      rw [h2] at ha
      simp only [Option.some.injEq] at ha
      subst ha
      exact h4 hstart

/-- In every reachable batch, whatever the capacity, a non-null write address lies at
least four `DWORD`s per counted vertex past the mapped base. -/
theorem Reachable_cursor_ge (beyond : Nat → Fin 256) (c : Nat) (b : Batch)
    (hb : Batch.Reachable beyond c b) :
    ∀ a, b.ctx.m_VertexBufferWriteAddress = some a → 4 * b.ctx.m_NumVertices ≤ a := by
  obtain ⟨device, deviceContext, created, memory, calls, rfl⟩ := hb
  unfold Batch.run
  induction calls using List.reverseRecOn with
  | nil =>
    obtain ⟨_, _, h3⟩ := new_members device deviceContext c created
    simp only [List.foldl_nil]
    intro a ha
    rw [h3] at ha
    simp at ha
  | append_singleton calls call ih =>
    rw [List.foldl_append]
    simp only [List.foldl_cons, List.foldl_nil]
    generalize List.foldl (Batch.step beyond) _ calls = b at ih
    cases call with
    | Print mapSucceeds viewport maxCharacterCount text x y colour =>
      exact (Print_frame b.ctx b.memory mapSucceeds beyond viewport maxCharacterCount text x y
        colour ih).2
    | Render dev maintainState =>
      simp only [Batch.step]
      rcases Render_ctx b.ctx dev maintainState with h | h
      · rw [h]; exact ih
      · rw [h]; intro a ha; simp at ha

/-- C24: in every batch reachable by `Print` and `Render` calls (any capacity) whose buffer
is mapped with vertex count `k`, a further `Print`, whatever it returns, leaves each of
the four elements of every vertex `v < k` as it was. -/
theorem C24_print_keeps_earlier_quads (beyond : Nat → Fin 256) (c : Nat) (b : Batch)
    (hb : Batch.Reachable beyond c b) (mapSucceeds : Bool) (viewport : D3D11_VIEWPORT)
    (maxCharacterCount : Nat) (text : Nat → Fin 256) (x y : Int) (colour : Nat)
    (hmapped : b.ctx.m_VertexBufferWriteAddress.isSome = true) (v e : Nat)
    (hv : v < b.ctx.m_NumVertices) (he : e < 4) :
    (Print b.ctx b.memory mapSucceeds beyond viewport maxCharacterCount text x y colour).memory
        (4 * v + e) = b.memory (4 * v + e) := by
  obtain ⟨a, ha⟩ := Option.isSome_iff_exists.1 hmapped
  have hge := Reachable_cursor_ge beyond c b hb
  exact (Print_frame b.ctx b.memory mapSucceeds beyond viewport maxCharacterCount text x y
    colour hge).1 a ha (4 * v + e) (by have := hge a ha; omega)

/-- C24 applied to `Print "WORLD"` after `Print "HELLO"`: the last element of vertex 29
is unchanged. -/
theorem C24_print_keeps_earlier_quads_witness :
    Batch.Reachable exampleBeyond 10 helloBatch ∧
    helloBatch.ctx.m_VertexBufferWriteAddress.isSome = true ∧
    29 < helloBatch.ctx.m_NumVertices ∧ 3 < 4 ∧
    (Print helloBatch.ctx helloBatch.memory true exampleBeyond exampleViewport 5 worldText 40 0
      0xFFFFFFFF).memory (4 * 29 + 3) = helloBatch.memory (4 * 29 + 3) :=
  ⟨helloBatch_reachable, by decide!, by decide!, by decide,
    C24_print_keeps_earlier_quads exampleBeyond 10 helloBatch helloBatch_reachable true
      exampleViewport 5 worldText 40 0 0xFFFFFFFF (by decide!) 29 3 (by decide!) (by decide)⟩

/-- C27, the code at a null device context: construction with device `1` and device
context `0` reports success and stores the null device context; `MapVertexBuffer`
refuses such a context, but `Render` passes its device check and goes on to make its
calls, from `OMGetRenderTargets` to `Draw`, through the null `m_DeviceContext`. -/
theorem C27_null_device_context_accepted :
    (TinyTextContext_c.new 1 0 10 exampleCreated).1 = true ∧
    (TinyTextContext_c.new 1 0 10 exampleCreated).2.1.m_Device = 1 ∧
    (TinyTextContext_c.new 1 0 10 exampleCreated).2.1.m_DeviceContext = 0 ∧
    (MapVertexBuffer (TinyTextContext_c.new 1 0 10 exampleCreated).2.1 true).1 = false ∧
    (Render (TinyTextContext_c.new 1 0 10 exampleCreated).2.1 exampleDevice false).1 = true ∧
    (Render (TinyTextContext_c.new 1 0 10 exampleCreated).2.1 exampleDevice false).2.2.calls =
      [DeviceCall.OMGetRenderTargets, DeviceCall.VSSetShader 12, DeviceCall.GSSetShader 0,
        DeviceCall.PSSetShader 15, DeviceCall.PSSetShaderResources 14,
        DeviceCall.PSSetSamplers 17, DeviceCall.IASetInputLayout 13,
        DeviceCall.IASetVertexBuffers 16 16 0, DeviceCall.IASetPrimitiveTopology 4,
        DeviceCall.OMSetDepthStencilState 18 0, DeviceCall.OMSetBlendState 0 none 0xffffffff,
        DeviceCall.RSSetState 0, DeviceCall.Draw 0 0] := by
  decide!

/-- The result and the context `overfullOutcome` holds. -/
theorem overfullOutcome_eq :
    overfullOutcome.result = true ∧
    overfullOutcome.ctx =
      ⟨1, 2, 14, 12, 15, 13, 16, 17, 18, 8, 715827883, some 17179869216⟩ := by
  have hm : (MapVertexBuffer wrapOutcome.ctx true).1 = true := by rw [wrapOutcome_ctx]; rfl
  obtain ⟨h1, h2⟩ := Print_of_huge_capacity wrapOutcome.ctx wrapOutcome.memory true
    exampleBeyond exampleViewport 2 (repeatedText 2 65) 0 0 0xFFFFFFFF hm
    (by rw [wrapOutcome_ctx]; decide) (by rw [wrapOutcome_ctx]; decide)
  refine ⟨h1, ?_⟩
  rw [overfullOutcome, h2, effectiveLength_repeatedText _ _ (by decide), wrapOutcome_ctx]
  simp [startCount]

/-- C28 fails as stated: the capacity 715827883 is a 32-bit unsigned value; after 715827882
glyphs the count is 4294967292, and `Print "AA"` in the same mapping returns `true`,
writes two more glyphs (715827884 in the cycle, one more than the capacity) and leaves
the wrapped count 8. -/
theorem C28_counter_wraps_counterexample :
    (715827883 : Nat) < 2 ^ 32 ∧ wrapOutcome.ctx.m_Capacity = 715827883 ∧
    wrapOutcome.ctx.m_NumVertices = 4294967292 ∧
    wrapOutcome.ctx.m_VertexBufferWriteAddress = some (24 * 715827882) ∧
    overfullOutcome.result = true ∧ overfullOutcome.ctx.m_NumVertices = 8 ∧
    overfullOutcome.ctx.m_VertexBufferWriteAddress = some (24 * 715827884) := by
  rw [overfullOutcome_eq.2, wrapOutcome_ctx]
  exact ⟨by decide, rfl, rfl, rfl, overfullOutcome_eq.1, rfl, rfl⟩

/-- C28, amended to capacities `c` with `6 * c < 2 ^ 32`: in every reachable batch a
`Print` whose mapping succeeds writes `m = min (length of text) (slots left)` glyphs, the
glyphs of the cycle stay within `c`, and the vertex count afterwards is the exact sum
`k + 6 * m` (no reduction modulo `2 ^ 32` takes place), at most `6 * c`. -/
theorem C28_capacity_check_bounds_counter (beyond : Nat → Fin 256) (c : Nat)
    (hc : 6 * c < 2 ^ 32) (b : Batch) (hb : Batch.Reachable beyond c b) (mapSucceeds : Bool)
    (viewport : D3D11_VIEWPORT) (maxCharacterCount : Nat) (text : Nat → Fin 256) (x y : Int)
    (colour : Nat) (hmap : (MapVertexBuffer b.ctx mapSucceeds).1 = true) :
    (Print b.ctx b.memory mapSucceeds beyond viewport maxCharacterCount text x y
      colour).writes.length =
        NumVertexElementsPerCharacter *
          min (effectiveLength text maxCharacterCount 0) (remainingSlots b.ctx) ∧
    startCount b.ctx / NumVerticesPerCharacter +
      min (effectiveLength text maxCharacterCount 0) (remainingSlots b.ctx) ≤ c ∧
    (Print b.ctx b.memory mapSucceeds beyond viewport maxCharacterCount text x y
      colour).ctx.m_NumVertices =
        startCount b.ctx +
          NumVerticesPerCharacter *
            min (effectiveLength text maxCharacterCount 0) (remainingSlots b.ctx) ∧
    (Print b.ctx b.memory mapSucceeds beyond viewport maxCharacterCount text x y
      colour).ctx.m_NumVertices ≤ 6 * c ∧
    (Print b.ctx b.memory mapSucceeds beyond viewport maxCharacterCount text x y
      colour).ctx.m_NumVertices < 2 ^ 32 := by
  obtain ⟨hcap, hinv, _⟩ := Reachable_invariant beyond c hc b hb
  obtain ⟨_, hs, hle⟩ := MapVertexBuffer_true b.ctx mapSucceeds hinv hmap
  have hr : remainingSlots b.ctx = c - startCount b.ctx / 6 := by
    rw [← hcap]; rfl
  rw [hcap] at hle
  have hmin : min (effectiveLength text maxCharacterCount 0) (remainingSlots b.ctx) ≤
      c - startCount b.ctx / 6 := by rw [hr]; exact Nat.min_le_right _ _
  rw [Print_eq b.ctx b.memory mapSucceeds beyond viewport maxCharacterCount text x y colour hinv
    hmap (by omega)]
  simp only [List.length_map, List.length_range, NumVertexElementsPerCharacter,
    NumVerticesPerCharacter]
  refine ⟨trivial, ?_, trivial, ?_, ?_⟩ <;> omega

/-- C28 (amended) applied to `Print "WORLD"` after `Print "HELLO"` with capacity 10. -/
theorem C28_capacity_check_bounds_counter_witness :
    6 * 10 < 2 ^ 32 ∧ Batch.Reachable exampleBeyond 10 helloBatch ∧
    (MapVertexBuffer helloBatch.ctx true).1 = true ∧
    ((Print helloBatch.ctx helloBatch.memory true exampleBeyond exampleViewport 5 worldText 40 0
      0xFFFFFFFF).writes.length =
        NumVertexElementsPerCharacter *
          min (effectiveLength worldText 5 0) (remainingSlots helloBatch.ctx) ∧
    startCount helloBatch.ctx / NumVerticesPerCharacter +
      min (effectiveLength worldText 5 0) (remainingSlots helloBatch.ctx) ≤ 10 ∧
    (Print helloBatch.ctx helloBatch.memory true exampleBeyond exampleViewport 5 worldText 40 0
      0xFFFFFFFF).ctx.m_NumVertices =
        startCount helloBatch.ctx +
          NumVerticesPerCharacter *
            min (effectiveLength worldText 5 0) (remainingSlots helloBatch.ctx) ∧
    (Print helloBatch.ctx helloBatch.memory true exampleBeyond exampleViewport 5 worldText 40 0
      0xFFFFFFFF).ctx.m_NumVertices ≤ 6 * 10 ∧
    (Print helloBatch.ctx helloBatch.memory true exampleBeyond exampleViewport 5 worldText 40 0
      0xFFFFFFFF).ctx.m_NumVertices < 2 ^ 32) :=
  ⟨by decide, helloBatch_reachable, by decide!,
    C28_capacity_check_bounds_counter exampleBeyond 10 (by decide) helloBatch
      helloBatch_reachable true exampleViewport 5 worldText 40 0 0xFFFFFFFF (by decide!)⟩

/-- C29 fails as stated: for the capacity 44739243 the product `44739243 * 96 =
4294967328` does not fit the 32-bit `ByteWidth`, which receives 32, whether `size_t` has
64 or 32 bits. -/
theorem C29_byte_width_truncated_counterexample :
    CreateVertexBuffer_ByteWidth 64 44739243 = 32 ∧
    CreateVertexBuffer_ByteWidth 32 44739243 = 32 ∧
    44739243 * 96 = 4294967328 ∧ 44739243 < 2 ^ 32 := by
  decide!

/-- C29, amended to capacities `c` with `c * 96 < 2 ^ 32`: with a `size_t` of at least 32
bits, `ByteWidth` is `c * 96`, the size of `c * 6` vertices of 16 bytes, and every
`DWORD` at an offset below `24 * c` lies within it. -/
theorem C29_byte_width_holds_capacity (sizeBits characterCapacity : Nat) (hs : 32 ≤ sizeBits)
    (hc : characterCapacity * 96 < 2 ^ 32) :
    CreateVertexBuffer_ByteWidth sizeBits characterCapacity = characterCapacity * 96 ∧
    CreateVertexBuffer_ByteWidth sizeBits characterCapacity =
      characterCapacity * NumVerticesPerCharacter * 16 ∧
    ∀ w, w < NumVertexElementsPerCharacter * characterCapacity →
      sizeofDWORD * w + sizeofDWORD ≤ CreateVertexBuffer_ByteWidth sizeBits characterCapacity := by
  have hp : 2 ^ 32 ≤ 2 ^ sizeBits := Nat.pow_le_pow_right (by decide) hs
  have h1 : wrapSize sizeBits (NumVertexElementsPerCharacter * sizeofDWORD) = 96 := by
    unfold wrapSize NumVertexElementsPerCharacter sizeofDWORD
    exact Nat.mod_eq_of_lt (by omega)
  have h2 : wrapSize sizeBits (characterCapacity * 96) = characterCapacity * 96 := by
    unfold wrapSize
    exact Nat.mod_eq_of_lt (by omega)
  have h : CreateVertexBuffer_ByteWidth sizeBits characterCapacity = characterCapacity * 96 := by
    unfold CreateVertexBuffer_ByteWidth
    simp only [h1, h2]
    exact wrapUInt_natCast_of_lt _ hc
  rw [h]
  refine ⟨rfl, ?_, ?_⟩
  · unfold NumVerticesPerCharacter; omega
  · intro w hw
    unfold NumVertexElementsPerCharacter at hw
    unfold sizeofDWORD
    omega

/-- C29 (amended) applied to the capacity 10 with a 64-bit `size_t`. -/
theorem C29_byte_width_holds_capacity_witness :
    32 ≤ 64 ∧ 10 * 96 < 2 ^ 32 ∧
    (CreateVertexBuffer_ByteWidth 64 10 = 10 * 96 ∧
    CreateVertexBuffer_ByteWidth 64 10 = 10 * NumVerticesPerCharacter * 16 ∧
    ∀ w, w < NumVertexElementsPerCharacter * 10 →
      sizeofDWORD * w + sizeofDWORD ≤ CreateVertexBuffer_ByteWidth 64 10) :=
  ⟨by decide, by decide, C29_byte_width_holds_capacity 64 10 (by decide) (by decide)⟩

/-! ## Positions in `float` arithmetic (C8, C25, C26) -/

theorem pow2_eq_zpow (e : Int) : pow2 e = (2 : ℚ) ^ e := by
  unfold pow2
  split
  · rename_i h
    have : e = (e.toNat : Int) := (Int.toNat_of_nonneg h).symm
    conv_rhs => rw [this]
    rw [zpow_natCast]
    push_cast
    rfl
  · rename_i h
    have h' : 0 ≤ -e := by omega
    have : e = -((-e).toNat : Int) := by rw [Int.toNat_of_nonneg h']; ring
    conv_rhs => rw [this]
    rw [zpow_neg, zpow_natCast]
    push_cast
    rw [one_div]

theorem pow2_pos (e : Int) : 0 < pow2 e := by
  rw [pow2_eq_zpow]
  positivity

theorem pow2_add (a b : Int) : pow2 (a + b) = pow2 a * pow2 b := by
  simp only [pow2_eq_zpow]
  exact zpow_add₀ (by norm_num) a b

theorem pow2_le_pow2 {a b : Int} (h : a ≤ b) : pow2 a ≤ pow2 b := by
  simp only [pow2_eq_zpow]
  exact zpow_le_zpow_right₀ (by norm_num) h

theorem pow2_lt_pow2_iff {a b : Int} : pow2 a < pow2 b ↔ a < b := by
  simp only [pow2_eq_zpow]
  exact zpow_lt_zpow_iff_right₀ (by norm_num)

theorem pow2_natCast (n : Nat) : pow2 (n : Int) = (2 : ℚ) ^ n := by
  rw [pow2_eq_zpow, zpow_natCast]

theorem abs_roundNearestEven_sub_le (q : ℚ) : |(roundNearestEven q : ℚ) - q| ≤ 1 / 2 := by
  have h1 : (⌊q⌋ : ℚ) ≤ q := Int.floor_le q
  have h2 : q < ⌊q⌋ + 1 := Int.lt_floor_add_one q
  unfold roundNearestEven
  rw [abs_le]
  split_ifs with ha hb hc <;> push_cast <;> constructor <;> linarith

theorem roundNearestEven_intCast (n : Int) : roundNearestEven (n : ℚ) = n := by
  unfold roundNearestEven
  simp

theorem exponentFrom_ge (q : ℚ) (n : Nat) : -126 ≤ exponentFrom q n := by
  induction n with
  | zero => simp [exponentFrom]
  | succ n ih =>
    unfold exponentFrom
    split_ifs <;> omega

theorem exponentFrom_le (q : ℚ) (n : Nat) : exponentFrom q n ≤ (n : Int) - 126 := by
  induction n with
  | zero => simp [exponentFrom]
  | succ n ih =>
    unfold exponentFrom
    split_ifs <;> push_cast <;> omega

theorem exponentFrom_le_abs (q : ℚ) (n : Nat) (h : pow2 (-126) ≤ |q|) :
    pow2 (exponentFrom q n) ≤ |q| := by
  induction n with
  | zero => simpa [exponentFrom] using h
  | succ n ih =>
    unfold exponentFrom
    split_ifs with hc
    · exact hc
    · exact ih

theorem abs_lt_exponentFrom (q : ℚ) (n : Nat) (h : |q| < pow2 ((n : Int) - 125)) :
    |q| < pow2 (exponentFrom q n + 1) := by
  induction n with
  | zero => simpa [exponentFrom] using h
  | succ n ih =>
    unfold exponentFrom
    split_ifs with hc
    · have : ((n : Int) - 125 + 1) = (((n + 1 : Nat) : Int) - 125) := by push_cast; ring
      rw [this]; exact h
    · exact ih (lt_of_not_le hc)

theorem binadeExponent_ge (q : ℚ) : -126 ≤ binadeExponent q := exponentFrom_ge q 253

theorem binadeExponent_le_abs (q : ℚ) (h : pow2 (-126) ≤ |q|) :
    pow2 (binadeExponent q) ≤ |q| := exponentFrom_le_abs q 253 h

theorem abs_lt_binadeExponent (q : ℚ) (h : |q| < pow2 128) :
    |q| < pow2 (binadeExponent q + 1) :=
  abs_lt_exponentFrom q 253 (by simpa using h)

/-- Rounding to `float` of a number of magnitude at most `2 ^ 100`: the result is finite,
within a relative error of `2 ^ -24` when the number is zero or not subnormal, and a
multiple of `2 ^ (k - 23)` whenever `2 ^ k` does not exceed the magnitude. -/
theorem Float32.round_spec (q : ℚ) (hq : |q| ≤ 2 ^ 100) :
    ∃ r : ℚ, Float32.round q = Float32.finite r ∧
      ((q = 0 ∨ pow2 (-126) ≤ |q|) → |r - q| ≤ |q| / 2 ^ 24) ∧
      (∀ k : Int, pow2 k ≤ |q| → ∃ m : Int, r = m * pow2 (k - 23)) := by
  have hlt : |q| < pow2 128 := by
    rw [show (128 : Int) = ((128 : Nat) : Int) by rfl, pow2_natCast]
    calc |q| ≤ 2 ^ 100 := hq
      _ < 2 ^ 128 := by norm_num
  have hup := abs_lt_binadeExponent q hlt
  have hge := binadeExponent_ge q
  have hle127 : binadeExponent q ≤ 127 := by
    have := exponentFrom_le q 253
    unfold binadeExponent
    omega
  set e := binadeExponent q with he
  set ulp := pow2 (e - 23) with hulp
  have hulp_pos : 0 < ulp := pow2_pos _
  set n := roundNearestEven (q / ulp) with hn
  have hn_err : |(n : ℚ) - q / ulp| ≤ 1 / 2 := abs_roundNearestEven_sub_le _
  have herr : |(n : ℚ) * ulp - q| ≤ ulp / 2 := by
    have : (n : ℚ) * ulp - q = ((n : ℚ) - q / ulp) * ulp := by field_simp
    rw [this, abs_mul, abs_of_pos hulp_pos]
    calc |(n : ℚ) - q / ulp| * ulp ≤ 1 / 2 * ulp :=
          mul_le_mul_of_nonneg_right hn_err hulp_pos.le
      _ = ulp / 2 := by ring
  have hulp_le : ulp ≤ pow2 104 := pow2_le_pow2 (by omega)
  have h104 : pow2 104 = 2 ^ 104 := by
    rw [show (104 : Int) = ((104 : Nat) : Int) by rfl, pow2_natCast]
  have h128 : pow2 128 = 2 ^ 128 := by
    rw [show (128 : Int) = ((128 : Nat) : Int) by rfl, pow2_natCast]
  have hfin : ¬ pow2 128 ≤ |(n : ℚ) * ulp| := by
    have h1 : |(n : ℚ) * ulp| ≤ |q| + ulp / 2 := by
      have := abs_sub_abs_le_abs_sub ((n : ℚ) * ulp) q
      linarith
    have h2 : |q| + ulp / 2 < pow2 128 := by
      rw [h128]
      have : ulp / 2 ≤ 2 ^ 104 / 2 := by linarith
      have h3 : (2 : ℚ) ^ 100 + 2 ^ 104 / 2 < 2 ^ 128 := by norm_num
      linarith
    linarith
  refine ⟨(n : ℚ) * ulp, ?_, ?_, ?_⟩
  · unfold Float32.round
    simp only []
    rw [← he, ← hulp, ← hn, if_neg hfin]
  · intro hz
    rcases hz with hz | hz
    · have hq0 : q / ulp = 0 := by rw [hz]; simp
      have hn0 : n = 0 := by
        rw [hn, hq0]
        exact_mod_cast roundNearestEven_intCast 0
      rw [hn0, hz]; simp
    · have h1 := binadeExponent_le_abs q hz
      rw [← he] at h1
      have h2 : ulp / 2 = pow2 e / 2 ^ 24 := by
        rw [hulp, show e - 23 = e + (-23) by ring, pow2_add]
        have : pow2 (-23) = 1 / 2 ^ 23 := by
          rw [pow2_eq_zpow, zpow_neg, show (23 : Int) = ((23 : Nat) : Int) by rfl, zpow_natCast,
            one_div]
        rw [this]; ring
      calc |(n : ℚ) * ulp - q| ≤ ulp / 2 := herr
        _ = pow2 e / 2 ^ 24 := h2
        _ ≤ |q| / 2 ^ 24 := by
          apply div_le_div_of_nonneg_right h1 (by positivity)
  · intro k hk
    have hke : k ≤ e := by
      have : pow2 k < pow2 (e + 1) := lt_of_le_of_lt hk hup
      have := pow2_lt_pow2_iff.1 this
      omega
    refine ⟨n * 2 ^ (e - k).toNat, ?_⟩
    have h1 : e - 23 = (k - 23) + ((e - k).toNat : Int) := by
      rw [Int.toNat_of_nonneg (by omega)]; ring
    rw [hulp, h1, pow2_add, pow2_natCast]
    push_cast
    ring

theorem pow2_neg126_le_one : pow2 (-126) ≤ 1 := by
  have h : pow2 (-126) ≤ pow2 0 := pow2_le_pow2 (by norm_num)
  have h0 : pow2 0 = 1 := by simp [pow2]
  rwa [h0] at h

theorem pow2_neg126_le_small : pow2 (-126) ≤ 1 / 2 ^ 25 := by
  have h : pow2 (-126) ≤ pow2 (-25) := pow2_le_pow2 (by norm_num)
  have h0 : pow2 (-25) = 1 / 2 ^ 25 := by
    rw [pow2_eq_zpow, zpow_neg, show (25 : Int) = ((25 : Nat) : Int) by rfl, zpow_natCast,
      one_div]
  rwa [h0] at h

/-- The `float` evaluation of `a / D + s` for an integer `a` of at most 32 bits, a
divisor `D` between 1 and `2 ^ 24` and `s = 1` or `s = -1`: the conversion of `a`, the
quotient and the sum are finite, and the result is within `(4 * |a| / D + 1) / 2 ^ 24` of
the exact value. -/
theorem round_pipeline (a : Int) (D s : ℚ) (ha : |(a : ℚ)| ≤ 2 ^ 32) (h1 : 1 ≤ D)
    (h2 : D ≤ 2 ^ 24) (hs : s = 1 ∨ s = -1) :
    ∃ f0 f1 r : ℚ, Float32.round a = Float32.finite f0 ∧
      Float32.round (f0 / D) = Float32.finite f1 ∧
      Float32.round (f1 + s) = Float32.finite r ∧
      |r - (a / D + s)| ≤ (4 * |(a : ℚ)| / D + 1) / 2 ^ 24 := by
  have hD : 0 < D := by linarith
  have hs1 : |s| = 1 := by rcases hs with h | h <;> rw [h] <;> simp
  -- conversion of the integer
  obtain ⟨f0, hf0, herr0, _⟩ := Float32.round_spec (a : ℚ) (by
    calc |(a : ℚ)| ≤ 2 ^ 32 := ha
      _ ≤ 2 ^ 100 := by norm_num)
  have hcond0 : (a : ℚ) = 0 ∨ pow2 (-126) ≤ |(a : ℚ)| := by
    by_cases h0 : a = 0
    · left; exact_mod_cast h0
    · right
      have : (1 : ℚ) ≤ |(a : ℚ)| := by
        have h : (1 : Int) ≤ |a| := Int.one_le_abs h0
        exact_mod_cast h
      exact le_trans pow2_neg126_le_one this
  have e0 := herr0 hcond0
  have hf0_le : |f0| ≤ |(a : ℚ)| + |(a : ℚ)| / 2 ^ 24 := by
    have := abs_sub_abs_le_abs_sub f0 (a : ℚ)
    linarith
  -- the quotient
  set q1 := f0 / D with hq1
  have hq1_abs : |q1| = |f0| / D := by rw [hq1, abs_div, abs_of_pos hD]
  have hq1_le_f0 : |q1| ≤ |f0| := by
    rw [hq1_abs]
    exact div_le_self (abs_nonneg _) h1
  obtain ⟨f1, hf1, herr1, hgrid1⟩ := Float32.round_spec q1 (by
    have h3 : |(a : ℚ)| / 2 ^ 24 ≤ 2 ^ 32 / 2 ^ 24 :=
      div_le_div_of_nonneg_right ha (by positivity)
    have h4 : (2 : ℚ) ^ 32 + 2 ^ 32 / 2 ^ 24 ≤ 2 ^ 100 := by norm_num
    linarith)
  have hcond1 : q1 = 0 ∨ pow2 (-126) ≤ |q1| := by
    by_cases h0 : a = 0
    · left
      have ha0 : (a : ℚ) = 0 := by exact_mod_cast h0
      rw [ha0] at e0
      simp only [sub_zero, abs_zero, zero_div] at e0
      have : f0 = 0 := abs_eq_zero.1 (le_antisymm e0 (abs_nonneg _))
      rw [hq1, this, zero_div]
    · right
      have ha1 : (1 : ℚ) ≤ |(a : ℚ)| := by
        have h : (1 : Int) ≤ |a| := Int.one_le_abs h0
        exact_mod_cast h
      have hf0_ge : 1 / 2 ≤ |f0| := by
        have h3 := abs_sub_abs_le_abs_sub (a : ℚ) f0
        rw [abs_sub_comm] at h3
        have h4 : |(a : ℚ)| / 2 ^ 24 ≤ |(a : ℚ)| / 2 := by
          apply div_le_div_of_nonneg_left (abs_nonneg _) (by norm_num) (by norm_num)
        linarith
      have h5 : 1 / 2 ^ 25 ≤ |q1| := by
        rw [hq1_abs, div_le_div_iff₀ (by positivity) hD]
        calc 1 * D ≤ 2 ^ 24 := by linarith
          _ = 1 / 2 * 2 ^ 25 := by norm_num
          _ ≤ |f0| * 2 ^ 25 := by
            apply mul_le_mul_of_nonneg_right hf0_ge (by positivity)
      exact le_trans pow2_neg126_le_small h5
  have e1 := herr1 hcond1
  have hf1_le : |f1| ≤ |q1| + |q1| / 2 ^ 24 := by
    have := abs_sub_abs_le_abs_sub f1 q1
    linarith
  -- the sum
  have hq2_le : |f1 + s| ≤ |f1| + 1 := by
    have := abs_add f1 s
    rw [hs1] at this
    exact this
  obtain ⟨r, hr, herr2, _⟩ := Float32.round_spec (f1 + s) (by
    have h3 : |(a : ℚ)| / 2 ^ 24 ≤ 2 ^ 32 / 2 ^ 24 :=
      div_le_div_of_nonneg_right ha (by positivity)
    have h4 : |q1| / 2 ^ 24 ≤ |q1| := div_le_self (abs_nonneg _) (by norm_num)
    have h5 : (2 : ℚ) ^ 32 / 2 ^ 24 = 2 ^ 8 := by norm_num
    have h6 : (2 : ℚ) * (2 ^ 32 + 2 ^ 8) + 1 ≤ 2 ^ 100 := by norm_num
    linarith)
  have hcond2 : f1 + s = 0 ∨ pow2 (-126) ≤ |f1 + s| := by
    by_cases hhalf : pow2 (-1) ≤ |q1|
    · obtain ⟨m, hm⟩ := hgrid1 (-1) hhalf
      have hp : pow2 (-1 - 23) = 1 / 2 ^ 24 := by
        rw [pow2_eq_zpow, show (-1 - 23 : Int) = -((24 : Nat) : Int) by norm_num, zpow_neg,
          zpow_natCast, one_div]
      rw [hp] at hm
      obtain ⟨z, hz⟩ : ∃ z : Int, s = z := by
        rcases hs with h | h
        · exact ⟨1, by rw [h]; norm_num⟩
        · exact ⟨-1, by rw [h]; norm_num⟩
      have hsum : f1 + s = ((m + z * 2 ^ 24 : Int) : ℚ) * (1 / 2 ^ 24) := by
        rw [hm, hz]; push_cast; ring
      by_cases hM : m + z * 2 ^ 24 = 0
      · left
        rw [hsum, hM]; simp
      · right
        have h3 : (1 : ℚ) ≤ |((m + z * 2 ^ 24 : Int) : ℚ)| := by
          have h : (1 : Int) ≤ |m + z * 2 ^ 24| := Int.one_le_abs hM
          exact_mod_cast h
        have h4 : |f1 + s| = |((m + z * 2 ^ 24 : Int) : ℚ)| * (1 / 2 ^ 24) := by
          rw [hsum, abs_mul, abs_of_pos (by positivity : (0 : ℚ) < 1 / 2 ^ 24)]
        have h5 : (1 : ℚ) / 2 ^ 25 ≤ |f1 + s| := by
          rw [h4]
          calc (1 : ℚ) / 2 ^ 25 ≤ 1 * (1 / 2 ^ 24) := by norm_num
            _ ≤ |((m + z * 2 ^ 24 : Int) : ℚ)| * (1 / 2 ^ 24) :=
              mul_le_mul_of_nonneg_right h3 (by positivity)
        exact le_trans pow2_neg126_le_small h5
    · right
      have hp : pow2 (-1) = 1 / 2 := by
        rw [pow2_eq_zpow, zpow_neg, zpow_one, one_div]
      rw [hp] at hhalf
      have hq1_lt : |q1| < 1 / 2 := lt_of_not_le hhalf
      have hf1_lt : |f1| < 3 / 4 := by
        have h4 : |q1| / 2 ^ 24 ≤ |q1| / 2 :=
          div_le_div_of_nonneg_left (abs_nonneg _) (by norm_num) (by norm_num)
        linarith
      have h5 : 1 / 4 ≤ |f1 + s| := by
        have h6 := abs_sub_abs_le_abs_sub s (-f1)
        rw [abs_neg, hs1, sub_neg_eq_add, add_comm s f1] at h6
        linarith
      have h7 : pow2 (-126) ≤ 1 / 4 := by
        have := pow2_neg126_le_small
        have h8 : (1 : ℚ) / 2 ^ 25 ≤ 1 / 4 := by norm_num
        linarith
      linarith
  have e2 := herr2 hcond2
  refine ⟨f0, f1, r, hf0, hf1, hr, ?_⟩
  -- the accumulated error
  set B := |(a : ℚ)| / D with hB
  have hB0 : 0 ≤ B := div_nonneg (abs_nonneg _) hD.le
  have d0 : |q1 - a / D| ≤ B / 2 ^ 24 := by
    have : q1 - a / D = (f0 - a) / D := by rw [hq1]; ring
    rw [this, abs_div, abs_of_pos hD, hB, div_right_comm]
    exact div_le_div_of_nonneg_right e0 hD.le
  have hq1_B : |q1| ≤ B + B / 2 ^ 24 := by
    have h3 := abs_sub_abs_le_abs_sub q1 ((a : ℚ) / D)
    have h4 : |(a : ℚ) / D| = B := by rw [abs_div, abs_of_pos hD]
    linarith
  have key : r - (a / D + s) = (r - (f1 + s)) + (f1 - q1) + (q1 - a / D) := by ring
  rw [key]
  have t1 := abs_add_three (r - (f1 + s)) (f1 - q1) (q1 - a / D)
  have hfinal : (4 * |(a : ℚ)| / D + 1) / 2 ^ 24 = (4 * B + 1) / 2 ^ 24 := by
    rw [hB]; ring
  rw [hfinal]
  have c1 : |f1 + s| / 2 ^ 24 ≤ (|f1| + 1) / 2 ^ 24 :=
    div_le_div_of_nonneg_right hq2_le (by positivity)
  have c2 : |f1| / 2 ^ 24 ≤ (|q1| + |q1| / 2 ^ 24) / 2 ^ 24 :=
    div_le_div_of_nonneg_right hf1_le (by positivity)
  have c3 : |q1| / 2 ^ 24 ≤ (B + B / 2 ^ 24) / 2 ^ 24 :=
    div_le_div_of_nonneg_right hq1_B (by positivity)
  have c4 : |q1| / 2 ^ 24 / 2 ^ 24 ≤ (B + B / 2 ^ 24) / 2 ^ 24 / 2 ^ 24 :=
    div_le_div_of_nonneg_right c3 (by positivity)
  have c5 : B / 2 ^ 24 / 2 ^ 24 ≤ B / 2 ^ 24 / 4 :=
    div_le_div_of_nonneg_left (by positivity) (by norm_num) (by norm_num)
  have c6 : B / 2 ^ 24 / 2 ^ 24 / 2 ^ 24 ≤ B / 2 ^ 24 / 4 := by
    have h3 : B / 2 ^ 24 / 2 ^ 24 / 2 ^ 24 ≤ B / 2 ^ 24 / 2 ^ 24 :=
      div_le_self (by positivity) (by norm_num)
    linarith
  have expand1 : (|f1| + 1) / 2 ^ 24 = |f1| / 2 ^ 24 + 1 / 2 ^ 24 := by ring
  have expand2 : (|q1| + |q1| / 2 ^ 24) / 2 ^ 24 = |q1| / 2 ^ 24 + |q1| / 2 ^ 24 / 2 ^ 24 := by
    ring
  have expand3 : (B + B / 2 ^ 24) / 2 ^ 24 = B / 2 ^ 24 + B / 2 ^ 24 / 2 ^ 24 := by ring
  have expand4 : (B + B / 2 ^ 24) / 2 ^ 24 / 2 ^ 24 =
      B / 2 ^ 24 / 2 ^ 24 + B / 2 ^ 24 / 2 ^ 24 / 2 ^ 24 := by ring
  have expand5 : (4 * B + 1) / 2 ^ 24 = 4 * (B / 2 ^ 24) + 1 / 2 ^ 24 := by ring
  have hb1 : 0 ≤ B / 2 ^ 24 := by positivity
  linarith

theorem sub_pipeline (a : Int) (D : ℚ) (ha : |(a : ℚ)| ≤ 2 ^ 32)
    (hD : viewportFloat D = Float32.finite D) (h1 : 1 ≤ D) (h2 : D ≤ 2 ^ 24) :
    ∃ r : ℚ, ((Float32.ofInt a).div (viewportFloat D)).sub (Float32.finite 1) =
        Float32.finite r ∧
      |r - (a / D - 1)| ≤ (4 * |(a : ℚ)| / D + 1) / 2 ^ 24 := by
  obtain ⟨f0, f1, r, e0, e1, e2, herr⟩ := round_pipeline a D (-1) ha h1 h2 (Or.inr rfl)
  refine ⟨r, ?_, ?_⟩
  · have hD0 : D ≠ 0 := by linarith
    unfold Float32.ofInt
    rw [e0, hD]
    simp only [Float32.div, if_neg hD0, e1, Float32.sub]
    rw [sub_eq_add_neg, e2]
  · have : (a : ℚ) / D - 1 = a / D + -1 := by ring
    rw [this]; exact herr

theorem add_pipeline (a : Int) (D : ℚ) (ha : |(a : ℚ)| ≤ 2 ^ 32)
    (hD : viewportFloat D = Float32.finite D) (h1 : 1 ≤ D) (h2 : D ≤ 2 ^ 24) :
    ∃ r : ℚ, ((Float32.ofInt a).div (viewportFloat D)).add (Float32.finite 1) =
        Float32.finite r ∧
      |r - (a / D + 1)| ≤ (4 * |(a : ℚ)| / D + 1) / 2 ^ 24 := by
  obtain ⟨f0, f1, r, e0, e1, e2, herr⟩ := round_pipeline a D 1 ha h1 h2 (Or.inl rfl)
  refine ⟨r, ?_, herr⟩
  have hD0 : D ≠ 0 := by linarith
  unfold Float32.ofInt
  rw [e0, hD]
  simp only [Float32.div, if_neg hD0, e1, Float32.add, e2]

theorem abs_intCast_le_of_bounds (a : Int) (h1 : -2 ^ 32 ≤ a) (h2 : a ≤ 2 ^ 32) :
    |(a : ℚ)| ≤ 2 ^ 32 := by
  rw [abs_le]
  constructor
  · have : ((-2 ^ 32 : Int) : ℚ) ≤ (a : ℚ) := by exact_mod_cast h1
    simpa using this
  · have : (a : ℚ) ≤ ((2 ^ 32 : Int) : ℚ) := by exact_mod_cast h2
    simpa using this

/-- The left edge in `float` arithmetic: finite, and within `(4 * |a| / W + 1) / 2 ^ 24`
of `a / W - 1`, where `a` is the value of the `int` expression `2 * x`. -/
theorem bottomLeftXFloat32_spec (viewport : D3D11_VIEWPORT) (x : Int)
    (hv : viewport.InRange) :
    ∃ l : ℚ, bottomLeftXFloat32 viewport x = Float32.finite l ∧
      |l - ((wrapInt (2 * x) : ℚ) / viewport.Width - 1)| ≤
        (4 * |(wrapInt (2 * x) : ℚ)| / viewport.Width + 1) / 2 ^ 24 := by
  obtain ⟨hW, _, h1, h2, _, _⟩ := hv
  exact sub_pipeline (wrapInt (2 * x)) viewport.Width
    (abs_intCast_le_of_bounds _ (by unfold wrapInt; omega) (by unfold wrapInt; omega)) hW h1
    (by linarith [show (2 : ℚ) ^ 20 ≤ 2 ^ 24 by norm_num])

theorem topRightXFloat32_spec (viewport : D3D11_VIEWPORT) (x : Int)
    (hv : viewport.InRange) :
    ∃ r : ℚ, topRightXFloat32 viewport x = Float32.finite r ∧
      |r - (((wrapUInt (2 * (wrapUInt (x + CharacterWidth) : Int)) : Nat) : ℚ) /
          viewport.Width - 1)| ≤
        (4 * |((wrapUInt (2 * (wrapUInt (x + CharacterWidth) : Int)) : Nat) : ℚ)| /
          viewport.Width + 1) / 2 ^ 24 := by
  obtain ⟨hW, _, h1, h2, _, _⟩ := hv
  have h := sub_pipeline ((wrapUInt (2 * (wrapUInt (x + CharacterWidth) : Int)) : Nat) : Int)
    viewport.Width
    (abs_intCast_le_of_bounds _ (by unfold wrapUInt; omega) (by unfold wrapUInt; omega)) hW h1
    (by linarith [show (2 : ℚ) ^ 20 ≤ 2 ^ 24 by norm_num])
  simpa [topRightXFloat32] using h

theorem topRightYFloat32_spec (beyond : Nat → Fin 256) (viewport : D3D11_VIEWPORT)
    (currentChar y : Int) (hv : viewport.InRange) :
    ∃ t : ℚ, topRightYFloat32 beyond viewport currentChar y = Float32.finite t ∧
      |t - ((wrapInt (-2 * charY beyond currentChar y) : ℚ) / viewport.Height + 1)| ≤
        (4 * |(wrapInt (-2 * charY beyond currentChar y) : ℚ)| / viewport.Height + 1) /
          2 ^ 24 := by
  obtain ⟨_, hH, _, _, h1, h2⟩ := hv
  exact add_pipeline (wrapInt (-2 * charY beyond currentChar y)) viewport.Height
    (abs_intCast_le_of_bounds _ (by unfold wrapInt; omega) (by unfold wrapInt; omega)) hH h1
    (by linarith [show (2 : ℚ) ^ 20 ≤ 2 ^ 24 by norm_num])

theorem bottomLeftYFloat32_spec (beyond : Nat → Fin 256) (viewport : D3D11_VIEWPORT)
    (currentChar y : Int) (hv : viewport.InRange) :
    ∃ b : ℚ, bottomLeftYFloat32 beyond viewport currentChar y = Float32.finite b ∧
      |b - ((wrapInt (-2 * wrapInt (charY beyond currentChar y +
          glyphHeight beyond currentChar)) : ℚ) / viewport.Height + 1)| ≤
        (4 * |(wrapInt (-2 * wrapInt (charY beyond currentChar y +
          glyphHeight beyond currentChar)) : ℚ)| / viewport.Height + 1) / 2 ^ 24 := by
  obtain ⟨_, hH, _, _, h1, h2⟩ := hv
  exact add_pipeline
    (wrapInt (-2 * wrapInt (charY beyond currentChar y + glyphHeight beyond currentChar)))
    viewport.Height
    (abs_intCast_le_of_bounds _ (by unfold wrapInt; omega) (by unfold wrapInt; omega)) hH h1
    (by linarith [show (2 : ℚ) ^ 20 ≤ 2 ^ 24 by norm_num])

theorem vertexPositions_characterElementsFloat32 (beyond : Nat → Fin 256)
    (viewport : D3D11_VIEWPORT) (currentChar x y : Int) (colour : Nat) (l r t b : ℚ)
    (hl : bottomLeftXFloat32 viewport x = Float32.finite l)
    (hr : topRightXFloat32 viewport x = Float32.finite r)
    (ht : topRightYFloat32 beyond viewport currentChar y = Float32.finite t)
    (hb : bottomLeftYFloat32 beyond viewport currentChar y = Float32.finite b) :
    vertexPositions (characterElementsFloat32 beyond viewport currentChar x y colour) =
      [(l, b), (l, t), (r, b), (r, t), (r, b), (l, t)] := by
  simp only [characterElementsFloat32, hl, hr, ht, hb, EncodePositionCoordFloat32]
  rfl

theorem vertexTexCoords_characterElementsFloat32 (beyond : Nat → Fin 256)
    (viewport : D3D11_VIEWPORT) (currentChar x y : Int) (colour : Nat) :
    vertexTexCoords (characterElementsFloat32 beyond viewport currentChar x y colour) =
      vertexTexCoords (characterElements beyond viewport currentChar x y colour) := rfl

theorem pixelX_error (D p n : ℚ) (hD : 0 < D)
    (h : |n - (2 * p / D - 1)| ≤ (4 * |2 * p| / D + 1) / 2 ^ 24) :
    |(n + 1) * D / 2 - p| ≤ (4 * |p| + D / 2) / 2 ^ 24 := by
  have e : (n + 1) * D / 2 - p = (n - (2 * p / D - 1)) * (D / 2) := by
    field_simp
    ring
  rw [e, abs_mul, abs_of_pos (by positivity : 0 < D / 2)]
  have h2 : |2 * p| = 2 * |p| := by rw [abs_mul]; norm_num
  rw [h2] at h
  calc |n - (2 * p / D - 1)| * (D / 2)
      ≤ (4 * (2 * |p|) / D + 1) / 2 ^ 24 * (D / 2) :=
        mul_le_mul_of_nonneg_right h (by positivity)
    _ = (4 * |p| + D / 2) / 2 ^ 24 := by
        field_simp
        ring

theorem pixelY_error (D p n : ℚ) (hD : 0 < D)
    (h : |n - (-2 * p / D + 1)| ≤ (4 * |-2 * p| / D + 1) / 2 ^ 24) :
    |(1 - n) * D / 2 - p| ≤ (4 * |p| + D / 2) / 2 ^ 24 := by
  have e : (1 - n) * D / 2 - p = -(n - (-2 * p / D + 1)) * (D / 2) := by
    field_simp
    ring
  rw [e, abs_mul, abs_neg, abs_of_pos (by positivity : 0 < D / 2)]
  have h2 : |-2 * p| = 2 * |p| := by rw [abs_mul]; norm_num
  rw [h2] at h
  calc |n - (-2 * p / D + 1)| * (D / 2)
      ≤ (4 * (2 * |p|) / D + 1) / 2 ^ 24 * (D / 2) :=
        mul_le_mul_of_nonneg_right h (by positivity)
    _ = (4 * |p| + D / 2) / 2 ^ 24 := by
        field_simp
        ring

theorem intCast_two_mul_x (x : Int) (h1 : -2 ^ 30 ≤ x) (h2 : x < 2 ^ 30) :
    (wrapInt (2 * x) : ℚ) = 2 * (x : ℚ) := by
  rw [wrapInt_of_range _ (by omega) (by omega)]
  push_cast
  ring

theorem natCast_two_mul_right (x : Int) (h1 : -8 ≤ x) (h2 : x < 2 ^ 31 - 8) :
    ((wrapUInt (2 * (wrapUInt (x + CharacterWidth) : Int)) : Nat) : ℚ) =
      2 * ((x : ℚ) + 8) := by
  have h : ((wrapUInt (2 * (wrapUInt (x + CharacterWidth) : Int)) : Nat) : Int) = 2 * (x + 8) := by
    unfold wrapUInt CharacterWidth
    omega
  have hq : ((wrapUInt (2 * (wrapUInt (x + CharacterWidth) : Int)) : Nat) : ℚ) =
      ((2 * (x + 8) : Int) : ℚ) := by
    rw [← h]; norm_cast
  rw [hq]
  push_cast
  ring

theorem intCast_top (beyond : Nat → Fin 256) (currentChar y : Int) (h1 : -2 ^ 30 < y)
    (h2 : y + glyphYOffset beyond currentChar ≤ 2 ^ 30) :
    (wrapInt (-2 * charY beyond currentChar y) : ℚ) =
      -2 * ((y : ℚ) + glyphYOffset beyond currentChar) := by
  have hy := glyphYOffset_bounds beyond currentChar
  unfold charY
  rw [wrapInt_of_range (y + _) (by omega) (by omega), wrapInt_of_range _ (by omega) (by omega)]
  push_cast
  ring

theorem intCast_bottom (beyond : Nat → Fin 256) (currentChar y : Int) (h1 : -2 ^ 30 < y)
    (h2 : y + glyphYOffset beyond currentChar + glyphHeight beyond currentChar ≤ 2 ^ 30) :
    (wrapInt (-2 * wrapInt (charY beyond currentChar y + glyphHeight beyond currentChar)) : ℚ) =
      -2 * ((y : ℚ) + glyphYOffset beyond currentChar + glyphHeight beyond currentChar) := by
  have hy := glyphYOffset_bounds beyond currentChar
  have hh := glyphHeight_bounds beyond currentChar
  unfold charY
  rw [wrapInt_of_range (y + _) (by omega) (by omega),
    wrapInt_of_range (y + _ + _) (by omega) (by omega), wrapInt_of_range _ (by omega) (by omega)]
  push_cast
  ring

theorem characterElementsFloat32_length (beyond : Nat → Fin 256) (viewport : D3D11_VIEWPORT)
    (currentChar x y : Int) (colour : Nat) :
    (characterElementsFloat32 beyond viewport currentChar x y colour).length = 24 := rfl

theorem glyphStreamFloat32_length (beyond : Nat → Fin 256) (viewport : D3D11_VIEWPORT)
    (text : Nat → Fin 256) (y : Int) (colour : Nat) (count i : Nat) (x : Int) :
    (glyphStreamFloat32 beyond viewport text y colour count i x).length = 24 * count := by
  induction count generalizing i x with
  | zero => rfl
  | succ n ih =>
    simp only [glyphStreamFloat32, List.length_append, characterElementsFloat32_length, ih]
    omega

/-- The loop of `Print` in `float` arithmetic in closed form, as long as the vertex
counter does not wrap: it stores the `float` stream of the first `min n r` glyphs, `n`
being the characters it may consume and `r` the free glyph slots, and succeeds exactly
when `n ≤ r`. -/
theorem PrintLoopFloat32_eq (beyond : Nat → Fin 256) (viewport : D3D11_VIEWPORT)
    (text : Nat → Fin 256)
    (y : Int) (colour : Nat) (maxCharacterCount : Nat) :
    ∀ (i : Nat) (x : Int) (ctx : TinyTextContext_c) (memory : VertexMemory) (writes : List Nat)
      (g a : Nat), ctx.m_NumVertices = 6 * g → g ≤ ctx.m_Capacity →
      6 * (g + min (effectiveLength text maxCharacterCount i) (ctx.m_Capacity - g)) < 2 ^ 32 →
      ctx.m_VertexBufferWriteAddress = some a →
      PrintLoopFloat32 beyond viewport text y colour maxCharacterCount i x ctx memory writes =
        ⟨decide (effectiveLength text maxCharacterCount i ≤ ctx.m_Capacity - g),
          { ctx with
            m_NumVertices :=
              6 * (g + min (effectiveLength text maxCharacterCount i) (ctx.m_Capacity - g))
            m_VertexBufferWriteAddress :=
              some (a + 24 * min (effectiveLength text maxCharacterCount i) (ctx.m_Capacity - g)) },
          writeElements memory a (glyphStreamFloat32 beyond viewport text y colour
            (min (effectiveLength text maxCharacterCount i) (ctx.m_Capacity - g)) i x),
          writes ++ (List.range
            (24 * min (effectiveLength text maxCharacterCount i) (ctx.m_Capacity - g))).map
              (a + ·)⟩ := by
  induction maxCharacterCount with
  | zero =>
    intro i x ctx memory writes g a hk hg hc ha
    unfold PrintLoopFloat32
    cases ctx
    simp_all [effectiveLength, glyphStreamFloat32, writeElements]
  | succ m ih =>
    intro i x ctx memory writes g a hk hg hc ha
    unfold PrintLoopFloat32
    by_cases h0 : text i = 0
    · cases ctx
      simp_all [effectiveLength, glyphStreamFloat32, writeElements, charValue_eq_zero_iff]
    · have hne : ¬ charValue (text i) = 0 := by rwa [charValue_eq_zero_iff]
      simp only [effectiveLength, h0, if_false] at hc
      simp only [hne, if_false, effectiveLength, h0]
      by_cases hfull : g = ctx.m_Capacity
      · have hdiv : ctx.m_NumVertices / NumVerticesPerCharacter = ctx.m_Capacity := by
          rw [hk, NumVerticesPerCharacter]; omega
        cases ctx
        simp_all [glyphStreamFloat32, writeElements]
      · have hdiv : ¬ ctx.m_NumVertices / NumVerticesPerCharacter = ctx.m_Capacity := by
          rw [hk, NumVerticesPerCharacter]; omega
        simp only [hdiv, if_false, ha]
        have hmin : min (effectiveLength text m (i + 1) + 1) (ctx.m_Capacity - g) =
            min (effectiveLength text m (i + 1)) (ctx.m_Capacity - (g + 1)) + 1 := by omega
        rw [hmin] at hc
        have hw : wrapUInt ((ctx.m_NumVertices : Int) + (NumVerticesPerCharacter : Int)) =
            6 * (g + 1) := by
          rw [hk, NumVerticesPerCharacter]
          have : ((6 * g : Nat) : Int) + ((6 : Nat) : Int) = ((6 * (g + 1) : Nat) : Int) := by
            push_cast; ring
          rw [this, wrapUInt_natCast_of_lt]
          omega
        rw [ih (i + 1) (advanceX x) _ _ _ (g + 1) (a + NumVertexElementsPerCharacter) hw
          (by simp; omega) (by simp only []; omega) rfl]
        dsimp only
        rw [hmin]
        generalize min (effectiveLength text m (i + 1)) (ctx.m_Capacity - (g + 1)) = k
        simp only [PrintOutcome.mk.injEq, TinyTextContext_c.mk.injEq, true_and, and_true]
        refine ⟨?_, ⟨?_, ?_⟩, ?_, ?_⟩
        · simp only [decide_eq_decide]; omega
        · omega
        · simp only [NumVertexElementsPerCharacter, Option.some.injEq]; omega
        · rw [glyphStreamFloat32, writeElements_append, characterElementsFloat32_length]
          rfl
        · rw [List.append_assoc]
          congr 1
          have : 24 * (k + 1) = 24 + 24 * k := by omega
          rw [this, List.range_add, List.map_append, List.map_map]
          congr 1
          apply List.map_congr_left
          intro j _
          simp [NumVertexElementsPerCharacter]; omega

/-- `Print` in `float` arithmetic in closed form when mapping succeeds and the counter
cannot wrap. -/
theorem PrintFloat32_eq (ctx : TinyTextContext_c) (memory : VertexMemory) (mapSucceeds : Bool)
    (beyond : Nat → Fin 256) (viewport : D3D11_VIEWPORT) (maxCharacterCount : Nat)
    (text : Nat → Fin 256) (x y : Int) (colour : Nat)
    (hinv : ctx.Invariant) (hmap : (MapVertexBuffer ctx mapSucceeds).1 = true)
    (hc : 6 * (startCount ctx / 6 +
      min (effectiveLength text maxCharacterCount 0) (remainingSlots ctx)) < 2 ^ 32) :
    PrintFloat32 ctx memory mapSucceeds beyond viewport maxCharacterCount text x y colour =
      ⟨decide (effectiveLength text maxCharacterCount 0 ≤ remainingSlots ctx),
        { ctx with
          m_NumVertices := startCount ctx +
            6 * min (effectiveLength text maxCharacterCount 0) (remainingSlots ctx)
          m_VertexBufferWriteAddress := some (4 * startCount ctx +
            24 * min (effectiveLength text maxCharacterCount 0) (remainingSlots ctx)) },
        writeElements memory (4 * startCount ctx) (glyphStreamFloat32 beyond viewport text y colour
          (min (effectiveLength text maxCharacterCount 0) (remainingSlots ctx)) 0 x),
        (List.range (24 * min (effectiveLength text maxCharacterCount 0)
          (remainingSlots ctx))).map (4 * startCount ctx + ·)⟩ := by
  obtain ⟨hm, hs, hle⟩ := MapVertexBuffer_true ctx mapSucceeds hinv hmap
  unfold PrintFloat32
  rw [hm]
  simp only
  unfold remainingSlots at *
  simp only [NumVerticesPerCharacter] at *
  have key := PrintLoopFloat32_eq beyond viewport text y colour maxCharacterCount 0 x
    { ctx with m_NumVertices := startCount ctx,
               m_VertexBufferWriteAddress := some (4 * startCount ctx) } memory []
    (startCount ctx / 6) (4 * startCount ctx) hs hle hc rfl
  rw [key]
  simp only [PrintOutcome.mk.injEq, TinyTextContext_c.mk.injEq, true_and, and_true, List.nil_append]
  omega

/-- Element `e` of glyph `k` of a glyph stream in `float` arithmetic. -/
theorem glyphStreamFloat32_getD (beyond : Nat → Fin 256) (viewport : D3D11_VIEWPORT)
    (text : Nat → Fin 256) (y : Int) (colour : Nat) (count : Nat) :
    ∀ (i : Nat) (x : Int) (k e : Nat) (d : DWORD), k < count → e < 24 →
      (glyphStreamFloat32 beyond viewport text y colour count i x).getD (24 * k + e) d =
        (characterElementsFloat32 beyond viewport (charValue (text (i + k))) (advanceX^[k] x) y
          colour).getD e d := by
  induction count with
  | zero => intro i x k e d hk; omega
  | succ n ih =>
    intro i x k e d hk he
    rw [glyphStreamFloat32]
    cases k with
    | zero =>
      rw [List.getD_append _ _ _ _ (by rw [characterElementsFloat32_length]; omega)]
      simp
    | succ k =>
      rw [List.getD_append_right _ _ _ _ (by rw [characterElementsFloat32_length]; omega),
        characterElementsFloat32_length, show 24 * (k + 1) + e - 24 = 24 * k + e by omega,
        ih (i + 1) (advanceX x) k e d (by omega) he]
      rw [show i + 1 + k = i + (k + 1) by omega, Function.iterate_succ_apply]

/-- The loop of `Print` in `float` arithmetic returns the same flag, context and store
offsets as the loop with exact positions. -/
theorem PrintLoopFloat32_outcome (beyond : Nat → Fin 256) (viewport : D3D11_VIEWPORT)
    (text : Nat → Fin 256) (y : Int) (colour : Nat) (maxCharacterCount : Nat) :
    ∀ (i : Nat) (x : Int) (ctx : TinyTextContext_c) (memory memory' : VertexMemory)
      (writes : List Nat),
      (PrintLoopFloat32 beyond viewport text y colour maxCharacterCount i x ctx memory
          writes).result =
        (PrintLoop beyond viewport text y colour maxCharacterCount i x ctx memory' writes).result ∧
      (PrintLoopFloat32 beyond viewport text y colour maxCharacterCount i x ctx memory
          writes).ctx =
        (PrintLoop beyond viewport text y colour maxCharacterCount i x ctx memory' writes).ctx ∧
      (PrintLoopFloat32 beyond viewport text y colour maxCharacterCount i x ctx memory
          writes).writes =
        (PrintLoop beyond viewport text y colour maxCharacterCount i x ctx memory' writes).writes := by
  induction maxCharacterCount with
  | zero =>
    intro i x ctx memory memory' writes
    unfold PrintLoopFloat32 PrintLoop
    simp only
    split <;> exact ⟨rfl, rfl, rfl⟩
  | succ m ih =>
    intro i x ctx memory memory' writes
    unfold PrintLoopFloat32 PrintLoop
    simp only
    by_cases h0 : charValue (text i) = 0
    · simp only [h0, if_true, and_self]
    · simp only [h0, if_false]
      by_cases h1 : ctx.m_NumVertices / NumVerticesPerCharacter = ctx.m_Capacity
      · simp only [h1, if_true, and_self]
      · simp only [h1, if_false]
        rcases Option.eq_none_or_eq_some ctx.m_VertexBufferWriteAddress with hc | ⟨a, hc⟩
        · simp only [hc, and_self]
        · simp only [hc]
          exact ih _ _ _ _ _ _

/-- `Print` in `float` arithmetic returns the same flag, context and store offsets as
`Print` with exact positions: the two differ only in the position values stored. -/
theorem PrintFloat32_outcome (ctx : TinyTextContext_c) (memory : VertexMemory)
    (mapSucceeds : Bool) (beyond : Nat → Fin 256) (viewport : D3D11_VIEWPORT)
    (maxCharacterCount : Nat) (text : Nat → Fin 256) (x y : Int) (colour : Nat) :
    (PrintFloat32 ctx memory mapSucceeds beyond viewport maxCharacterCount text x y
        colour).result =
      (Print ctx memory mapSucceeds beyond viewport maxCharacterCount text x y colour).result ∧
    (PrintFloat32 ctx memory mapSucceeds beyond viewport maxCharacterCount text x y
        colour).ctx =
      (Print ctx memory mapSucceeds beyond viewport maxCharacterCount text x y colour).ctx ∧
    (PrintFloat32 ctx memory mapSucceeds beyond viewport maxCharacterCount text x y
        colour).writes =
      (Print ctx memory mapSucceeds beyond viewport maxCharacterCount text x y colour).writes := by
  unfold PrintFloat32 Print
  rcases h : MapVertexBuffer ctx mapSucceeds with ⟨flag, ctx'⟩
  cases flag
  · exact ⟨rfl, rfl, rfl⟩
  · exact PrintLoopFloat32_outcome _ _ _ _ _ _ _ _ _ _ _ _

/-- For a viewport in range, `0 ≤ x ≤ 2 ^ 20` and `|y| ≤ 2 ^ 20`, the four edges are finite
in `float` arithmetic, the left edge lies below the right one, and the bottom edge lies
below the top one unless the glyph has height 0, in which case they are equal. -/
theorem floatEdges_separated (beyond : Nat → Fin 256) (viewport : D3D11_VIEWPORT)
    (currentChar x y : Int) (hv : viewport.InRange) (hx1 : 0 ≤ x) (hx2 : x ≤ 2 ^ 20)
    (hy1 : -2 ^ 20 ≤ y) (hy2 : y ≤ 2 ^ 20) :
    ∃ l r t b : ℚ,
      bottomLeftXFloat32 viewport x = Float32.finite l ∧
      topRightXFloat32 viewport x = Float32.finite r ∧
      topRightYFloat32 beyond viewport currentChar y = Float32.finite t ∧
      bottomLeftYFloat32 beyond viewport currentChar y = Float32.finite b ∧
      l < r ∧ (0 < glyphHeight beyond currentChar → b < t) ∧
      (glyphHeight beyond currentChar = 0 → b = t) := by
  have hyo := glyphYOffset_bounds beyond currentChar
  have hgh := glyphHeight_bounds beyond currentChar
  obtain ⟨l, hl, el⟩ := bottomLeftXFloat32_spec viewport x hv
  obtain ⟨r, hr, er⟩ := topRightXFloat32_spec viewport x hv
  obtain ⟨t, ht, et⟩ := topRightYFloat32_spec beyond viewport currentChar y hv
  obtain ⟨b, hb, eb⟩ := bottomLeftYFloat32_spec beyond viewport currentChar y hv
  obtain ⟨_, _, hW1, hW2, hH1, hH2⟩ := hv
  have hW : 0 < viewport.Width := by linarith
  have hH : 0 < viewport.Height := by linarith
  rw [intCast_two_mul_x x (by omega) (by omega)] at el
  rw [natCast_two_mul_right x (by omega) (by omega)] at er
  rw [intCast_top beyond currentChar y (by omega) (by omega)] at et
  rw [intCast_bottom beyond currentChar y (by omega) (by omega)] at eb
  have hxq : (0 : ℚ) ≤ x := by exact_mod_cast hx1
  have hxq2 : (x : ℚ) ≤ 2 ^ 20 := by exact_mod_cast hx2
  have hyq1 : (-2 ^ 20 : ℚ) ≤ y := by exact_mod_cast hy1
  have hyq2 : (y : ℚ) ≤ 2 ^ 20 := by exact_mod_cast hy2
  have hoq : (0 : ℚ) ≤ glyphYOffset beyond currentChar := by exact_mod_cast hyo.1
  have hoq2 : (glyphYOffset beyond currentChar : ℚ) ≤ 15 := by exact_mod_cast hyo.2
  have hhq : (0 : ℚ) ≤ glyphHeight beyond currentChar := by exact_mod_cast hgh.1
  have hhq2 : (glyphHeight beyond currentChar : ℚ) ≤ 15 := by exact_mod_cast hgh.2
  refine ⟨l, r, t, b, hl, hr, ht, hb, ?_, ?_, ?_⟩
  · -- left below right
    set c := 1 / viewport.Width with hc
    have hc0 : 0 < c := by positivity
    have hc1 : 1 / 2 ^ 20 ≤ c := by
      rw [hc]
      exact one_div_le_one_div_of_le hW hW2
    set k := (x : ℚ) * c with hk
    have hk0 : 0 ≤ k := by positivity
    have hk1 : k ≤ 2 ^ 20 * c := mul_le_mul_of_nonneg_right hxq2 hc0.le
    rw [abs_of_nonneg (by linarith : (0 : ℚ) ≤ 2 * x)] at el
    rw [abs_of_nonneg (by linarith : (0 : ℚ) ≤ 2 * (x + 8))] at er
    have i1 : 2 * (x : ℚ) / viewport.Width = 2 * k := by rw [hk, hc]; ring
    have i2 : 4 * (2 * (x : ℚ)) / viewport.Width = 8 * k := by rw [hk, hc]; ring
    have i3 : 2 * ((x : ℚ) + 8) / viewport.Width = 2 * k + 16 * c := by rw [hk, hc]; ring
    have i4 : 4 * (2 * ((x : ℚ) + 8)) / viewport.Width = 8 * k + 64 * c := by
      rw [hk, hc]; ring
    rw [i1, i2] at el
    rw [i3, i4] at er
    have el' := (abs_le.1 el).2
    have er' := (abs_le.1 er).1
    have n1 : (8 * k + 1) / 2 ^ 24 = 8 * k / 2 ^ 24 + 1 / 2 ^ 24 := by ring
    have n2 : (8 * k + 64 * c + 1) / 2 ^ 24 = 8 * k / 2 ^ 24 + 64 * c / 2 ^ 24 + 1 / 2 ^ 24 := by
      ring
    have n3 : 8 * k / 2 ^ 24 ≤ 8 * (2 ^ 20 * c) / 2 ^ 24 :=
      div_le_div_of_nonneg_right (by linarith) (by positivity)
    have n4 : 8 * (2 ^ 20 * c) / 2 ^ 24 = c / 2 := by ring
    have n5 : 64 * c / 2 ^ 24 ≤ c := by
      have : 64 * c / 2 ^ 24 = c * (64 / 2 ^ 24) := by ring
      rw [this]
      have h64 : (64 : ℚ) / 2 ^ 24 ≤ 1 := by norm_num
      calc c * (64 / 2 ^ 24) ≤ c * 1 := mul_le_mul_of_nonneg_left h64 hc0.le
        _ = c := mul_one c
    have n6 : (1 : ℚ) / 2 ^ 24 ≤ c / 16 := by
      have : (1 : ℚ) / 2 ^ 24 = 1 / 2 ^ 20 / 16 := by norm_num
      rw [this]
      exact div_le_div_of_nonneg_right hc1 (by norm_num)
    rw [n1] at el'
    rw [n2] at er'
    linarith
  · -- bottom below top
    intro hpos
    set c := 1 / viewport.Height with hc
    have hc0 : 0 < c := by positivity
    have hc1 : 1 / 2 ^ 20 ≤ c := by
      rw [hc]
      exact one_div_le_one_div_of_le hH hH2
    have hh1 : (1 : ℚ) ≤ glyphHeight beyond currentChar := by exact_mod_cast hpos
    set p := (y : ℚ) + glyphYOffset beyond currentChar with hp
    set h := (glyphHeight beyond currentChar : ℚ) with hh
    have a1 : |-2 * p| ≤ 2 * (2 ^ 20 + 15) := by
      rw [abs_le]; constructor <;> linarith
    have a2 : |-2 * (p + h)| ≤ 2 * (2 ^ 20 + 30) := by
      rw [abs_le]; constructor <;> linarith
    have i1 : -2 * p / viewport.Height = -2 * (p * c) := by rw [hc]; ring
    have i2 : -2 * (p + h) / viewport.Height = -2 * (p * c) - 2 * (h * c) := by rw [hc]; ring
    have i3 : 4 * |-2 * p| / viewport.Height = 4 * (|-2 * p| * c) := by rw [hc]; ring
    have i4 : 4 * |-2 * (p + h)| / viewport.Height = 4 * (|-2 * (p + h)| * c) := by
      rw [hc]; ring
    rw [i1, i3] at et
    rw [i2, i4] at eb
    have et' := (abs_le.1 et).1
    have eb' := (abs_le.1 eb).2
    have m1 : |-2 * p| * c ≤ 2 * (2 ^ 20 + 15) * c := mul_le_mul_of_nonneg_right a1 hc0.le
    have m2 : |-2 * (p + h)| * c ≤ 2 * (2 ^ 20 + 30) * c :=
      mul_le_mul_of_nonneg_right a2 hc0.le
    have m3 : c ≤ h * c := by
      calc c = 1 * c := (one_mul c).symm
        _ ≤ h * c := mul_le_mul_of_nonneg_right hh1 hc0.le
    have n1 : (4 * (|-2 * p| * c) + 1) / 2 ^ 24 =
        4 * (|-2 * p| * c) / 2 ^ 24 + 1 / 2 ^ 24 := by ring
    have n2 : (4 * (|-2 * (p + h)| * c) + 1) / 2 ^ 24 =
        4 * (|-2 * (p + h)| * c) / 2 ^ 24 + 1 / 2 ^ 24 := by ring
    have n3 : 4 * (|-2 * p| * c) / 2 ^ 24 ≤ 4 * (2 * (2 ^ 20 + 15) * c) / 2 ^ 24 :=
      div_le_div_of_nonneg_right (by linarith) (by positivity)
    have n4 : 4 * (|-2 * (p + h)| * c) / 2 ^ 24 ≤ 4 * (2 * (2 ^ 20 + 30) * c) / 2 ^ 24 :=
      div_le_div_of_nonneg_right (by linarith) (by positivity)
    have n5 : 4 * (2 * (2 ^ 20 + 15) * c) / 2 ^ 24 + 4 * (2 * (2 ^ 20 + 30) * c) / 2 ^ 24 ≤
        c + c / 2 ^ 10 := by
      have : 4 * (2 * (2 ^ 20 + 15) * c) / 2 ^ 24 + 4 * (2 * (2 ^ 20 + 30) * c) / 2 ^ 24 =
          c * ((8 * (2 ^ 20 + 15) + 8 * (2 ^ 20 + 30)) / 2 ^ 24) := by ring
      rw [this]
      have h1 : ((8 : ℚ) * (2 ^ 20 + 15) + 8 * (2 ^ 20 + 30)) / 2 ^ 24 ≤ 1 + 1 / 2 ^ 10 := by
        norm_num
      calc c * ((8 * (2 ^ 20 + 15) + 8 * (2 ^ 20 + 30)) / 2 ^ 24)
          ≤ c * (1 + 1 / 2 ^ 10) := mul_le_mul_of_nonneg_left h1 hc0.le
        _ = c + c / 2 ^ 10 := by ring
    have n6 : (1 : ℚ) / 2 ^ 24 ≤ c / 16 := by
      have : (1 : ℚ) / 2 ^ 24 = 1 / 2 ^ 20 / 16 := by norm_num
      rw [this]
      exact div_le_div_of_nonneg_right hc1 (by norm_num)
    have n7 : c / 2 ^ 10 ≤ c / 16 :=
      div_le_div_of_nonneg_left hc0.le (by norm_num) (by norm_num)
    rw [n1] at et'
    rw [n2] at eb'
    linarith
  · -- height 0
    intro h0
    have hsame : bottomLeftYFloat32 beyond viewport currentChar y =
        topRightYFloat32 beyond viewport currentChar y := by
      unfold bottomLeftYFloat32 topRightYFloat32
      have : wrapInt (-2 * wrapInt (charY beyond currentChar y + glyphHeight beyond currentChar))
          = wrapInt (-2 * charY beyond currentChar y) := by
        rw [h0]
        unfold charY wrapInt
        omega
      rw [this]
    rw [hsame, ht] at hb
    exact (Float32.finite.inj hb).symm

theorem glyphU_eq (beyond : Nat → Fin 256) (currentChar : Int) :
    ∃ u : Nat, glyphU beyond currentChar = u ∧ u < 256 :=
  ⟨_, rfl, readCharacterData_lt _ _⟩

theorem glyphV_eq (beyond : Nat → Fin 256) (currentChar : Int) :
    ∃ v : Nat, glyphV beyond currentChar = v ∧ v < 256 :=
  ⟨_, rfl, readCharacterData_lt _ _⟩

theorem glyphHeight_eq (beyond : Nat → Fin 256) (currentChar : Int) :
    ∃ h : Nat, glyphHeight beyond currentChar = h ∧ h ≤ 15 :=
  ⟨_, rfl, Nat.and_le_right⟩

theorem EncodeUVWord_decode (u v : Nat) (hu : u ≤ 65535) (hv : v ≤ 65535) :
    EncodeUVWord u v &&& 0xFFFF = u ∧ EncodeUVWord u v >>> 16 = v := by
  rw [EncodeUVWord_eq u v hu hv]
  exact or_decode u v (by omega)

theorem vertexTexCoords_characterElements (beyond : Nat → Fin 256) (viewport : D3D11_VIEWPORT)
    (currentChar x y : Int) (colour : Nat) :
    (vertexTexCoords (characterElements beyond viewport currentChar x y colour)).map
        (fun t => ((t.1 : Int), (t.2 : Int))) =
      [(glyphU beyond currentChar, glyphV beyond currentChar + glyphHeight beyond currentChar),
       (glyphU beyond currentChar, glyphV beyond currentChar),
       (glyphU beyond currentChar + CharacterWidth,
          glyphV beyond currentChar + glyphHeight beyond currentChar),
       (glyphU beyond currentChar + CharacterWidth, glyphV beyond currentChar),
       (glyphU beyond currentChar + CharacterWidth,
          glyphV beyond currentChar + glyphHeight beyond currentChar),
       (glyphU beyond currentChar, glyphV beyond currentChar)] := by
  obtain ⟨u, hu, hu2⟩ := glyphU_eq beyond currentChar
  obtain ⟨v, hv, hv2⟩ := glyphV_eq beyond currentChar
  obtain ⟨h, hh, hh2⟩ := glyphHeight_eq beyond currentChar
  have e1 : wrapInt ((v : Int) + (h : Int)) = ((v + h : Nat) : Int) := by
    rw [wrapInt_of_range _ (by omega) (by omega)]; push_cast; rfl
  have e2 : wrapInt (wrapUInt ((u : Int) + (CharacterWidth : Nat))) = ((u + 8 : Nat) : Int) := by
    have : wrapUInt ((u : Int) + (CharacterWidth : Nat)) = u + 8 := by
      unfold wrapUInt CharacterWidth; omega
    rw [this, wrapInt_of_range _ (by omega) (by omega)]
  have d1 := EncodeUVWord_decode u (v + h) (by omega) (by omega)
  have d2 := EncodeUVWord_decode u v (by omega) (by omega)
  have d3 := EncodeUVWord_decode (u + 8) (v + h) (by omega) (by omega)
  have d4 := EncodeUVWord_decode (u + 8) v (by omega) (by omega)
  push_cast at d1 d2 d3 d4
  simp only [characterElements, vertexTexCoords, NumVerticesPerCharacter, hu, hv, hh, e1, e2,
    EncodeUVCoords]
  simp [List.range_succ, List.getD, DWORD.toBits, d1, d2, d3, d4, CharacterWidth]

theorem exampleViewport_inRange : exampleViewport.InRange :=
  ⟨by decide!, by decide!, by decide!, by decide!, by decide!, by decide!⟩

/-- C8 fails as stated: `Print "A"` at (16, 10) in a 640 by 480 viewport stores the left
edge `-15938355 / 2 ^ 24` (the `float` nearest to `0.05f - 1`, where `0.05f` is the
`float` nearest to `32 / 640`), and the inverse transform maps it to `16 + 2 ^ -18`, not
to 16. -/
theorem C8_float_rounding_counterexample :
    (0 : Int) ≤ 16 ∧ (0 : Int) ≤ 10 ∧ 0 < exampleViewport.Width ∧ 0 < exampleViewport.Height ∧
    (PrintFloat32 exampleContext exampleMemory true exampleBeyond exampleViewport 1 letterAText
      16 10 0xFFFFFFFF).memory 0 = DWORD.float (-15938355 / 16777216) ∧
    specPixelX exampleViewport (-15938355 / 16777216) = 16 + 1 / 262144 ∧
    specPixelX exampleViewport (-15938355 / 16777216) ≠ 16 := by
  decide!

/-- C8, amended to recovery up to `float` rounding: for `0 ≤ x < 2 ^ 30` and `0 ≤ y` with
`y + yoffset + height ≤ 2 ^ 30`, a viewport whose width `W` and height `H` are `float`
values between 1 and `2 ^ 20` and any character, the four edges computed in `float`
arithmetic are finite, the six stored positions are their pairs in buffer order, and the
inverse transform `px = (ndcX + 1) * W / 2`, `py = (1 - ndcY) * H / 2` maps them to within
`(4 * p + D / 2) / 2 ^ 24` of the pixel coordinate `p` they stand for (`x`, `x + 8`,
`y + yoffset`, `y + yoffset + height`), `D` being the viewport dimension. -/
theorem C8_pixel_corners_recovered_within_rounding (beyond : Nat → Fin 256)
    (viewport : D3D11_VIEWPORT) (currentChar x y : Int) (colour : Nat) (hx1 : 0 ≤ x)
    (hx2 : x < 2 ^ 30) (hy1 : 0 ≤ y)
    (hy2 : y + glyphYOffset beyond currentChar + glyphHeight beyond currentChar ≤ 2 ^ 30)
    (hv : viewport.InRange) :
    ∃ left right top bottom : ℚ,
      bottomLeftXFloat32 viewport x = Float32.finite left ∧
      topRightXFloat32 viewport x = Float32.finite right ∧
      topRightYFloat32 beyond viewport currentChar y = Float32.finite top ∧
      bottomLeftYFloat32 beyond viewport currentChar y = Float32.finite bottom ∧
      vertexPositions (characterElementsFloat32 beyond viewport currentChar x y colour) =
        [(left, bottom), (left, top), (right, bottom), (right, top), (right, bottom),
          (left, top)] ∧
      |specPixelX viewport left - x| ≤ (4 * (x : ℚ) + viewport.Width / 2) / 2 ^ 24 ∧
      |specPixelX viewport right - (x + 8)| ≤
        (4 * ((x : ℚ) + 8) + viewport.Width / 2) / 2 ^ 24 ∧
      |specPixelY viewport top - (y + glyphYOffset beyond currentChar)| ≤
        (4 * ((y : ℚ) + glyphYOffset beyond currentChar) + viewport.Height / 2) / 2 ^ 24 ∧
      |specPixelY viewport bottom -
          (y + glyphYOffset beyond currentChar + glyphHeight beyond currentChar)| ≤
        (4 * ((y : ℚ) + glyphYOffset beyond currentChar + glyphHeight beyond currentChar) +
          viewport.Height / 2) / 2 ^ 24 := by
  have hyo := glyphYOffset_bounds beyond currentChar
  have hgh := glyphHeight_bounds beyond currentChar
  obtain ⟨l, hl, el⟩ := bottomLeftXFloat32_spec viewport x hv
  obtain ⟨r, hr, er⟩ := topRightXFloat32_spec viewport x hv
  obtain ⟨t, ht, et⟩ := topRightYFloat32_spec beyond viewport currentChar y hv
  obtain ⟨b, hb, eb⟩ := bottomLeftYFloat32_spec beyond viewport currentChar y hv
  obtain ⟨_, _, hW1, _, hH1, _⟩ := hv
  have hW : 0 < viewport.Width := by linarith
  have hH : 0 < viewport.Height := by linarith
  rw [intCast_two_mul_x x (by omega) hx2] at el
  rw [natCast_two_mul_right x (by omega) (by omega)] at er
  rw [intCast_top beyond currentChar y (by omega) (by omega)] at et
  rw [intCast_bottom beyond currentChar y (by omega) hy2] at eb
  have hxq : (0 : ℚ) ≤ x := by exact_mod_cast hx1
  have hyq : (0 : ℚ) ≤ y := by exact_mod_cast hy1
  have hoq : (0 : ℚ) ≤ glyphYOffset beyond currentChar := by exact_mod_cast hyo.1
  have hhq : (0 : ℚ) ≤ glyphHeight beyond currentChar := by exact_mod_cast hgh.1
  refine ⟨l, r, t, b, hl, hr, ht, hb,
    vertexPositions_characterElementsFloat32 beyond viewport currentChar x y colour l r t b hl hr
      ht hb, ?_, ?_, ?_, ?_⟩
  · have := pixelX_error viewport.Width x l hW el
    rwa [abs_of_nonneg hxq] at this
  · have := pixelX_error viewport.Width (x + 8) r hW er
    rwa [abs_of_nonneg (by linarith : (0 : ℚ) ≤ x + 8)] at this
  · have := pixelY_error viewport.Height (y + glyphYOffset beyond currentChar) t hH et
    rwa [abs_of_nonneg (by linarith : (0 : ℚ) ≤ y + glyphYOffset beyond currentChar)] at this
  · have := pixelY_error viewport.Height
      (y + glyphYOffset beyond currentChar + glyphHeight beyond currentChar) b hH eb
    rwa [abs_of_nonneg (by linarith :
      (0 : ℚ) ≤ y + glyphYOffset beyond currentChar + glyphHeight beyond currentChar)] at this

/-- C8 (amended) applied to the glyph of `A` printed at (16, 10) in a 640 by 480
viewport. -/
theorem C8_pixel_corners_recovered_within_rounding_witness :
    (0 : Int) ≤ 16 ∧ (16 : Int) < 2 ^ 30 ∧ (0 : Int) ≤ 10 ∧
    (10 + glyphYOffset exampleBeyond 65 + glyphHeight exampleBeyond 65 ≤ 2 ^ 30) ∧
    exampleViewport.InRange ∧
    ∃ left right top bottom : ℚ,
      bottomLeftXFloat32 exampleViewport 16 = Float32.finite left ∧
      topRightXFloat32 exampleViewport 16 = Float32.finite right ∧
      topRightYFloat32 exampleBeyond exampleViewport 65 10 = Float32.finite top ∧
      bottomLeftYFloat32 exampleBeyond exampleViewport 65 10 = Float32.finite bottom ∧
      vertexPositions (characterElementsFloat32 exampleBeyond exampleViewport 65 16 10
          0xFFFFFFFF) =
        [(left, bottom), (left, top), (right, bottom), (right, top), (right, bottom),
          (left, top)] ∧
      |specPixelX exampleViewport left - ((16 : Int) : ℚ)| ≤
        (4 * ((16 : Int) : ℚ) + exampleViewport.Width / 2) / 2 ^ 24 ∧
      |specPixelX exampleViewport right - (((16 : Int) : ℚ) + 8)| ≤
        (4 * (((16 : Int) : ℚ) + 8) + exampleViewport.Width / 2) / 2 ^ 24 ∧
      |specPixelY exampleViewport top - (((10 : Int) : ℚ) + glyphYOffset exampleBeyond 65)| ≤
        (4 * (((10 : Int) : ℚ) + glyphYOffset exampleBeyond 65) + exampleViewport.Height / 2) /
          2 ^ 24 ∧
      |specPixelY exampleViewport bottom -
          (((10 : Int) : ℚ) + glyphYOffset exampleBeyond 65 + glyphHeight exampleBeyond 65)| ≤
        (4 * (((10 : Int) : ℚ) + glyphYOffset exampleBeyond 65 + glyphHeight exampleBeyond 65) +
          exampleViewport.Height / 2) / 2 ^ 24 :=
  ⟨by decide, by decide, by decide, by decide!, exampleViewport_inRange,
    C8_pixel_corners_recovered_within_rounding exampleBeyond exampleViewport 65 16 10 0xFFFFFFFF
      (by decide) (by decide) (by decide) (by decide!) exampleViewport_inRange⟩

theorem vertexPositionCells_characterElementsFloat32 (beyond : Nat → Fin 256)
    (viewport : D3D11_VIEWPORT) (currentChar x y : Int) (colour : Nat) :
    vertexPositionCells (characterElementsFloat32 beyond viewport currentChar x y colour) =
      [(EncodePositionCoordFloat32 (bottomLeftXFloat32 viewport x),
          EncodePositionCoordFloat32 (bottomLeftYFloat32 beyond viewport currentChar y)),
       (EncodePositionCoordFloat32 (bottomLeftXFloat32 viewport x),
          EncodePositionCoordFloat32 (topRightYFloat32 beyond viewport currentChar y)),
       (EncodePositionCoordFloat32 (topRightXFloat32 viewport x),
          EncodePositionCoordFloat32 (bottomLeftYFloat32 beyond viewport currentChar y)),
       (EncodePositionCoordFloat32 (topRightXFloat32 viewport x),
          EncodePositionCoordFloat32 (topRightYFloat32 beyond viewport currentChar y)),
       (EncodePositionCoordFloat32 (topRightXFloat32 viewport x),
          EncodePositionCoordFloat32 (bottomLeftYFloat32 beyond viewport currentChar y)),
       (EncodePositionCoordFloat32 (bottomLeftXFloat32 viewport x),
          EncodePositionCoordFloat32 (topRightYFloat32 beyond viewport currentChar y))] := rfl

/-- C25 fails as stated: `Print "A"` at x = 2 ^ 29 in a 640 by 480 viewport stores the same
`float`, `13421765 / 8`, as the x of vertex 0 (left edge) and of vertex 2 (right edge),
because `2 ^ 30 + 16` converts to the `float` `2 ^ 30`; vertex 2 thus has the left edge
as its x, yet its texture U is `98 = u + 8`, not `u = 90`. -/
theorem C25_edges_coincide_counterexample :
    (PrintFloat32 exampleContext exampleMemory true exampleBeyond exampleViewport 1 letterAText
      536870912 10 0xFFFFFFFF).memory 0 =
        EncodePositionCoordFloat32 (bottomLeftXFloat32 exampleViewport 536870912) ∧
    (PrintFloat32 exampleContext exampleMemory true exampleBeyond exampleViewport 1 letterAText
      536870912 10 0xFFFFFFFF).memory 0 = DWORD.float (13421765 / 8) ∧
    (PrintFloat32 exampleContext exampleMemory true exampleBeyond exampleViewport 1 letterAText
      536870912 10 0xFFFFFFFF).memory 8 = DWORD.float (13421765 / 8) ∧
    ((PrintFloat32 exampleContext exampleMemory true exampleBeyond exampleViewport 1 letterAText
      536870912 10 0xFFFFFFFF).memory 10).toBits &&& 0xFFFF = 98 ∧
    glyphU exampleBeyond 65 = 90 := by
  decide!

/-- C25, amended: each of the six vertices of an emitted glyph, its position cells paired
with its decoded texture coordinates, holds the left edge with `U = u` or the right edge
with `U = u + CharacterWidth`, and the top edge with `V = v` or the bottom edge with
`V = v + height`, the edges being computed in `float` arithmetic and `u`, `v`, `height`
being the table metrics of the character.  For a viewport whose width and height are
`float` values between 1 and `2 ^ 20`, `0 ≤ x ≤ 2 ^ 20` and `-2 ^ 20 ≤ y ≤ 2 ^ 20`,
`U = u` holds exactly when the vertex x is the left edge and `V = v` exactly when the
vertex y is the top edge. -/
theorem C25_vertices_pair_matching_corners (beyond : Nat → Fin 256)
    (viewport : D3D11_VIEWPORT) (currentChar x y : Int) (colour : Nat) :
    ∀ p ∈ List.zip
        (vertexPositionCells (characterElementsFloat32 beyond viewport currentChar x y colour))
        (vertexTexCoords (characterElementsFloat32 beyond viewport currentChar x y colour)),
      ((p.1.1 = EncodePositionCoordFloat32 (bottomLeftXFloat32 viewport x) ∧
          ((p.2.1 : Nat) : Int) = glyphU beyond currentChar) ∨
        (p.1.1 = EncodePositionCoordFloat32 (topRightXFloat32 viewport x) ∧
          ((p.2.1 : Nat) : Int) = glyphU beyond currentChar + CharacterWidth)) ∧
      ((p.1.2 = EncodePositionCoordFloat32 (topRightYFloat32 beyond viewport currentChar y) ∧
          ((p.2.2 : Nat) : Int) = glyphV beyond currentChar) ∨
        (p.1.2 = EncodePositionCoordFloat32 (bottomLeftYFloat32 beyond viewport currentChar y) ∧
          ((p.2.2 : Nat) : Int) =
            glyphV beyond currentChar + glyphHeight beyond currentChar)) ∧
      (viewport.InRange → 0 ≤ x → x ≤ 2 ^ 20 → -2 ^ 20 ≤ y → y ≤ 2 ^ 20 →
        ((((p.2.1 : Nat) : Int) = glyphU beyond currentChar ↔
            p.1.1 = EncodePositionCoordFloat32 (bottomLeftXFloat32 viewport x)) ∧
          (((p.2.2 : Nat) : Int) = glyphV beyond currentChar ↔
            p.1.2 =
              EncodePositionCoordFloat32 (topRightYFloat32 beyond viewport currentChar y)))) := by
  have hT := vertexTexCoords_characterElements beyond viewport currentChar x y colour
  rw [← vertexTexCoords_characterElementsFloat32] at hT
  have hlen : (vertexTexCoords
      (characterElementsFloat32 beyond viewport currentChar x y colour)).length = 6 := by
    simp [vertexTexCoords, NumVerticesPerCharacter]
  rw [vertexPositionCells_characterElementsFloat32]
  generalize vertexTexCoords (characterElementsFloat32 beyond viewport currentChar x y colour)
    = ts at *
  match ts, hlen with
  | [t0, t1, t2, t3, t4, t5], _ =>
    simp only [List.map_cons, List.map_nil, List.cons.injEq, Prod.mk.injEq, and_true] at hT
    obtain ⟨⟨a0, b0⟩, ⟨a1, b1⟩, ⟨a2, b2⟩, ⟨a3, b3⟩, ⟨a4, b4⟩, ⟨a5, b5⟩⟩ := hT
    have hu8 : glyphU beyond currentChar + (CharacterWidth : Nat) ≠ glyphU beyond currentChar := by
      unfold CharacterWidth; omega
    have hvh : glyphV beyond currentChar + glyphHeight beyond currentChar =
        glyphV beyond currentChar ↔ glyphHeight beyond currentChar = 0 := by
      constructor <;> intro h <;> omega
    intro p hp
    simp only [List.zip_cons_cons, List.zip_nil_right, List.mem_cons, List.mem_singleton,
      List.not_mem_nil, or_false] at hp
    refine ⟨?_, ?_, ?_⟩
    · rcases hp with rfl | rfl | rfl | rfl | rfl | rfl <;>
        simp [a0, a1, a2, a3, a4, a5]
    · rcases hp with rfl | rfl | rfl | rfl | rfl | rfl <;>
        simp [b0, b1, b2, b3, b4, b5]
    · intro hv hx1 hx2 hy1 hy2
      obtain ⟨l, r, t, b, hl, hr, ht, hb, hlr, hbt, hbt0⟩ :=
        floatEdges_separated beyond viewport currentChar x y hv hx1 hx2 hy1 hy2
      have hgh := glyphHeight_bounds beyond currentChar
      have hX : ¬ (r = l) := ne_of_gt hlr
      have hY : b = t ↔ glyphHeight beyond currentChar = 0 := by
        constructor
        · intro hbt'
          by_contra hne
          have : 0 < glyphHeight beyond currentChar := by omega
          exact absurd hbt' (ne_of_lt (hbt this))
        · exact hbt0
      simp only [hl, hr, ht, hb, EncodePositionCoordFloat32] at hp ⊢
      constructor
      · rcases hp with rfl | rfl | rfl | rfl | rfl | rfl <;>
          simp [a0, a1, a2, a3, a4, a5, hX, hu8]
      · rcases hp with rfl | rfl | rfl | rfl | rfl | rfl <;>
          simp [b0, b1, b2, b3, b4, b5, hY, hvh]

/-- C25 (amended) applied to the bottom-right vertex of the glyph of `A` (`u = 90`,
`v = 45`, height 9) printed at (16, 10) in a 640 by 480 viewport: texture coordinates
(98, 54). -/
theorem C25_vertices_pair_matching_corners_witness :
    ((EncodePositionCoordFloat32 (topRightXFloat32 exampleViewport 16),
        EncodePositionCoordFloat32 (bottomLeftYFloat32 exampleBeyond exampleViewport 65 10)),
        ((98 : Nat), (54 : Nat))) ∈
      List.zip
        (vertexPositionCells
          (characterElementsFloat32 exampleBeyond exampleViewport 65 16 10 0xFFFFFFFF))
        (vertexTexCoords
          (characterElementsFloat32 exampleBeyond exampleViewport 65 16 10 0xFFFFFFFF)) ∧
    exampleViewport.InRange ∧ (0 : Int) ≤ 16 ∧ (16 : Int) ≤ 2 ^ 20 ∧ (-2 ^ 20 : Int) ≤ 10 ∧
    (10 : Int) ≤ 2 ^ 20 ∧
    glyphU exampleBeyond 65 = 90 ∧ glyphV exampleBeyond 65 = 45 ∧
    glyphHeight exampleBeyond 65 = 9 ∧
    ((EncodePositionCoordFloat32 (topRightXFloat32 exampleViewport 16) =
          EncodePositionCoordFloat32 (bottomLeftXFloat32 exampleViewport 16) ∧
        ((98 : Nat) : Int) = glyphU exampleBeyond 65) ∨
      (EncodePositionCoordFloat32 (topRightXFloat32 exampleViewport 16) =
          EncodePositionCoordFloat32 (topRightXFloat32 exampleViewport 16) ∧
        ((98 : Nat) : Int) = glyphU exampleBeyond 65 + CharacterWidth)) ∧
    ((EncodePositionCoordFloat32 (bottomLeftYFloat32 exampleBeyond exampleViewport 65 10) =
          EncodePositionCoordFloat32 (topRightYFloat32 exampleBeyond exampleViewport 65 10) ∧
        ((54 : Nat) : Int) = glyphV exampleBeyond 65) ∨
      (EncodePositionCoordFloat32 (bottomLeftYFloat32 exampleBeyond exampleViewport 65 10) =
          EncodePositionCoordFloat32 (bottomLeftYFloat32 exampleBeyond exampleViewport 65 10) ∧
        ((54 : Nat) : Int) = glyphV exampleBeyond 65 + glyphHeight exampleBeyond 65)) ∧
    ((((98 : Nat) : Int) = glyphU exampleBeyond 65 ↔
        EncodePositionCoordFloat32 (topRightXFloat32 exampleViewport 16) =
          EncodePositionCoordFloat32 (bottomLeftXFloat32 exampleViewport 16)) ∧
      (((54 : Nat) : Int) = glyphV exampleBeyond 65 ↔
        EncodePositionCoordFloat32 (bottomLeftYFloat32 exampleBeyond exampleViewport 65 10) =
          EncodePositionCoordFloat32 (topRightYFloat32 exampleBeyond exampleViewport 65 10))) :=
  ⟨by decide!, exampleViewport_inRange, by decide, by decide, by decide, by decide, by decide!,
    by decide!, by decide!,
    (C25_vertices_pair_matching_corners exampleBeyond exampleViewport 65 16 10 0xFFFFFFFF
      ((EncodePositionCoordFloat32 (topRightXFloat32 exampleViewport 16),
        EncodePositionCoordFloat32 (bottomLeftYFloat32 exampleBeyond exampleViewport 65 10)),
        ((98 : Nat), (54 : Nat))) (by decide!)).1,
    (C25_vertices_pair_matching_corners exampleBeyond exampleViewport 65 16 10 0xFFFFFFFF
      ((EncodePositionCoordFloat32 (topRightXFloat32 exampleViewport 16),
        EncodePositionCoordFloat32 (bottomLeftYFloat32 exampleBeyond exampleViewport 65 10)),
        ((98 : Nat), (54 : Nat))) (by decide!)).2.1,
    (C25_vertices_pair_matching_corners exampleBeyond exampleViewport 65 16 10 0xFFFFFFFF
      ((EncodePositionCoordFloat32 (topRightXFloat32 exampleViewport 16),
        EncodePositionCoordFloat32 (bottomLeftYFloat32 exampleBeyond exampleViewport 65 10)),
        ((98 : Nat), (54 : Nat))) (by decide!)).2.2 exampleViewport_inRange (by decide)
      (by decide) (by decide) (by decide)⟩

/-- C26 fails as stated: `Print "A"` (height 9) at x = 2 ^ 29, y = 10 in a 640 by 480
viewport stores the same `float` for the left and the right edge, so both triangles,
taken from the stored positions in buffer order, have signed area 0. -/
theorem C26_degenerate_triangles_counterexample :
    (0 : Int) ≤ 536870912 ∧ (2 * (536870912 + 8) : Int) < 2 ^ 31 ∧
    0 < exampleViewport.Width ∧ 0 < exampleViewport.Height ∧
    0 < glyphHeight exampleBeyond 65 ∧
    vertexPositions (characterElementsFloat32 exampleBeyond exampleViewport 65 536870912 10
        0xFFFFFFFF) =
      [(13421765 / 8, 7654605 / 8388608), (13421765 / 8, 15938355 / 16777216),
        (13421765 / 8, 7654605 / 8388608), (13421765 / 8, 15938355 / 16777216),
        (13421765 / 8, 7654605 / 8388608), (13421765 / 8, 15938355 / 16777216)] ∧
    (∀ k, k < 24 →
      (PrintFloat32 exampleContext exampleMemory true exampleBeyond exampleViewport 1 letterAText
        536870912 10 0xFFFFFFFF).memory k =
      (characterElementsFloat32 exampleBeyond exampleViewport 65 536870912 10 0xFFFFFFFF).getD k
        (DWORD.bits 0)) ∧
    signedArea (13421765 / 8, 7654605 / 8388608) (13421765 / 8, 15938355 / 16777216)
      (13421765 / 8, 7654605 / 8388608) = 0 ∧
    signedArea (13421765 / 8, 15938355 / 16777216) (13421765 / 8, 7654605 / 8388608)
      (13421765 / 8, 15938355 / 16777216) = 0 := by
  decide!

/-- C26, amended to coordinates for which `float` keeps the edges apart: for
`0 ≤ x ≤ 2 ^ 20`, `-2 ^ 20 ≤ y ≤ 2 ^ 20`, a viewport whose width and height are `float`
values between 1 and `2 ^ 20` and a character of height greater than 0, the signed areas
of the two triangles of the glyph, taken over the rationals from the positions stored in
`float` arithmetic in buffer order, are equal and negative, hence not zero: the
triangles have the same winding. -/
theorem C26_triangles_same_winding (beyond : Nat → Fin 256) (viewport : D3D11_VIEWPORT)
    (currentChar x y : Int) (colour : Nat) (hx1 : 0 ≤ x) (hx2 : x ≤ 2 ^ 20)
    (hy1 : -2 ^ 20 ≤ y) (hy2 : y ≤ 2 ^ 20) (hv : viewport.InRange)
    (hheight : 0 < glyphHeight beyond currentChar) :
    signedArea
        ((vertexPositions
          (characterElementsFloat32 beyond viewport currentChar x y colour)).getD 0 (0, 0))
        ((vertexPositions
          (characterElementsFloat32 beyond viewport currentChar x y colour)).getD 1 (0, 0))
        ((vertexPositions
          (characterElementsFloat32 beyond viewport currentChar x y colour)).getD 2 (0, 0))
      = signedArea
        ((vertexPositions
          (characterElementsFloat32 beyond viewport currentChar x y colour)).getD 3 (0, 0))
        ((vertexPositions
          (characterElementsFloat32 beyond viewport currentChar x y colour)).getD 4 (0, 0))
        ((vertexPositions
          (characterElementsFloat32 beyond viewport currentChar x y colour)).getD 5 (0, 0))
    ∧ signedArea
        ((vertexPositions
          (characterElementsFloat32 beyond viewport currentChar x y colour)).getD 0 (0, 0))
        ((vertexPositions
          (characterElementsFloat32 beyond viewport currentChar x y colour)).getD 1 (0, 0))
        ((vertexPositions
          (characterElementsFloat32 beyond viewport currentChar x y colour)).getD 2 (0, 0))
      < 0
    ∧ signedArea
        ((vertexPositions
          (characterElementsFloat32 beyond viewport currentChar x y colour)).getD 0 (0, 0))
        ((vertexPositions
          (characterElementsFloat32 beyond viewport currentChar x y colour)).getD 1 (0, 0))
        ((vertexPositions
          (characterElementsFloat32 beyond viewport currentChar x y colour)).getD 2 (0, 0))
      ≠ 0 := by
  obtain ⟨l, r, t, b, hl, hr, ht, hb, hlr, hbt, _⟩ :=
    floatEdges_separated beyond viewport currentChar x y hv hx1 hx2 hy1 hy2
  have hbt' := hbt hheight
  rw [vertexPositions_characterElementsFloat32 beyond viewport currentChar x y colour l r t b hl
    hr ht hb]
  simp only [List.getD_cons_zero, List.getD_cons_succ, signedArea]
  have harea : ((l - l) * (b - b) - (r - l) * (t - b)) / 2 < 0 := by
    have h1 : 0 < (r - l) * (t - b) := mul_pos (by linarith) (by linarith)
    linarith
  refine ⟨?_, harea, ne_of_lt harea⟩
  ring

/-- C26 (amended) applied to the glyph of `A` printed at (16, 10) in a 640 by 480
viewport. -/
theorem C26_triangles_same_winding_witness :
    (0 : Int) ≤ 16 ∧ (16 : Int) ≤ 2 ^ 20 ∧ (-2 ^ 20 : Int) ≤ 10 ∧ (10 : Int) ≤ 2 ^ 20 ∧
    exampleViewport.InRange ∧ 0 < glyphHeight exampleBeyond 65 ∧
    (signedArea
        ((vertexPositions (characterElementsFloat32 exampleBeyond exampleViewport 65 16 10
          0xFFFFFFFF)).getD 0 (0, 0))
        ((vertexPositions (characterElementsFloat32 exampleBeyond exampleViewport 65 16 10
          0xFFFFFFFF)).getD 1 (0, 0))
        ((vertexPositions (characterElementsFloat32 exampleBeyond exampleViewport 65 16 10
          0xFFFFFFFF)).getD 2 (0, 0))
      = signedArea
        ((vertexPositions (characterElementsFloat32 exampleBeyond exampleViewport 65 16 10
          0xFFFFFFFF)).getD 3 (0, 0))
        ((vertexPositions (characterElementsFloat32 exampleBeyond exampleViewport 65 16 10
          0xFFFFFFFF)).getD 4 (0, 0))
        ((vertexPositions (characterElementsFloat32 exampleBeyond exampleViewport 65 16 10
          0xFFFFFFFF)).getD 5 (0, 0))
    ∧ signedArea
        ((vertexPositions (characterElementsFloat32 exampleBeyond exampleViewport 65 16 10
          0xFFFFFFFF)).getD 0 (0, 0))
        ((vertexPositions (characterElementsFloat32 exampleBeyond exampleViewport 65 16 10
          0xFFFFFFFF)).getD 1 (0, 0))
        ((vertexPositions (characterElementsFloat32 exampleBeyond exampleViewport 65 16 10
          0xFFFFFFFF)).getD 2 (0, 0))
      < 0
    ∧ signedArea
        ((vertexPositions (characterElementsFloat32 exampleBeyond exampleViewport 65 16 10
          0xFFFFFFFF)).getD 0 (0, 0))
        ((vertexPositions (characterElementsFloat32 exampleBeyond exampleViewport 65 16 10
          0xFFFFFFFF)).getD 1 (0, 0))
        ((vertexPositions (characterElementsFloat32 exampleBeyond exampleViewport 65 16 10
          0xFFFFFFFF)).getD 2 (0, 0))
      ≠ 0) :=
  ⟨by decide, by decide, by decide, by decide, exampleViewport_inRange, by decide!,
    C26_triangles_same_winding exampleBeyond exampleViewport 65 16 10 0xFFFFFFFF (by decide)
      (by decide) (by decide) (by decide) exampleViewport_inRange (by decide!)⟩

end TinyText
